import Mathlib

/-!
# Liveness decision core of `src/App.jsx`

A shallow embedding of the per-frame pipeline of `App.jsx` (`calculateEAR`,
`detect`, `analyzeMovement`, `detectHandGesture`, `addToHistory`,
`isLivenessConfirmed`, and the 15 s timer armed in `runModels`), and of the
second EAR estimator, `calculateEAR` of `src/blinkDetection.js`.

Modelling conventions.

* JavaScript numbers holding coordinates and ratios are taken in an ordered
  field `K` (exact arithmetic, no rounding, no overflow).  The only place where
  exact arithmetic is undefined, division by zero, is modelled with the IEEE
  special values (`JsNumber`), because `NaN < 0.25` and `Infinity < 0.25` are
  false in JavaScript.
* `Math.hypot` is a library function; it is a parameter `hypot` of everything
  that calls `calculateEAR`.  Likewise `Math.sqrt` is the parameter `sqrt` of
  the estimator of `blinkDetection.js`.
* The closure variables of `App` and the React state cells form one record,
  `Session`.  `Date.now()` values are integers (milliseconds).
* A `TypeError` raised by indexing `undefined` aborts `detect`; the session is
  left as it was at the moment of the throw.  `detect` therefore returns
  `Except (Session K) (Session K)`: `.error s` is an aborted call that left the
  session at `s`, `.ok s` a call that ran to its end.
* One call of `detect` is taken as atomic (calls do not overlap), and the
  frames considered are those that pass the `readyState` guard of line 64.
-/

namespace Liveness

variable {K : Type} [LinearOrderedField K]

set_option linter.unusedSectionVars false

/-! ## Data model -/

/-- A landmark as the code reads it: `p[0]` is `x` and `p[1]` is `y`; a third
coordinate, when the model supplies one, is never read. -/
structure Point (K : Type) where
  x : K
  y : K

/-- Value of a JavaScript arithmetic expression whose operands are finite:
a finite number, or one of the special values a division by zero produces. -/
inductive JsNumber (K : Type) where
  | finite (v : K)
  | posInf
  | negInf
  | nan

namespace JsNumber

/-- JavaScript `a / b` for finite `a` and a finite `b` that is not `-0`. -/
def div (a b : K) : JsNumber K :=
  if b = 0 then
    if 0 < a then posInf else if a < 0 then negInf else nan
  else finite (a / b)

/-- JavaScript `a + b`. -/
def add : JsNumber K → JsNumber K → JsNumber K
  | finite a, finite b => finite (a + b)
  | nan, _ => nan
  | _, nan => nan
  | posInf, negInf => nan
  | negInf, posInf => nan
  | posInf, _ => posInf
  | _, posInf => posInf
  | negInf, _ => negInf
  | _, negInf => negInf

/-- JavaScript `a / 2`. -/
def half : JsNumber K → JsNumber K
  | finite a => finite (a / 2)
  | posInf => posInf
  | negInf => negInf
  | nan => nan

/-- JavaScript `a < c` for a finite constant `c`. -/
def ltConst : JsNumber K → K → Bool
  | finite a, c => decide (a < c)
  | negInf, _ => true
  | posInf, _ => false
  | nan, _ => false

end JsNumber

/-- The closure variables of `App` (lines 16-21) together with the React state
cells `liveness`, `fallback`, `gesture` (lines 12-14).  `timeoutPending` says
that the timer whose handle is `livenessTimeout` is still scheduled. -/
structure Session (K : Type) where
  movementCount : Nat
  blinkCount : Nat
  lastBlinkTime : Int
  timeoutPending : Bool
  previousLandmarks : Option (List (Point K))
  livenessHistory : List String
  liveness : Bool
  fallback : Bool
  gesture : String

/-- What one call of `detect` gets from its environment: `face` is
`faces[0].scaledMesh` when `faces.length > 0`, `hand` is `hands[0].landmarks`
when `hands.length > 0`, and `now` is what `Date.now()` returns on line 87. -/
structure Frame (K : Type) where
  face : Option (List (Point K))
  hand : Option (List (Point K))
  now : Int

/-- `const historySize = 5` (line 22). -/
def historySize : Nat := 5

/-! ## The functions of `App.jsx` -/

/-- The right-hand side shared by `leftEAR` (lines 50-53) and `rightEAR`
(lines 55-58): `(hypot(p2 - p6) + hypot(p3 - p5)) / (2 * hypot(p1 - p4))`. -/
def eyeRatio (hypot : K → K → K) (p1 p2 p3 p4 p5 p6 : Point K) : JsNumber K :=
  JsNumber.div
    (hypot (p2.x - p6.x) (p2.y - p6.y) + hypot (p3.x - p5.x) (p3.y - p5.y))
    (2 * hypot (p1.x - p4.x) (p1.y - p4.y))

/-- `calculateEAR` (lines 42-61).  `none` is the `TypeError` raised when one of
the twelve landmarks is `undefined`. -/
def calculateEAR (hypot : K → K → K) (landmarks : List (Point K)) :
    Option (JsNumber K) :=
  match landmarks[362]?, landmarks[385]?, landmarks[387]?, landmarks[263]?,
      landmarks[373]?, landmarks[380]?, landmarks[33]?, landmarks[160]?,
      landmarks[158]?, landmarks[133]?, landmarks[153]?, landmarks[144]? with
  | some leftP1, some leftP2, some leftP3, some leftP4, some leftP5, some leftP6,
      some rightP1, some rightP2, some rightP3, some rightP4, some rightP5, some rightP6 =>
    let leftEAR := eyeRatio hypot leftP1 leftP2 leftP3 leftP4 leftP5 leftP6
    let rightEAR := eyeRatio hypot rightP1 rightP2 rightP3 rightP4 rightP5 rightP6
    some (JsNumber.half (JsNumber.add leftEAR rightEAR))
  | _, _, _, _, _, _, _, _, _, _, _, _ => none

/-- `addToHistory` (lines 174-177): `push`, then `shift` when the length
exceeds `historySize`. -/
def addToHistory (livenessHistory : List String) (status : String) : List String :=
  let pushed := livenessHistory ++ [status]
  if pushed.length > historySize then pushed.tail else pushed

/-- `isLivenessConfirmed` (lines 179-182); `historySize / 2` is the number 2.5. -/
def isLivenessConfirmed (livenessHistory : List String) : Bool :=
  let confirmedCount := (livenessHistory.filter (fun status => status == "confirmed")).length
  decide ((confirmedCount : ℚ) > (historySize : ℚ) / 2)

/-- Loop state of `analyzeMovement`: `totalHorizontalMovement`, the local
`movementCount` and `verticalMovementSignificant`. -/
structure MovementTally (K : Type) where
  totalHorizontalMovement : K
  movementCount : Nat
  verticalMovementSignificant : Bool

/-- One iteration of the `for` loop of `analyzeMovement` (lines 142-149) at
index `i`; `none` is a `TypeError` (an indexed landmark is `undefined`), which
ends the call. -/
def analyzeMovementStep (landmarks previousLandmarks : List (Point K))
    (acc : Option (MovementTally K)) (i : Nat) : Option (MovementTally K) :=
  match acc with
  | none => none
  | some t =>
    if i = 10 ∨ i = 152 ∨ i = 226 then
      match landmarks[i]?, previousLandmarks[i]? with
      | some p, some q =>
        let horizontalMovement := |p.x - q.x|
        some
          { totalHorizontalMovement := t.totalHorizontalMovement + horizontalMovement
            movementCount :=
              if horizontalMovement > 10 then t.movementCount + 1 else t.movementCount
            verticalMovementSignificant :=
              if |p.y - q.y| > 5 then true else t.verticalMovementSignificant }
      | _, _ => none
    else some t

/-- `analyzeMovement` (lines 136-153), with the closure variable
`previousLandmarks` as second argument.  Returns
`[movementCount, verticalMovementSignificant]`. -/
def analyzeMovement (landmarks previousLandmarks : List (Point K)) : Option (Nat × Bool) :=
  ((List.range landmarks.length).foldl (analyzeMovementStep landmarks previousLandmarks)
      (some { totalHorizontalMovement := 0, movementCount := 0,
              verticalMovementSignificant := false })).map
    fun t => (t.movementCount, t.verticalMovementSignificant)

/-- `detectHandGesture` (lines 155-163): the string handed to `setGesture`;
`none` is the `TypeError` of a hand with fewer than 13 points. -/
def detectHandGesture (landmarks : List (Point K)) : Option String := do
  let p8 ← landmarks[8]?
  let p6 ← landmarks[6]?
  let p12 ← landmarks[12]?
  let p10 ← landmarks[10]?
  if p8.y < p6.y ∧ p12.y < p10.y then
    pure "Open Palm ✋"
  else if p8.y > p6.y ∧ p12.y > p10.y then
    pure "Closed Fist ✊"
  else
    pure "Unknown Gesture"

/-! ## `detect`, block by block -/

/-- Lines 86-92 of `detect`: the debounced blink update. -/
def blinkUpdate (s : Session K) (EAR : JsNumber K) (currentTime : Int) : Session K :=
  if EAR.ltConst (1 / 4) then
    if currentTime - s.lastBlinkTime > 300 then
      { s with blinkCount := s.blinkCount + 1, lastBlinkTime := currentTime }
    else s
  else s

/-- Lines 95-98 of `detect`: three counted blinks give one vote. -/
def blinkConfirm (s : Session K) : Session K :=
  if s.blinkCount ≥ 3 then
    { s with livenessHistory := addToHistory s.livenessHistory "confirmed", blinkCount := 0 }
  else s

/-- Lines 101-109 of `detect`: movement detection against `previousLandmarks`. -/
def movementUpdate (s : Session K) (landmarks : List (Point K)) :
    Except (Session K) (Session K) :=
  match s.previousLandmarks with
  | none => .ok s
  | some previousLandmarks =>
    match analyzeMovement landmarks previousLandmarks with
    | none => .error s
    | some (horizontalMovements, verticalMovementSignificant) =>
      if horizontalMovements ≥ 2 ∧ verticalMovementSignificant = true then
        let s1 := { s with movementCount := s.movementCount + 1 }
        if s1.movementCount ≥ 3 then
          .ok { s1 with livenessHistory := addToHistory s1.livenessHistory "confirmed" }
        else .ok s1
      else .ok s

/-- Lines 79-116 of `detect`: the face branch and its `else`. -/
def faceBlock (hypot : K → K → K) (s : Session K) (f : Frame K) :
    Except (Session K) (Session K) :=
  match f.face with
  | some landmarks =>
    match calculateEAR hypot landmarks with
    | none => .error s
    | some EAR =>
      match movementUpdate (blinkConfirm (blinkUpdate s EAR f.now)) landmarks with
      | .error s2 => .error s2
      | .ok s2 => .ok { s2 with previousLandmarks := some landmarks }
  | none => .ok { s with previousLandmarks := none, movementCount := 0 }

/-- Lines 119-125 of `detect`: the session and the local `handDetected`. -/
def handBlock (s : Session K) (f : Frame K) : Except (Session K) (Session K × Bool) :=
  match f.hand with
  | some landmarks =>
    match detectHandGesture landmarks with
    | none => .error s
    | some g => .ok ({ s with gesture := g }, true)
  | none => .ok (s, false)

/-- Lines 128-133 of `detect`: `setLiveness`, and `clearTimeout` on a true verdict. -/
def verdictBlock (s : Session K) (handDetected : Bool) : Session K :=
  if isLivenessConfirmed s.livenessHistory && handDetected then
    { s with liveness := true, timeoutPending := false }
  else
    { s with liveness := false }

/-- `detect` (lines 63-134) on a frame that passed the `readyState` guard. -/
def detect (hypot : K → K → K) (s : Session K) (f : Frame K) :
    Except (Session K) (Session K) :=
  match faceBlock hypot s f with
  | .error s1 => .error s1
  | .ok s1 =>
    match handBlock s1 f with
    | .error s2 => .error s2
    | .ok (s2, handDetected) => .ok (verdictBlock s2 handDetected)

/-! ## The session: timer and event traces -/

/-- The value of `liveness` that the timer callback of line 36 reads: the
constant of the render in which `runModels` was called, `useState(false)`. -/
def capturedLiveness : Bool := false

/-- The callback of `setTimeout` (lines 35-37); it runs only while the timer is
still scheduled, and a timer fires once. -/
def deadlineFires (s : Session K) : Session K :=
  if s.timeoutPending then
    if !capturedLiveness then { s with fallback := true, timeoutPending := false }
    else { s with timeoutPending := false }
  else s

/-- The session when `runModels` has armed the timer (lines 16-21 and 31-37);
`startTime` is the `Date.now()` of line 18. -/
def runModels (startTime : Int) : Session K :=
  { movementCount := 0
    blinkCount := 0
    lastBlinkTime := startTime
    timeoutPending := true
    previousLandmarks := none
    livenessHistory := []
    liveness := false
    fallback := false
    gesture := "" }

/-- What happens to a session: a sampled frame is handed to `detect`, or the
15 s timer reaches its deadline. -/
inductive Event (K : Type) where
  | frame (f : Frame K)
  | deadline

/-- The session a call of `detect` leaves behind, whether it ended or threw. -/
def sessionAfter (r : Except (Session K) (Session K)) : Session K :=
  match r with
  | .ok s => s
  | .error s => s

/-- One event applied to the session. -/
def step (hypot : K → K → K) (s : Session K) : Event K → Session K
  | .frame f => sessionAfter (detect hypot s f)
  | .deadline => deadlineFires s

/-- A trace of events applied in order. -/
def run (hypot : K → K → K) (s : Session K) (es : List (Event K)) : Session K :=
  es.foldl (step hypot) s

/-! ## Specification-side functions -/

/-- The three indices the loop of `analyzeMovement` acts on. -/
def trackedIndices : List Nat := [10, 152, 226]

/-- Spec side of the movement analyser: number of tracked indices whose
horizontal displacement exceeds 10. -/
def horizontalHits (cur prev : List (Point K)) : Nat :=
  (trackedIndices.filter fun i =>
    decide (|(cur.getD i ⟨0, 0⟩).x - (prev.getD i ⟨0, 0⟩).x| > 10)).length

/-- Spec side of the movement analyser: some tracked index has a vertical
displacement above 5. -/
def verticalSignificant (cur prev : List (Point K)) : Bool :=
  trackedIndices.any fun i =>
    decide (|(cur.getD i ⟨0, 0⟩).y - (prev.getD i ⟨0, 0⟩).y| > 5)

/-- The input contract of `detect`: a face has the 388 landmarks `calculateEAR`
indexes, the stored previous face has the 227 landmarks `analyzeMovement`
indexes, and a hand has the 13 landmarks `detectHandGesture` indexes.  On such
input `detect` raises no `TypeError`. -/
def wellFormed (s : Session K) (f : Frame K) : Bool :=
  (match f.face with
    | none => true
    | some landmarks =>
      decide (388 ≤ landmarks.length) &&
        match s.previousLandmarks with
        | none => true
        | some previousLandmarks => decide (227 ≤ previousLandmarks.length)) &&
  (match f.hand with
    | none => true
    | some landmarks => decide (13 ≤ landmarks.length))

/-- Frames handed to `detect` one after the other. -/
def runFrames (hypot : K → K → K) (s : Session K) (fs : List (Frame K)) : Session K :=
  fs.foldl (fun s f => sessionAfter (detect hypot s f)) s

/-- Whether `detect`, run on frame `f` from session `s`, executes
`blinkCount++` (line 89): the frame has a face, `calculateEAR` returns, and the
blink update of lines 86-92 raises the counter. -/
def blinkCounted (hypot : K → K → K) (s : Session K) (f : Frame K) : Bool :=
  match f.face with
  | none => false
  | some landmarks =>
    match calculateEAR hypot landmarks with
    | none => false
    | some EAR => decide ((blinkUpdate s EAR f.now).blinkCount = s.blinkCount + 1)

/-- How many frames of `fs`, handed to `detect` in order from `s`, execute
`blinkCount++`. -/
def blinksCounted (hypot : K → K → K) : Session K → List (Frame K) → Nat
  | _, [] => 0
  | s, f :: fs =>
    (if blinkCounted hypot s f then 1 else 0) +
      blinksCounted hypot (sessionAfter (detect hypot s f)) fs

/-- The test of line 103 on the stored previous landmarks and the landmarks of
the frame: there are previous landmarks, `analyzeMovement` returns, and it
reports at least two horizontal hits together with a significant vertical
movement. -/
def pairQualifies (previous : Option (List (Point K))) (landmarks : List (Point K)) : Bool :=
  match previous with
  | none => false
  | some previousLandmarks =>
    match analyzeMovement landmarks previousLandmarks with
    | none => false
    | some (horizontalMovements, verticalMovementSignificant) =>
      decide (horizontalMovements ≥ 2) && verticalMovementSignificant

/-- Whether `detect`, run on frame `f` from session `s`, reaches the test of
line 103 and finds it true: the frame has a face, `calculateEAR` returns, and
the pair of previous and current landmarks qualifies. -/
def movementQualifies (hypot : K → K → K) (s : Session K) (f : Frame K) : Bool :=
  match f.face with
  | none => false
  | some landmarks =>
    match calculateEAR hypot landmarks with
    | none => false
    | some _ => pairQualifies s.previousLandmarks landmarks

/-- How many frames of `fs`, handed to `detect` in order from `s`, pass the
test of line 103. -/
def qualifyingPairs (hypot : K → K → K) : Session K → List (Frame K) → Nat
  | _, [] => 0
  | s, f :: fs =>
    (if movementQualifies hypot s f then 1 else 0) +
      qualifyingPairs hypot (sessionAfter (detect hypot s f)) fs

/-! ## Sample inputs -/

/-- A face mesh of 468 landmarks given by its landmark at each index. -/
def faceOf (g : Nat → Point K) : List (Point K) := (List.range 468).map g

/-- `Math.hypot` on rational arguments of which one is zero: the absolute value
of the other. -/
def hypotAxis (a b : ℚ) : ℚ := max |a| |b|

/-- A face with both eyes shut: the eye corners 263 and 133 at `(4, 0)`, every
other landmark at the origin, so that both eye ratios are `0 / 8`. -/
def shutEyes : List (Point ℚ) :=
  faceOf fun i => if i = 263 ∨ i = 133 then ⟨4, 0⟩ else ⟨0, 0⟩

/-- A face whose landmarks 10, 152 and 226 sit at `(12 k, 6 k)` and all others at
the origin: from `nodFace k` to `nodFace (k + 1)` the three tracked landmarks
move 12 px horizontally and 6 px vertically. -/
def nodFace (k : Nat) : List (Point K) :=
  faceOf fun i => if i = 10 ∨ i = 152 ∨ i = 226 then ⟨12 * k, 6 * k⟩ else ⟨0, 0⟩

/-- The `k`-th of the sampled frames showing `nodFace k`, 100 ms apart, no hand. -/
def nodFrame (k : Nat) : Frame K := ⟨some (nodFace k), none, 100 * k⟩

/-- A hand of 21 landmarks with every fingertip above its joints (`y` falls as
the index grows). -/
def openPalm : List (Point ℚ) := (List.range 21).map fun i : Nat => ⟨0, 20 - (i : ℚ)⟩

/-- A session in which three "confirmed" votes have been recorded. -/
def votedSession : Session ℚ :=
  { (runModels 0 : Session ℚ) with livenessHistory := ["confirmed", "confirmed", "confirmed"] }

/-- Five nodding frames in a row: the pairs (0,1), (1,2), (2,3), (3,4) qualify. -/
def nodTrace : List (Frame K) := [nodFrame 0, nodFrame 1, nodFrame 2, nodFrame 3, nodFrame 4]

/-- The sixth nodding frame, this one with an open hand in view. -/
def palmFrame : Frame ℚ := ⟨some (nodFace 5), some openPalm, 500⟩

/-! ## `blinkDetection.js` -/

namespace BlinkDetection

/-- The helper `distance` (lines 20-22 of `blinkDetection.js`); `Math.sqrt` is
the parameter `sqrt`, and `Math.pow(d, 2)` is `d ^ 2`. -/
def distance (sqrt : K → K) (point1 point2 : Point K) : K :=
  sqrt ((point1.x - point2.x) ^ 2 + (point1.y - point2.y) ^ 2)

/-- Lines 25-27 and 35 (left eye), 30-32 and 36 (right eye): the EAR of one eye
from the six entries of `leftEye` or `rightEye`. -/
def eyeRatio (sqrt : K → K) (eye0 eye1 eye2 eye3 eye4 eye5 : Point K) : JsNumber K :=
  let vertical1 := distance sqrt eye1 eye5
  let vertical2 := distance sqrt eye2 eye4
  let horizontal := distance sqrt eye0 eye3
  JsNumber.div (vertical1 + vertical2) (2 * horizontal)

/-- `calculateEAR` of `blinkDetection.js` (lines 10-42).  `none` is the
`TypeError` raised when one of the twelve landmarks is `undefined`. -/
def calculateEAR (sqrt : K → K) (landmarks : List (Point K)) : Option (JsNumber K) :=
  match landmarks[36]?, landmarks[37]?, landmarks[38]?, landmarks[39]?,
      landmarks[40]?, landmarks[41]?, landmarks[42]?, landmarks[43]?,
      landmarks[44]?, landmarks[45]?, landmarks[46]?, landmarks[47]? with
  | some l0, some l1, some l2, some l3, some l4, some l5,
      some r0, some r1, some r2, some r3, some r4, some r5 =>
    let leftEAR := eyeRatio sqrt l0 l1 l2 l3 l4 l5
    let rightEAR := eyeRatio sqrt r0 r1 r2 r3 r4 r5
    some (JsNumber.half (JsNumber.add leftEAR rightEAR))
  | _, _, _, _, _, _, _, _, _, _, _, _ => none

end BlinkDetection

/-- Spec side of the EAR estimator: distance between two landmarks on their
`x`, `y` coordinates, `hypot` being the Euclidean length. -/
def dist2D (hypot : K → K → K) (p q : Point K) : K := hypot (p.x - q.x) (p.y - q.y)

/-- Spec side of the EAR estimator: the ratio of one eye,
`(dist(p2,p6) + dist(p3,p5)) / (2 * dist(p1,p4))`. -/
def eyeRatioSpec (hypot : K → K → K) (p1 p2 p3 p4 p5 p6 : Point K) : K :=
  (dist2D hypot p2 p6 + dist2D hypot p3 p5) / (2 * dist2D hypot p1 p4)

/-- Spec side of the EAR estimator: the mean of the two eye ratios, the left eye
read at 362, 385, 387, 263, 373, 380 and the right eye at 33, 160, 158, 133,
153, 144. -/
def earSpec (hypot : K → K → K) (lm : List (Point K)) : K :=
  (eyeRatioSpec hypot (lm.getD 362 ⟨0, 0⟩) (lm.getD 385 ⟨0, 0⟩) (lm.getD 387 ⟨0, 0⟩)
      (lm.getD 263 ⟨0, 0⟩) (lm.getD 373 ⟨0, 0⟩) (lm.getD 380 ⟨0, 0⟩) +
    eyeRatioSpec hypot (lm.getD 33 ⟨0, 0⟩) (lm.getD 160 ⟨0, 0⟩) (lm.getD 158 ⟨0, 0⟩)
      (lm.getD 133 ⟨0, 0⟩) (lm.getD 153 ⟨0, 0⟩) (lm.getD 144 ⟨0, 0⟩)) / 2

/-- The index pairs of the two conventions: position in the 48-point layout
read by `blinkDetection.js`, and position in the mesh read by `App.jsx`. -/
def eyeIndexMap : List (Nat × Nat) :=
  [(36, 362), (37, 385), (38, 387), (39, 263), (40, 373), (41, 380),
   (42, 33), (43, 160), (44, 158), (45, 133), (46, 153), (47, 144)]

/-- A face with both eyes open, each eye 4 wide and 2 high: corners at `(0, 0)`
and `(4, 0)`, upper lid at `(1, 1)`, `(3, 1)`, lower lid at `(1, -1)`, `(3, -1)`. -/
def openEyes : List (Point K) :=
  faceOf fun i =>
    if i = 385 ∨ i = 160 then ⟨1, 1⟩
    else if i = 387 ∨ i = 158 then ⟨3, 1⟩
    else if i = 263 ∨ i = 133 then ⟨4, 0⟩
    else if i = 373 ∨ i = 153 then ⟨3, -1⟩
    else if i = 380 ∨ i = 144 then ⟨1, -1⟩
    else ⟨0, 0⟩

/-- The 48 landmarks that carry, at the positions `blinkDetection.js` reads, the
twelve eye landmarks of the mesh `lm`. -/
def toEyeLayout (lm : List (Point K)) : List (Point K) :=
  (List.range 48).map fun i => lm.getD ((eyeIndexMap.lookup i).getD 0) ⟨0, 0⟩

/-- What a session can hold after `n` frames: at most `B` blink votes and `M`
movement votes in the history, where three counted blinks pay for each blink
vote (`3 * B + blinkCount ≤ n`), a movement vote needs three earlier frames
(`M ≤ n - 3`), `movementCount` is below the number of frames, and previous
landmarks need one frame. -/
def EvidenceBound (n : Nat) (s : Session K) : Prop :=
  ∃ B M : Nat, s.livenessHistory.length ≤ B + M ∧ 3 * B + s.blinkCount ≤ n ∧
    M ≤ n - 3 ∧ s.movementCount ≤ n - 1 ∧ (s.previousLandmarks ≠ none → 1 ≤ n)

/-! # Theorems -/

/-! ## The vote history -/

theorem isLivenessConfirmed_iff (h : List String) :
    isLivenessConfirmed h = true ↔ 3 ≤ h.count "confirmed" := by
  have hc : (h.filter (fun status => status == "confirmed")).length = h.count "confirmed" := by
    rw [List.count, List.countP_eq_length_filter]
  simp only [isLivenessConfirmed, historySize, hc, decide_eq_true_eq, gt_iff_lt]
  have h5 : ((5 : ℕ) : ℚ) / 2 = 5 / 2 := by norm_num
  rw [h5, div_lt_iff₀ (by norm_num : (0 : ℚ) < 2)]
  constructor
  · intro hlt
    have : (5 : ℚ) < ((h.count "confirmed" * 2 : ℕ) : ℚ) := by push_cast; exact hlt
    have h2 : 5 < h.count "confirmed" * 2 := by exact_mod_cast this
    omega
  · intro hle
    have : (5 : ℚ) < ((h.count "confirmed" * 2 : ℕ) : ℚ) := by
      exact_mod_cast (by omega : 5 < h.count "confirmed" * 2)
    push_cast at this; exact this

theorem addToHistory_length_le (h : List String) (v : String) (hl : h.length ≤ 5) :
    (addToHistory h v).length ≤ 5 := by
  unfold addToHistory historySize
  simp only [List.length_append, List.length_singleton]
  split_ifs with hc
  · simp; omega
  · simp; omega

theorem addToHistory_five (a b c d e v : String) :
    addToHistory [a, b, c, d, e] v = [b, c, d, e, v] := by
  simp [addToHistory, historySize]

theorem addToHistory_of_length_lt (h : List String) (v : String) (hl : h.length < 5) :
    addToHistory h v = h ++ [v] := by
  unfold addToHistory historySize
  simp only [List.length_append, List.length_singleton]
  rw [if_neg (by omega)]

theorem addToHistory_of_length_ge (h : List String) (v : String) (hl : 5 ≤ h.length) :
    addToHistory h v = h.tail ++ [v] := by
  unfold addToHistory historySize
  simp only [List.length_append, List.length_singleton]
  rw [if_pos (by omega)]
  cases h with
  | nil => simp at hl
  | cons x xs => simp

/-! ## The movement analyser -/

theorem foldl_filter_of_skip {α : Type} (p : Nat → Prop) [DecidablePred p]
    (g : α → Nat → α) (hskip : ∀ a i, ¬ p i → g a i = a) (l : List Nat) (a : α) :
    l.foldl g a = (l.filter fun i => decide (p i)).foldl g a := by
  induction l generalizing a with
  | nil => rfl
  | cons i l ih =>
    by_cases hp : p i
    · simp [List.filter_cons, hp, ih]
    · simp [List.filter_cons, hp, hskip a i hp, ih]

theorem range_filter_tracked (n : Nat) (hn : 227 ≤ n) :
    ((List.range n).filter fun i => decide (i = 10 ∨ i = 152 ∨ i = 226)) = [10, 152, 226] := by
  obtain ⟨m, rfl⟩ : ∃ m, n = 227 + m := ⟨n - 227, by omega⟩
  rw [List.range_add, List.filter_append]
  have h1 : ((List.range 227).filter fun i => decide (i = 10 ∨ i = 152 ∨ i = 226))
      = [10, 152, 226] := by decide
  have h2 : ((List.map (fun x => 227 + x) (List.range m)).filter
      fun i => decide (i = 10 ∨ i = 152 ∨ i = 226)) = [] := by
    rw [List.filter_eq_nil_iff]
    intro a ha
    obtain ⟨j, _, rfl⟩ := List.mem_map.1 ha
    simp; omega
  rw [h1, h2]; rfl

theorem analyzeMovementStep_skip (cur prev : List (Point K)) (a : Option (MovementTally K))
    (i : Nat) (hi : ¬ (i = 10 ∨ i = 152 ∨ i = 226)) :
    analyzeMovementStep cur prev a i = a := by
  unfold analyzeMovementStep
  cases a with
  | none => rfl
  | some t => simp only [if_neg hi]

theorem length_filter_three (q : Nat → Bool) (a b c : Nat) :
    ([a, b, c].filter q).length =
      (if q a then 1 else 0) + (if q b then 1 else 0) + (if q c then 1 else 0) := by
  simp only [List.filter_cons, List.filter_nil]
  cases q a <;> cases q b <;> cases q c <;> rfl

theorem analyzeMovementStep_tracked (cur prev : List (Point K)) (t : MovementTally K)
    (i : Nat) (hi : i = 10 ∨ i = 152 ∨ i = 226)
    (hc : 227 ≤ cur.length) (hp : 227 ≤ prev.length) :
    analyzeMovementStep cur prev (some t) i = some
      { totalHorizontalMovement :=
          t.totalHorizontalMovement + |(cur.getD i ⟨0, 0⟩).x - (prev.getD i ⟨0, 0⟩).x|
        movementCount := t.movementCount +
          (if |(cur.getD i ⟨0, 0⟩).x - (prev.getD i ⟨0, 0⟩).x| > 10 then 1 else 0)
        verticalMovementSignificant := t.verticalMovementSignificant ||
          decide (|(cur.getD i ⟨0, 0⟩).y - (prev.getD i ⟨0, 0⟩).y| > 5) } := by
  have e1 : cur[i]? = some (cur.getD i ⟨0, 0⟩) := by
    rw [List.getD_eq_getElem?_getD, List.getElem?_eq_getElem (by omega)]; rfl
  have e2 : prev[i]? = some (prev.getD i ⟨0, 0⟩) := by
    rw [List.getD_eq_getElem?_getD, List.getElem?_eq_getElem (by omega)]; rfl
  simp only [analyzeMovementStep, if_pos hi, e1, e2]
  congr 2
  · split_ifs <;> rfl
  · by_cases hv : |(cur.getD i ⟨0, 0⟩).y - (prev.getD i ⟨0, 0⟩).y| > 5
    · rw [if_pos hv, decide_eq_true hv, Bool.or_true]
    · rw [if_neg hv, decide_eq_false hv, Bool.or_false]

theorem analyzeMovement_eq (cur prev : List (Point K))
    (hc : 227 ≤ cur.length) (hp : 227 ≤ prev.length) :
    analyzeMovement cur prev = some (horizontalHits cur prev, verticalSignificant cur prev) := by
  unfold analyzeMovement
  rw [foldl_filter_of_skip (fun i => i = 10 ∨ i = 152 ∨ i = 226) _
    (analyzeMovementStep_skip cur prev), range_filter_tracked _ hc]
  simp only [List.foldl_cons, List.foldl_nil]
  rw [analyzeMovementStep_tracked cur prev _ 10 (by simp) hc hp,
    analyzeMovementStep_tracked cur prev _ 152 (by simp) hc hp,
    analyzeMovementStep_tracked cur prev _ 226 (by simp) hc hp]
  simp only [Option.map_some', horizontalHits, verticalSignificant, trackedIndices,
    length_filter_three, List.any_cons, List.any_nil, Bool.or_false, Bool.false_or,
    Nat.zero_add, Bool.or_assoc, decide_eq_true_eq]

/-! ## The blocks of detect -/

section blocks
variable (s : Session K) (e : JsNumber K) (t : Int) (lm : List (Point K))

@[simp] theorem blinkUpdate_movementCount : (blinkUpdate s e t).movementCount = s.movementCount := by
  unfold blinkUpdate; split_ifs <;> rfl
@[simp] theorem blinkUpdate_timeoutPending : (blinkUpdate s e t).timeoutPending = s.timeoutPending := by
  unfold blinkUpdate; split_ifs <;> rfl
@[simp] theorem blinkUpdate_previousLandmarks :
    (blinkUpdate s e t).previousLandmarks = s.previousLandmarks := by
  unfold blinkUpdate; split_ifs <;> rfl
@[simp] theorem blinkUpdate_livenessHistory :
    (blinkUpdate s e t).livenessHistory = s.livenessHistory := by
  unfold blinkUpdate; split_ifs <;> rfl
@[simp] theorem blinkUpdate_liveness : (blinkUpdate s e t).liveness = s.liveness := by
  unfold blinkUpdate; split_ifs <;> rfl
@[simp] theorem blinkUpdate_fallback : (blinkUpdate s e t).fallback = s.fallback := by
  unfold blinkUpdate; split_ifs <;> rfl
@[simp] theorem blinkUpdate_gesture : (blinkUpdate s e t).gesture = s.gesture := by
  unfold blinkUpdate; split_ifs <;> rfl

@[simp] theorem blinkConfirm_movementCount : (blinkConfirm s).movementCount = s.movementCount := by
  unfold blinkConfirm; split_ifs <;> rfl
@[simp] theorem blinkConfirm_lastBlinkTime : (blinkConfirm s).lastBlinkTime = s.lastBlinkTime := by
  unfold blinkConfirm; split_ifs <;> rfl
@[simp] theorem blinkConfirm_timeoutPending : (blinkConfirm s).timeoutPending = s.timeoutPending := by
  unfold blinkConfirm; split_ifs <;> rfl
@[simp] theorem blinkConfirm_previousLandmarks :
    (blinkConfirm s).previousLandmarks = s.previousLandmarks := by
  unfold blinkConfirm; split_ifs <;> rfl
@[simp] theorem blinkConfirm_liveness : (blinkConfirm s).liveness = s.liveness := by
  unfold blinkConfirm; split_ifs <;> rfl
@[simp] theorem blinkConfirm_fallback : (blinkConfirm s).fallback = s.fallback := by
  unfold blinkConfirm; split_ifs <;> rfl
@[simp] theorem blinkConfirm_gesture : (blinkConfirm s).gesture = s.gesture := by
  unfold blinkConfirm; split_ifs <;> rfl

/-- Whatever `movementUpdate` does, the session it leaves differs from the one
it got in `movementCount` and `livenessHistory` only. -/
theorem movementUpdate_frame :
    ∃ n h, sessionAfter (movementUpdate s lm) =
      { s with movementCount := n, livenessHistory := h } := by
  unfold movementUpdate
  split
  · exact ⟨s.movementCount, s.livenessHistory, rfl⟩
  · split
    · exact ⟨s.movementCount, s.livenessHistory, rfl⟩
    · dsimp only
      split_ifs
      · exact ⟨_, _, rfl⟩
      · exact ⟨_, s.livenessHistory, rfl⟩
      · exact ⟨s.movementCount, s.livenessHistory, rfl⟩

end blocks

theorem calculateEAR_isSome (hypot : K → K → K) (lm : List (Point K)) (hl : 388 ≤ lm.length) :
    ∃ e, calculateEAR hypot lm = some e := by
  unfold calculateEAR
  simp only [List.getElem?_eq_getElem (show 362 < lm.length by omega),
    List.getElem?_eq_getElem (show 385 < lm.length by omega),
    List.getElem?_eq_getElem (show 387 < lm.length by omega),
    List.getElem?_eq_getElem (show 263 < lm.length by omega),
    List.getElem?_eq_getElem (show 373 < lm.length by omega),
    List.getElem?_eq_getElem (show 380 < lm.length by omega),
    List.getElem?_eq_getElem (show 33 < lm.length by omega),
    List.getElem?_eq_getElem (show 160 < lm.length by omega),
    List.getElem?_eq_getElem (show 158 < lm.length by omega),
    List.getElem?_eq_getElem (show 133 < lm.length by omega),
    List.getElem?_eq_getElem (show 153 < lm.length by omega),
    List.getElem?_eq_getElem (show 144 < lm.length by omega)]
  exact ⟨_, rfl⟩

theorem length_of_calculateEAR (hypot : K → K → K) (lm : List (Point K)) (e : JsNumber K)
    (h : calculateEAR hypot lm = some e) : 388 ≤ lm.length := by
  unfold calculateEAR at h
  split at h
  · rename_i h387 _ _ _ _ _ _ _ _ _
    have := (List.getElem?_eq_some.1 h387).1
    omega
  · exact absurd h (by simp)

theorem detectHandGesture_isSome (lm : List (Point K)) (hl : 13 ≤ lm.length) :
    ∃ g, detectHandGesture lm = some g := by
  unfold detectHandGesture
  simp only [List.getElem?_eq_getElem (show 8 < lm.length by omega),
    List.getElem?_eq_getElem (show 6 < lm.length by omega),
    List.getElem?_eq_getElem (show 12 < lm.length by omega),
    List.getElem?_eq_getElem (show 10 < lm.length by omega), Option.bind_eq_bind,
    Option.some_bind, Option.pure_def]
  split_ifs <;> exact ⟨_, rfl⟩

section detectLemmas
variable (hypot : K → K → K) (s : Session K) (f : Frame K)

theorem faceBlock_of_no_face (h : f.face = none) :
    faceBlock hypot s f = .ok { s with previousLandmarks := none, movementCount := 0 } := by
  unfold faceBlock; rw [h]

theorem faceBlock_of_malformed (lm : List (Point K)) (h : f.face = some lm)
    (he : calculateEAR hypot lm = none) : faceBlock hypot s f = .error s := by
  unfold faceBlock; rw [h]; simp only [he]

theorem faceBlock_of_face (lm : List (Point K)) (e : JsNumber K) (h : f.face = some lm)
    (he : calculateEAR hypot lm = some e) :
    faceBlock hypot s f =
      match movementUpdate (blinkConfirm (blinkUpdate s e f.now)) lm with
      | .error s2 => .error s2
      | .ok s2 => .ok { s2 with previousLandmarks := some lm } := by
  unfold faceBlock; rw [h]; simp only [he]

/-- The face block leaves `timeoutPending`, `liveness`, `fallback` and `gesture`
alone. -/
theorem faceBlock_frame :
    ∃ n b t p h, sessionAfter (faceBlock hypot s f) =
      { s with movementCount := n, blinkCount := b, lastBlinkTime := t,
               previousLandmarks := p, livenessHistory := h } := by
  cases hf : f.face with
  | none => rw [faceBlock_of_no_face hypot s f hf]; exact ⟨_, _, _, _, _, rfl⟩
  | some lm =>
    cases he : calculateEAR hypot lm with
    | none => rw [faceBlock_of_malformed hypot s f lm hf he]; exact ⟨_, _, _, _, _, rfl⟩
    | some e =>
      rw [faceBlock_of_face hypot s f lm e hf he]
      obtain ⟨n, h, hm⟩ := movementUpdate_frame (blinkConfirm (blinkUpdate s e f.now)) lm
      cases hmu : movementUpdate (blinkConfirm (blinkUpdate s e f.now)) lm with
      | error s2 =>
        rw [hmu] at hm
        simp only [sessionAfter] at hm ⊢
        rw [hm]
        refine ⟨n, (blinkConfirm (blinkUpdate s e f.now)).blinkCount,
          (blinkConfirm (blinkUpdate s e f.now)).lastBlinkTime, s.previousLandmarks, h, ?_⟩
        simp
      | ok s2 =>
        rw [hmu] at hm
        simp only [sessionAfter] at hm ⊢
        rw [hm]
        refine ⟨n, (blinkConfirm (blinkUpdate s e f.now)).blinkCount,
          (blinkConfirm (blinkUpdate s e f.now)).lastBlinkTime, some lm, h, ?_⟩
        simp

theorem handBlock_ok (s2 : Session K) (hd : Bool) (h : handBlock s f = .ok (s2, hd)) :
    hd = f.hand.isSome ∧ ∃ g, s2 = { s with gesture := g } := by
  unfold handBlock at h
  cases hh : f.hand with
  | none =>
    simp only [hh, Except.ok.injEq, Prod.mk.injEq] at h
    exact ⟨h.2.symm, s.gesture, h.1.symm⟩
  | some lm =>
    simp only [hh] at h
    cases hg : detectHandGesture lm with
    | none => simp [hg] at h
    | some g =>
      simp only [hg, Except.ok.injEq, Prod.mk.injEq] at h
      exact ⟨h.2.symm, g, h.1.symm⟩

theorem handBlock_error (s2 : Session K) (h : handBlock s f = .error s2) : s2 = s := by
  unfold handBlock at h
  cases hh : f.hand with
  | none => simp [hh] at h
  | some lm =>
    simp only [hh] at h
    cases hg : detectHandGesture lm with
    | none => simp only [hg, Except.error.injEq] at h; exact h.symm
    | some g => simp [hg] at h

theorem handBlock_isOk (h : ∀ lm, f.hand = some lm → 13 ≤ lm.length) :
    ∃ g, handBlock s f = .ok ({ s with gesture := g }, f.hand.isSome) := by
  unfold handBlock
  cases hh : f.hand with
  | none => exact ⟨s.gesture, rfl⟩
  | some lm =>
    obtain ⟨g, hg⟩ := detectHandGesture_isSome lm (h lm hh)
    exact ⟨g, by simp only [hg]; rfl⟩

end detectLemmas

/-! ## `detect` as a whole -/

section detectWhole
variable (hypot : K → K → K) (s : Session K) (f : Frame K) (hd : Bool)

@[simp] theorem verdictBlock_movementCount :
    (verdictBlock s hd).movementCount = s.movementCount := by
  unfold verdictBlock; split_ifs <;> rfl
@[simp] theorem verdictBlock_blinkCount : (verdictBlock s hd).blinkCount = s.blinkCount := by
  unfold verdictBlock; split_ifs <;> rfl
@[simp] theorem verdictBlock_lastBlinkTime :
    (verdictBlock s hd).lastBlinkTime = s.lastBlinkTime := by
  unfold verdictBlock; split_ifs <;> rfl
@[simp] theorem verdictBlock_previousLandmarks :
    (verdictBlock s hd).previousLandmarks = s.previousLandmarks := by
  unfold verdictBlock; split_ifs <;> rfl
@[simp] theorem verdictBlock_livenessHistory :
    (verdictBlock s hd).livenessHistory = s.livenessHistory := by
  unfold verdictBlock; split_ifs <;> rfl
@[simp] theorem verdictBlock_fallback : (verdictBlock s hd).fallback = s.fallback := by
  unfold verdictBlock; split_ifs <;> rfl
@[simp] theorem verdictBlock_gesture : (verdictBlock s hd).gesture = s.gesture := by
  unfold verdictBlock; split_ifs <;> rfl

theorem verdictBlock_liveness :
    (verdictBlock s hd).liveness = (isLivenessConfirmed s.livenessHistory && hd) := by
  unfold verdictBlock
  split_ifs with h
  · exact h.symm
  · simp only [Bool.not_eq_true] at h; exact h.symm

theorem verdictBlock_timeoutPending :
    (verdictBlock s hd).timeoutPending =
      (s.timeoutPending && !(isLivenessConfirmed s.livenessHistory && hd)) := by
  unfold verdictBlock
  split_ifs with h
  · simp [h]
  · simp only [Bool.not_eq_true] at h; simp [h]

theorem detect_ok_iff (s' : Session K) :
    detect hypot s f = .ok s' ↔
      ∃ s1 s2 hd, faceBlock hypot s f = .ok s1 ∧ handBlock s1 f = .ok (s2, hd) ∧
        s' = verdictBlock s2 hd := by
  constructor
  · intro h
    unfold detect at h
    cases hfb : faceBlock hypot s f with
    | error s1 => simp [hfb] at h
    | ok s1 =>
      simp only [hfb] at h
      cases hhb : handBlock s1 f with
      | error s2 => simp [hhb] at h
      | ok r =>
        obtain ⟨s2, hd⟩ := r
        simp only [hhb, Except.ok.injEq] at h
        exact ⟨s1, s2, hd, rfl, hhb, h.symm⟩
  · rintro ⟨s1, s2, hd, h1, h2, rfl⟩
    unfold detect
    simp only [h1, h2]

/-- After the face block, `detect` only touches `gesture`, `liveness` and
`timeoutPending`, and it never re-arms the timer. -/
theorem detect_after_face :
    ∃ g l tp, sessionAfter (detect hypot s f) =
        { sessionAfter (faceBlock hypot s f) with
          gesture := g, liveness := l, timeoutPending := tp } ∧
      (tp = true → s.timeoutPending = true) := by
  obtain ⟨n, b, t, p, h, hfr⟩ := faceBlock_frame hypot s f
  have htp : (sessionAfter (faceBlock hypot s f)).timeoutPending = s.timeoutPending := by
    rw [hfr]
  unfold detect
  cases hfb : faceBlock hypot s f with
  | error s1 =>
    refine ⟨s1.gesture, s1.liveness, s1.timeoutPending, rfl, ?_⟩
    intro h1; rw [hfb] at htp; rw [← htp]; exact h1
  | ok s1 =>
    rw [hfb] at htp
    simp only [sessionAfter] at htp ⊢
    cases hhb : handBlock s1 f with
    | error s2 =>
      rw [handBlock_error s1 f s2 hhb]
      exact ⟨s1.gesture, s1.liveness, s1.timeoutPending, rfl, fun h1 => by rw [← htp]; exact h1⟩
    | ok r =>
      obtain ⟨s2, hd⟩ := r
      obtain ⟨-, g, rfl⟩ := handBlock_ok s1 f s2 hd hhb
      refine ⟨g, (verdictBlock { s1 with gesture := g } hd).liveness,
        (verdictBlock { s1 with gesture := g } hd).timeoutPending, ?_, ?_⟩
      · simp only [verdictBlock]; split_ifs <;> rfl
      · rw [verdictBlock_timeoutPending]
        intro h1
        simp only [Bool.and_eq_true] at h1
        rw [← htp]; exact h1.1

theorem detect_fallback : (sessionAfter (detect hypot s f)).fallback = s.fallback := by
  obtain ⟨g, l, tp, h, -⟩ := detect_after_face hypot s f
  obtain ⟨n, b, t, p, hh, hfr⟩ := faceBlock_frame hypot s f
  rw [h, hfr]

theorem detect_timeoutPending (h : (sessionAfter (detect hypot s f)).timeoutPending = true) :
    s.timeoutPending = true := by
  obtain ⟨g, l, tp, h1, h2⟩ := detect_after_face hypot s f
  rw [h1] at h
  exact h2 h

theorem detect_movementCount :
    (sessionAfter (detect hypot s f)).movementCount =
      (sessionAfter (faceBlock hypot s f)).movementCount := by
  obtain ⟨g, l, tp, h, -⟩ := detect_after_face hypot s f
  rw [h]

theorem detect_blinkCount :
    (sessionAfter (detect hypot s f)).blinkCount =
      (sessionAfter (faceBlock hypot s f)).blinkCount := by
  obtain ⟨g, l, tp, h, -⟩ := detect_after_face hypot s f
  rw [h]

theorem detect_lastBlinkTime :
    (sessionAfter (detect hypot s f)).lastBlinkTime =
      (sessionAfter (faceBlock hypot s f)).lastBlinkTime := by
  obtain ⟨g, l, tp, h, -⟩ := detect_after_face hypot s f
  rw [h]

theorem detect_previousLandmarks :
    (sessionAfter (detect hypot s f)).previousLandmarks =
      (sessionAfter (faceBlock hypot s f)).previousLandmarks := by
  obtain ⟨g, l, tp, h, -⟩ := detect_after_face hypot s f
  rw [h]

theorem detect_livenessHistory :
    (sessionAfter (detect hypot s f)).livenessHistory =
      (sessionAfter (faceBlock hypot s f)).livenessHistory := by
  obtain ⟨g, l, tp, h, -⟩ := detect_after_face hypot s f
  rw [h]

end detectWhole

/-! ## Totality on well-formed input -/

section totality
variable (hypot : K → K → K) (s : Session K) (f : Frame K)

/-- With a stored previous face, on lists long enough for the three tracked
indices, `movementUpdate` is decided by what `analyzeMovement` reports. -/
theorem movementUpdate_of_previous (lm prev : List (Point K))
    (hprev : s.previousLandmarks = some prev) (hl : 227 ≤ lm.length)
    (hp : 227 ≤ prev.length) :
    movementUpdate s lm = .ok
      (if horizontalHits lm prev ≥ 2 ∧ verticalSignificant lm prev = true then
        if s.movementCount + 1 ≥ 3 then
          { s with movementCount := s.movementCount + 1,
                   livenessHistory := addToHistory s.livenessHistory "confirmed" }
        else { s with movementCount := s.movementCount + 1 }
      else s) := by
  unfold movementUpdate
  simp only [hprev, analyzeMovement_eq lm prev hl hp]
  split_ifs <;> rfl

theorem movementUpdate_of_no_previous (lm : List (Point K))
    (hprev : s.previousLandmarks = none) : movementUpdate s lm = .ok s := by
  unfold movementUpdate; simp only [hprev]

theorem movementUpdate_isOk (lm : List (Point K)) (hl : 227 ≤ lm.length)
    (hp : ∀ prev, s.previousLandmarks = some prev → 227 ≤ prev.length) :
    ∃ s', movementUpdate s lm = .ok s' := by
  cases hprev : s.previousLandmarks with
  | none => exact ⟨s, movementUpdate_of_no_previous s lm hprev⟩
  | some prev => exact ⟨_, movementUpdate_of_previous s lm prev hprev hl (hp prev hprev)⟩

theorem faceBlock_isOk (hface : ∀ lm, f.face = some lm →
      388 ≤ lm.length ∧ ∀ prev, s.previousLandmarks = some prev → 227 ≤ prev.length) :
    ∃ s', faceBlock hypot s f = .ok s' := by
  cases hf : f.face with
  | none => exact ⟨_, faceBlock_of_no_face hypot s f hf⟩
  | some lm =>
    obtain ⟨hl, hp⟩ := hface lm hf
    obtain ⟨e, he⟩ := calculateEAR_isSome hypot lm hl
    obtain ⟨s2, h2⟩ := movementUpdate_isOk (blinkConfirm (blinkUpdate s e f.now)) lm
      (by omega) (by simpa using hp)
    exact ⟨_, by rw [faceBlock_of_face hypot s f lm e hf he, h2]⟩

theorem wellFormed_iff :
    wellFormed s f = true ↔
      (∀ lm, f.face = some lm →
        388 ≤ lm.length ∧ ∀ prev, s.previousLandmarks = some prev → 227 ≤ prev.length) ∧
      (∀ lm, f.hand = some lm → 13 ≤ lm.length) := by
  unfold wellFormed
  cases f.face <;> cases f.hand <;> cases s.previousLandmarks <;> simp

theorem detect_isOk (hwf : wellFormed s f = true) : ∃ s', detect hypot s f = .ok s' := by
  obtain ⟨hface, hhand⟩ := (wellFormed_iff s f).1 hwf
  obtain ⟨s1, h1⟩ := faceBlock_isOk hypot s f hface
  obtain ⟨g, h2⟩ := handBlock_isOk s1 f hhand
  exact ⟨_, (detect_ok_iff hypot s f _).2 ⟨s1, _, _, h1, h2, rfl⟩⟩

end totality

/-! ## Claims about the verdict and the vote history -/

/-- The verdict of a frame that ran to its end: the majority test on the
history the frame left, and hand presence. -/
theorem detect_liveness_of_ok (hypot : K → K → K) (s : Session K) (f : Frame K)
    (s' : Session K) (h : detect hypot s f = .ok s') :
    s'.liveness = (isLivenessConfirmed s'.livenessHistory && f.hand.isSome) := by
  obtain ⟨s1, s2, hd, -, h2, rfl⟩ := (detect_ok_iff hypot s f s').1 h
  obtain ⟨rfl, -⟩ := handBlock_ok s1 f s2 _ h2
  rw [verdictBlock_liveness, verdictBlock_livenessHistory]

/-- C1: whenever `detect` runs a frame to its end, the value it hands to
`setLiveness` is `isLivenessConfirmed()` on the history as the frame left it,
AND-ed with hand presence in this frame; so a frame without a hand gives
`false` whatever the history holds.  On well-formed input `detect` does run to
its end. -/
theorem detect_liveness_eq_majority_and_hand (hypot : K → K → K) (s : Session K)
    (f : Frame K) :
    (wellFormed s f = true → ∃ s', detect hypot s f = .ok s') ∧
    (∀ s', detect hypot s f = .ok s' →
      s'.liveness = (isLivenessConfirmed s'.livenessHistory && f.hand.isSome) ∧
      (f.hand = none → s'.liveness = false)) := by
  refine ⟨detect_isOk hypot s f, ?_⟩
  intro s' h
  have hv := detect_liveness_of_ok hypot s f s' h
  refine ⟨hv, ?_⟩
  intro hnone
  rw [hv, hnone]
  simp

/-- Witness for C1: a session whose history holds five "confirmed" votes, and a
frame with neither face nor hand; `detect` ends and reports `false`. -/
theorem detect_liveness_eq_majority_and_hand_witness :
    wellFormed
        ({ (runModels 0 : Session ℚ) with
            livenessHistory := ["confirmed", "confirmed", "confirmed", "confirmed", "confirmed"] })
        ⟨none, none, 0⟩ = true ∧
      ∃ s', detect (fun _ _ => (0 : ℚ))
          ({ (runModels 0 : Session ℚ) with
            livenessHistory := ["confirmed", "confirmed", "confirmed", "confirmed", "confirmed"] })
          ⟨none, none, 0⟩ = .ok s' ∧ s'.liveness = false :=
  ⟨rfl,
    ((detect_liveness_eq_majority_and_hand (fun _ _ => (0 : ℚ)) _ ⟨none, none, 0⟩).1 rfl).elim
      fun s' h => ⟨s', h,
        ((detect_liveness_eq_majority_and_hand (fun _ _ => (0 : ℚ)) _ ⟨none, none, 0⟩).2
          s' h).2 rfl⟩⟩

/-- C2: `isLivenessConfirmed` holds exactly when at least three entries of the
history are "confirmed", which is the test `count > 5 / 2`; three confirmed
entries out of five pass and two do not. -/
theorem isLivenessConfirmed_iff_three_confirmed :
    (∀ h : List String,
      (isLivenessConfirmed h = true ↔ 3 ≤ h.count "confirmed") ∧
      (isLivenessConfirmed h = true ↔ ((h.count "confirmed" : ℕ) : ℚ) > 5 / 2)) ∧
    isLivenessConfirmed ["confirmed", "confirmed", "confirmed", "x", "x"] = true ∧
    isLivenessConfirmed ["confirmed", "confirmed", "x", "x", "x"] = false := by
  refine ⟨fun h => ⟨isLivenessConfirmed_iff h, ?_⟩, ?_, ?_⟩
  · have hc : (h.filter (fun status => status == "confirmed")).length = h.count "confirmed" := by
      rw [List.count, List.countP_eq_length_filter]
    simp only [isLivenessConfirmed, historySize, hc, decide_eq_true_eq]
    norm_num
  · rw [isLivenessConfirmed_iff]; decide
  · rw [← Bool.not_eq_true, isLivenessConfirmed_iff]; decide

/-! ## The history never exceeds five entries -/

theorem blinkConfirm_history_length (s : Session K) (h : s.livenessHistory.length ≤ 5) :
    (blinkConfirm s).livenessHistory.length ≤ 5 := by
  unfold blinkConfirm
  split_ifs
  · exact addToHistory_length_le _ _ h
  · exact h

theorem movementUpdate_history_length (s : Session K) (lm : List (Point K))
    (h : s.livenessHistory.length ≤ 5) :
    (sessionAfter (movementUpdate s lm)).livenessHistory.length ≤ 5 := by
  unfold movementUpdate
  split
  · exact h
  · split
    · exact h
    · dsimp only
      split_ifs
      · exact addToHistory_length_le _ _ h
      · exact h
      · exact h

theorem faceBlock_history_length (hypot : K → K → K) (s : Session K) (f : Frame K)
    (h : s.livenessHistory.length ≤ 5) :
    (sessionAfter (faceBlock hypot s f)).livenessHistory.length ≤ 5 := by
  cases hf : f.face with
  | none => rw [faceBlock_of_no_face hypot s f hf]; exact h
  | some lm =>
    cases he : calculateEAR hypot lm with
    | none => rw [faceBlock_of_malformed hypot s f lm hf he]; exact h
    | some e =>
      rw [faceBlock_of_face hypot s f lm e hf he]
      have h2 := movementUpdate_history_length (blinkConfirm (blinkUpdate s e f.now)) lm
        (blinkConfirm_history_length _ (by simpa using h))
      cases hmu : movementUpdate (blinkConfirm (blinkUpdate s e f.now)) lm with
      | error s2 => rw [hmu] at h2; exact h2
      | ok s2 => rw [hmu] at h2; exact h2

theorem step_history_length (hypot : K → K → K) (s : Session K) (e : Event K)
    (h : s.livenessHistory.length ≤ 5) : (step hypot s e).livenessHistory.length ≤ 5 := by
  cases e with
  | frame f =>
    show (sessionAfter (detect hypot s f)).livenessHistory.length ≤ 5
    rw [detect_livenessHistory]
    exact faceBlock_history_length hypot s f h
  | deadline =>
    show (deadlineFires s).livenessHistory.length ≤ 5
    unfold deadlineFires capturedLiveness
    split_ifs <;> exact h

theorem run_history_length (hypot : K → K → K) (es : List (Event K)) (s : Session K)
    (h : s.livenessHistory.length ≤ 5) : (run hypot s es).livenessHistory.length ≤ 5 := by
  induction es generalizing s with
  | nil => exact h
  | cons e es ih => exact ih (step hypot s e) (step_history_length hypot s e h)

/-- C3: the history never holds more than five entries: not after any sequence
of `addToHistory` calls from the empty history, and not after any sequence of
frames and timer events of a session; on a full history `addToHistory` drops
the oldest entry, keeps the other four in order and puts the new vote last. -/
theorem livenessHistory_length_le_five :
    (∀ statuses : List String, (statuses.foldl addToHistory []).length ≤ 5) ∧
    (∀ (hypot : K → K → K) (startTime : Int) (es : List (Event K)),
      (run hypot (runModels startTime) es).livenessHistory.length ≤ 5) ∧
    (∀ a b c d e v : String, addToHistory [a, b, c, d, e] v = [b, c, d, e, v]) := by
  refine ⟨?_, ?_, addToHistory_five⟩
  · have key : ∀ (statuses h : List String), h.length ≤ 5 →
        (statuses.foldl addToHistory h).length ≤ 5 := by
      intro statuses
      induction statuses with
      | nil => intro h hh; exact hh
      | cons v vs ih => intro h hh; exact ih _ (addToHistory_length_le h v hh)
    intro statuses
    exact key statuses [] (by simp)
  · intro hypot startTime es
    exact run_history_length hypot es _ (by simp [runModels])

/-! ## The blink counter -/

section blink
variable (hypot : K → K → K) (s : Session K) (e : JsNumber K) (now : Int) (f : Frame K)

theorem blinkUpdate_of_counted (h : e.ltConst (1 / 4) = true ∧ now - s.lastBlinkTime > 300) :
    blinkUpdate s e now = { s with blinkCount := s.blinkCount + 1, lastBlinkTime := now } := by
  unfold blinkUpdate; rw [if_pos h.1, if_pos h.2]

theorem blinkUpdate_of_not_counted
    (h : ¬ (e.ltConst (1 / 4) = true ∧ now - s.lastBlinkTime > 300)) :
    blinkUpdate s e now = s := by
  unfold blinkUpdate
  split_ifs with h1 h2
  · exact absurd ⟨h1, h2⟩ h
  · rfl
  · rfl

theorem blinkUpdate_blinkCount_iff :
    (blinkUpdate s e now).blinkCount = s.blinkCount + 1 ↔
      (e.ltConst (1 / 4) = true ∧ now - s.lastBlinkTime > 300) := by
  constructor
  · intro h
    by_contra hc
    rw [blinkUpdate_of_not_counted s e now hc] at h
    omega
  · intro h
    rw [blinkUpdate_of_counted s e now h]

/-- On a frame with a face whose EAR is `e`, the face block leaves the session of
the blink update and blink confirmation, up to the three fields the movement
code and line 111 write. -/
theorem faceBlock_after_blink (lm : List (Point K)) (hf : f.face = some lm)
    (he : calculateEAR hypot lm = some e) :
    ∃ n h p, sessionAfter (faceBlock hypot s f) =
      { blinkConfirm (blinkUpdate s e f.now) with
        movementCount := n, livenessHistory := h, previousLandmarks := p } := by
  rw [faceBlock_of_face hypot s f lm e hf he]
  obtain ⟨n, h, hm⟩ := movementUpdate_frame (blinkConfirm (blinkUpdate s e f.now)) lm
  cases hmu : movementUpdate (blinkConfirm (blinkUpdate s e f.now)) lm with
  | error s2 =>
    rw [hmu] at hm
    simp only [sessionAfter] at hm ⊢
    exact ⟨n, h, (blinkConfirm (blinkUpdate s e f.now)).previousLandmarks, by rw [hm]⟩
  | ok s2 =>
    rw [hmu] at hm
    simp only [sessionAfter] at hm ⊢
    exact ⟨n, h, some lm, by rw [hm]⟩

theorem detect_blink_fields (lm : List (Point K)) (hf : f.face = some lm)
    (he : calculateEAR hypot lm = some e) :
    (sessionAfter (detect hypot s f)).lastBlinkTime = (blinkUpdate s e f.now).lastBlinkTime ∧
    (sessionAfter (detect hypot s f)).blinkCount =
      (blinkConfirm (blinkUpdate s e f.now)).blinkCount := by
  obtain ⟨n, h, p, hfb⟩ := faceBlock_after_blink hypot s e f lm hf he
  rw [detect_lastBlinkTime, detect_blinkCount, hfb]
  exact ⟨by simp, rfl⟩

end blink

/-- C4: the blink update of a face frame with EAR `e` at time `now` adds exactly
one to `blinkCount` and sets `lastBlinkTime` to `now` if and only if `e < 0.25`
and `now - lastBlinkTime > 300`; otherwise it changes nothing.  A finite EAR of
at least 0.25 never counts, nor does a gap of exactly 300 ms.  The
`lastBlinkTime` a frame leaves is the one this update produced, and the
`blinkCount` it leaves is the updated one after the confirmation test. -/
theorem blinkUpdate_rule (hypot : K → K → K) (s : Session K) (e : JsNumber K) (f : Frame K) :
    ((blinkUpdate s e f.now).blinkCount = s.blinkCount + 1 ↔
      (e.ltConst (1 / 4) = true ∧ f.now - s.lastBlinkTime > 300)) ∧
    ((e.ltConst (1 / 4) = true ∧ f.now - s.lastBlinkTime > 300) →
      blinkUpdate s e f.now =
        { s with blinkCount := s.blinkCount + 1, lastBlinkTime := f.now }) ∧
    (¬ (e.ltConst (1 / 4) = true ∧ f.now - s.lastBlinkTime > 300) →
      blinkUpdate s e f.now = s) ∧
    (∀ v : K, (JsNumber.finite v).ltConst (1 / 4) = true ↔ v < 1 / 4) ∧
    (∀ v : K, 1 / 4 ≤ v → blinkUpdate s (JsNumber.finite v) f.now = s) ∧
    (f.now - s.lastBlinkTime = 300 → blinkUpdate s e f.now = s) ∧
    (∀ lm, f.face = some lm → calculateEAR hypot lm = some e →
      (sessionAfter (detect hypot s f)).lastBlinkTime = (blinkUpdate s e f.now).lastBlinkTime ∧
      (sessionAfter (detect hypot s f)).blinkCount =
        (blinkConfirm (blinkUpdate s e f.now)).blinkCount) := by
  refine ⟨blinkUpdate_blinkCount_iff s e f.now, blinkUpdate_of_counted s e f.now,
    blinkUpdate_of_not_counted s e f.now, ?_, ?_, ?_, ?_⟩
  · intro v; simp [JsNumber.ltConst]
  · intro v hv
    apply blinkUpdate_of_not_counted
    rintro ⟨h1, -⟩
    simp only [JsNumber.ltConst, decide_eq_true_eq] at h1
    exact absurd h1 (not_lt.2 hv)
  · intro h300
    apply blinkUpdate_of_not_counted
    rintro ⟨-, h2⟩
    omega
  · intro lm hf he
    exact detect_blink_fields hypot s e f lm hf he

/-- Witness for C4: an EAR of 1/5 seen 301 ms after the last counted blink. -/
theorem blinkUpdate_rule_witness :
    ((JsNumber.finite (1 / 5 : ℚ)).ltConst (1 / 4) = true ∧ (301 : Int) - 0 > 300) ∧
    (blinkUpdate (runModels 0) (JsNumber.finite (1 / 5 : ℚ)) 301).blinkCount = 1 ∧
    (blinkUpdate (runModels 0) (JsNumber.finite (1 / 5 : ℚ)) 301).lastBlinkTime = 301 :=
  have hc : (JsNumber.finite (1 / 5 : ℚ)).ltConst (1 / 4) = true ∧ (301 : Int) - 0 > 300 :=
    ⟨by simp only [JsNumber.ltConst, decide_eq_true_eq]; norm_num, by decide⟩
  have h := (blinkUpdate_rule (fun _ _ => (0 : ℚ)) (runModels 0) (JsNumber.finite (1 / 5 : ℚ))
    ⟨none, none, 301⟩).2.1 hc
  ⟨hc, by rw [h]; rfl, by rw [h]⟩

/-! ## Facts about the sample inputs -/

theorem faceOf_length (g : Nat → Point K) : (faceOf g).length = 468 := by
  simp [faceOf]

theorem faceOf_getElem? (g : Nat → Point K) (i : Nat) (hi : i < 468) :
    (faceOf g)[i]? = some (g i) := by
  simp [faceOf, List.getElem?_map, List.getElem?_range, hi]

theorem faceOf_getD (g : Nat → Point K) (i : Nat) (hi : i < 468) (d : Point K) :
    (faceOf g).getD i d = g i := by
  rw [List.getD_eq_getElem?_getD, faceOf_getElem? g i hi]; rfl

theorem calculateEAR_faceOf (hypot : K → K → K) (g : Nat → Point K) :
    calculateEAR hypot (faceOf g) = some (JsNumber.half (JsNumber.add
      (eyeRatio hypot (g 362) (g 385) (g 387) (g 263) (g 373) (g 380))
      (eyeRatio hypot (g 33) (g 160) (g 158) (g 133) (g 153) (g 144)))) := by
  unfold calculateEAR
  simp only [faceOf_getElem? g _ (show 362 < 468 by decide),
    faceOf_getElem? g _ (show 385 < 468 by decide), faceOf_getElem? g _ (show 387 < 468 by decide),
    faceOf_getElem? g _ (show 263 < 468 by decide), faceOf_getElem? g _ (show 373 < 468 by decide),
    faceOf_getElem? g _ (show 380 < 468 by decide), faceOf_getElem? g _ (show 33 < 468 by decide),
    faceOf_getElem? g _ (show 160 < 468 by decide), faceOf_getElem? g _ (show 158 < 468 by decide),
    faceOf_getElem? g _ (show 133 < 468 by decide), faceOf_getElem? g _ (show 153 < 468 by decide),
    faceOf_getElem? g _ (show 144 < 468 by decide)]

theorem calculateEAR_shutEyes : calculateEAR hypotAxis shutEyes = some (JsNumber.finite 0) := by
  rw [shutEyes, calculateEAR_faceOf]
  norm_num [eyeRatio, hypotAxis, JsNumber.div, JsNumber.add, JsNumber.half]

theorem ltConst_zero : (JsNumber.finite (0 : ℚ)).ltConst (1 / 4) = true := by
  simp only [JsNumber.ltConst, decide_eq_true_eq]; norm_num

/-! ## Debounce over a trace -/

section debounce
variable (hypot : K → K → K)

theorem runFrames_nil (s : Session K) : runFrames hypot s [] = s := rfl

theorem runFrames_cons (s : Session K) (f : Frame K) (fs : List (Frame K)) :
    runFrames hypot s (f :: fs) = runFrames hypot (sessionAfter (detect hypot s f)) fs := rfl

theorem runFrames_append (s : Session K) (fs gs : List (Frame K)) :
    runFrames hypot s (fs ++ gs) = runFrames hypot (runFrames hypot s fs) gs := by
  unfold runFrames; rw [List.foldl_append]

theorem blinkCounted_iff (s : Session K) (f : Frame K) :
    blinkCounted hypot s f = true ↔
      ∃ lm e, f.face = some lm ∧ calculateEAR hypot lm = some e ∧
        e.ltConst (1 / 4) = true ∧ f.now - s.lastBlinkTime > 300 := by
  cases hf : f.face with
  | none => unfold blinkCounted; simp [hf]
  | some lm =>
    cases he : calculateEAR hypot lm with
    | none => unfold blinkCounted; simp [hf, he]
    | some e => unfold blinkCounted; simp [hf, he, blinkUpdate_blinkCount_iff]

/-- A frame either leaves `lastBlinkTime` alone or sets it to its own time, and
it does the latter when it counts a blink. -/
theorem detect_lastBlinkTime_cases (s : Session K) (f : Frame K) :
    (blinkCounted hypot s f = true ∧ (sessionAfter (detect hypot s f)).lastBlinkTime = f.now) ∨
    (blinkCounted hypot s f = false ∧
      (sessionAfter (detect hypot s f)).lastBlinkTime = s.lastBlinkTime) := by
  cases hf : f.face with
  | none =>
    right
    refine ⟨by unfold blinkCounted; rw [hf], ?_⟩
    rw [detect_lastBlinkTime, faceBlock_of_no_face hypot s f hf]; rfl
  | some lm =>
    cases he : calculateEAR hypot lm with
    | none =>
      right
      refine ⟨by unfold blinkCounted; rw [hf]; simp only [he], ?_⟩
      rw [detect_lastBlinkTime, faceBlock_of_malformed hypot s f lm hf he]; rfl
    | some e =>
      rw [(detect_blink_fields hypot s e f lm hf he).1]
      by_cases hc : e.ltConst (1 / 4) = true ∧ f.now - s.lastBlinkTime > 300
      · left
        exact ⟨(blinkCounted_iff hypot s f).2 ⟨lm, e, hf, he, hc⟩,
          by rw [blinkUpdate_of_counted s e f.now hc]⟩
      · right
        refine ⟨?_, by rw [blinkUpdate_of_not_counted s e f.now hc]⟩
        rw [← Bool.not_eq_true, blinkCounted_iff]
        rintro ⟨lm', e', hf', he', hc'⟩
        rw [hf] at hf'
        cases hf'
        rw [he] at he'
        cases he'
        exact hc hc'

theorem runFrames_lastBlinkTime_ge (t : Int) (fs : List (Frame K)) (s : Session K)
    (hs : t ≤ s.lastBlinkTime) (hfs : ∀ f ∈ fs, t ≤ f.now) :
    t ≤ (runFrames hypot s fs).lastBlinkTime := by
  induction fs generalizing s with
  | nil => exact hs
  | cons f fs ih =>
    rw [runFrames_cons]
    apply ih
    · rcases detect_lastBlinkTime_cases hypot s f with ⟨-, h⟩ | ⟨-, h⟩
      · rw [h]; exact hfs f (List.mem_cons_self f fs)
      · rw [h]; exact hs
    · intro g hg; exact hfs g (List.mem_cons_of_mem f hg)

end debounce

/-- C5: in a sequence of frames whose timestamps never decrease, two frames
less than 300 ms apart do not both count a blink, whatever their EAR and
whatever happens in the frames between them. -/
theorem debounce_at_most_one (hypot : K → K → K) (s0 : Session K)
    (pre mid post : List (Frame K)) (fi fj : Frame K)
    (hsorted : List.Pairwise (fun a b : Frame K => a.now ≤ b.now)
      (pre ++ fi :: (mid ++ fj :: post)))
    (hclose : fj.now - fi.now < 300) :
    ¬ (blinkCounted hypot (runFrames hypot s0 pre) fi = true ∧
       blinkCounted hypot (runFrames hypot s0 (pre ++ fi :: mid)) fj = true) := by
  rintro ⟨hi, hj⟩
  have htail := (List.pairwise_append.1 hsorted).2.1
  have hfi := (List.pairwise_cons.1 htail).1
  have hlast : (sessionAfter (detect hypot (runFrames hypot s0 pre) fi)).lastBlinkTime
      = fi.now := by
    rcases detect_lastBlinkTime_cases hypot (runFrames hypot s0 pre) fi with ⟨-, h⟩ | ⟨h, -⟩
    · exact h
    · rw [hi] at h; exact absurd h (by simp)
  have hge : fi.now ≤ (runFrames hypot s0 (pre ++ fi :: mid)).lastBlinkTime := by
    rw [runFrames_append, runFrames_cons]
    apply runFrames_lastBlinkTime_ge
    · rw [hlast]
    · intro g hg
      exact hfi g (List.mem_append_left _ hg)
  obtain ⟨lm, e, -, -, -, hgap⟩ := (blinkCounted_iff hypot _ fj).1 hj
  omega

/-- Witness for C5: two shut-eye frames 199 ms apart; the first counts a blink,
so the second does not. -/
theorem debounce_at_most_one_witness :
    List.Pairwise (fun a b : Frame ℚ => a.now ≤ b.now)
      ([] ++ (⟨some shutEyes, none, 301⟩ : Frame ℚ) ::
        ([] ++ (⟨some shutEyes, none, 500⟩ : Frame ℚ) :: [])) ∧
    blinkCounted hypotAxis (runModels 0) ⟨some shutEyes, none, 301⟩ = true ∧
    ¬ (blinkCounted hypotAxis (runFrames hypotAxis (runModels 0) []) ⟨some shutEyes, none, 301⟩
          = true ∧
        blinkCounted hypotAxis
          (runFrames hypotAxis (runModels 0) ([] ++ ⟨some shutEyes, none, 301⟩ :: []))
          ⟨some shutEyes, none, 500⟩ = true) :=
  have hs : List.Pairwise (fun a b : Frame ℚ => a.now ≤ b.now)
      ([] ++ (⟨some shutEyes, none, 301⟩ : Frame ℚ) ::
        ([] ++ (⟨some shutEyes, none, 500⟩ : Frame ℚ) :: [])) := by
    simp
  ⟨hs,
    (blinkCounted_iff hypotAxis (runModels 0) ⟨some shutEyes, none, 301⟩).2
      ⟨shutEyes, JsNumber.finite 0, rfl, calculateEAR_shutEyes, ltConst_zero, by decide⟩,
    debounce_at_most_one hypotAxis (runModels 0) [] [] [] ⟨some shutEyes, none, 301⟩
      ⟨some shutEyes, none, 500⟩ hs (by decide)⟩

/-! ## Blink confirmation -/

section blinkConfirmation
variable (hypot : K → K → K)

theorem blinkConfirm_of_ge (s : Session K) (h : 3 ≤ s.blinkCount) :
    blinkConfirm s =
      { s with livenessHistory := addToHistory s.livenessHistory "confirmed", blinkCount := 0 } := by
  unfold blinkConfirm; rw [if_pos h]

theorem blinkConfirm_of_lt (s : Session K) (h : s.blinkCount < 3) : blinkConfirm s = s := by
  unfold blinkConfirm; rw [if_neg (by omega)]

/-- Lines 86-98 on a frame that counts a blink. -/
theorem blinkBlock_of_counted (s : Session K) (e : JsNumber K) (now : Int)
    (hc : e.ltConst (1 / 4) = true ∧ now - s.lastBlinkTime > 300) :
    (s.blinkCount + 1 ≥ 3 →
      (blinkConfirm (blinkUpdate s e now)).livenessHistory =
          addToHistory s.livenessHistory "confirmed" ∧
        (blinkConfirm (blinkUpdate s e now)).blinkCount = 0) ∧
    (s.blinkCount + 1 < 3 →
      (blinkConfirm (blinkUpdate s e now)).livenessHistory = s.livenessHistory ∧
        (blinkConfirm (blinkUpdate s e now)).blinkCount = s.blinkCount + 1) := by
  rw [blinkUpdate_of_counted s e now hc]
  constructor
  · intro h
    rw [blinkConfirm_of_ge _ h]
    exact ⟨rfl, rfl⟩
  · intro h
    rw [blinkConfirm_of_lt _ h]
    exact ⟨rfl, rfl⟩

/-- Lines 86-98 on a frame that counts no blink, from a tally below three. -/
theorem blinkBlock_of_not_counted (s : Session K) (e : JsNumber K) (now : Int)
    (hs : s.blinkCount < 3)
    (hc : ¬ (e.ltConst (1 / 4) = true ∧ now - s.lastBlinkTime > 300)) :
    blinkConfirm (blinkUpdate s e now) = s := by
  rw [blinkUpdate_of_not_counted s e now hc, blinkConfirm_of_lt s hs]

theorem blinkCounted_of_face (s : Session K) (f : Frame K) (lm : List (Point K))
    (e : JsNumber K) (hf : f.face = some lm) (he : calculateEAR hypot lm = some e) :
    blinkCounted hypot s f = true ↔
      (e.ltConst (1 / 4) = true ∧ f.now - s.lastBlinkTime > 300) := by
  rw [blinkCounted_iff]
  constructor
  · rintro ⟨lm', e', hf', he', hc⟩
    rw [hf] at hf'
    cases hf'
    rw [he] at he'
    cases he'
    exact hc
  · intro hc; exact ⟨lm, e, hf, he, hc⟩

/-- The tally a frame leaves, from a tally below three: one more modulo 3 when
the frame counts a blink, the same otherwise. -/
theorem detect_blinkCount_step (s : Session K) (f : Frame K) (hs : s.blinkCount < 3) :
    (sessionAfter (detect hypot s f)).blinkCount =
      (s.blinkCount + (if blinkCounted hypot s f then 1 else 0)) % 3 := by
  cases hf : f.face with
  | none =>
    have hb : blinkCounted hypot s f = false := by unfold blinkCounted; rw [hf]
    rw [detect_blinkCount, faceBlock_of_no_face hypot s f hf, hb]
    show s.blinkCount = _
    simp only [Bool.false_eq_true, if_false]; omega
  | some lm =>
    cases he : calculateEAR hypot lm with
    | none =>
      have hb : blinkCounted hypot s f = false := by
        unfold blinkCounted; rw [hf]; simp only [he]
      rw [detect_blinkCount, faceBlock_of_malformed hypot s f lm hf he, hb]
      show s.blinkCount = _
      simp only [Bool.false_eq_true, if_false]; omega
    | some e =>
      rw [(detect_blink_fields hypot s e f lm hf he).2]
      by_cases hc : e.ltConst (1 / 4) = true ∧ f.now - s.lastBlinkTime > 300
      · rw [(blinkCounted_of_face hypot s f lm e hf he).2 hc]
        simp only [if_true]
        by_cases h3 : s.blinkCount + 1 ≥ 3
        · rw [((blinkBlock_of_counted s e f.now hc).1 h3).2]; omega
        · rw [((blinkBlock_of_counted s e f.now hc).2 (by omega)).2]; omega
      · have hb : blinkCounted hypot s f = false := by
          rw [← Bool.not_eq_true, blinkCounted_of_face hypot s f lm e hf he]; exact hc
        rw [hb, blinkBlock_of_not_counted s e f.now hs hc]
        simp only [Bool.false_eq_true, if_false]; omega

theorem runFrames_blinkCount (fs : List (Frame K)) (s : Session K) (hs : s.blinkCount < 3) :
    (runFrames hypot s fs).blinkCount = (s.blinkCount + blinksCounted hypot s fs) % 3 := by
  induction fs generalizing s with
  | nil => show s.blinkCount = (s.blinkCount + 0) % 3; omega
  | cons f fs ih =>
    have hstep := detect_blinkCount_step hypot s f hs
    have hlt : (sessionAfter (detect hypot s f)).blinkCount < 3 := by
      rw [hstep]; exact Nat.mod_lt _ (by decide)
    rw [runFrames_cons, ih _ hlt, hstep]
    show _ = (s.blinkCount + ((if blinkCounted hypot s f then 1 else 0) +
      blinksCounted hypot (sessionAfter (detect hypot s f)) fs)) % 3
    omega

end blinkConfirmation

/-! ## The movement analyser against its description -/

/-- C8: on landmark lists long enough for index 226, `analyzeMovement` returns
the pair `(h, v)` where `h` counts the indices among 10, 152, 226 whose
horizontal displacement exceeds 10 (so `h ≤ 3`) and `v` says that one of them
has a vertical displacement above 5; lists that agree at these three indices
give the same result. -/
theorem analyzeMovement_spec (cur prev : List (Point K))
    (hc : 227 ≤ cur.length) (hp : 227 ≤ prev.length) :
    analyzeMovement cur prev = some (horizontalHits cur prev, verticalSignificant cur prev) ∧
    horizontalHits cur prev =
      (([10, 152, 226] : List Nat).filter fun i =>
        decide (|(cur.getD i ⟨0, 0⟩).x - (prev.getD i ⟨0, 0⟩).x| > 10)).length ∧
    horizontalHits cur prev ≤ 3 ∧
    (verticalSignificant cur prev = true ↔
      ∃ i ∈ ([10, 152, 226] : List Nat),
        |(cur.getD i ⟨0, 0⟩).y - (prev.getD i ⟨0, 0⟩).y| > 5) ∧
    (∀ cur' prev' : List (Point K), 227 ≤ cur'.length → 227 ≤ prev'.length →
      (∀ i ∈ ([10, 152, 226] : List Nat), cur'[i]? = cur[i]? ∧ prev'[i]? = prev[i]?) →
      analyzeMovement cur' prev' = analyzeMovement cur prev) := by
  refine ⟨analyzeMovement_eq cur prev hc hp, rfl, ?_, ?_, ?_⟩
  · unfold horizontalHits trackedIndices
    exact (List.length_filter_le _ _).trans (by simp)
  · unfold verticalSignificant trackedIndices
    simp only [List.any_eq_true, decide_eq_true_eq]
  · intro cur' prev' hc' hp' hagree
    rw [analyzeMovement_eq cur prev hc hp, analyzeMovement_eq cur' prev' hc' hp']
    have hx : ∀ i ∈ ([10, 152, 226] : List Nat),
        cur'.getD i ⟨0, 0⟩ = cur.getD i ⟨0, 0⟩ ∧ prev'.getD i ⟨0, 0⟩ = prev.getD i ⟨0, 0⟩ := by
      intro i hi
      simp only [List.getD_eq_getElem?_getD, (hagree i hi).1, (hagree i hi).2, and_self]
    have h10 := hx 10 (by simp)
    have h152 := hx 152 (by simp)
    have h226 := hx 226 (by simp)
    simp only [horizontalHits, verticalSignificant, trackedIndices, List.filter_cons,
      List.filter_nil, List.any_cons, List.any_nil, h10.1, h10.2, h152.1, h152.2, h226.1, h226.2]

theorem nodFace_length (k : Nat) : (nodFace k : List (Point K)).length = 468 :=
  faceOf_length _

theorem nodFace_analyzeMovement (k : Nat) :
    analyzeMovement (nodFace (k + 1) : List (Point K)) (nodFace k) = some (3, true) := by
  rw [analyzeMovement_eq _ _ (by rw [nodFace_length]; decide) (by rw [nodFace_length]; decide)]
  have hx : (12 * ((k + 1 : ℕ) : K) - 12 * (k : K)) = 12 := by push_cast; ring
  have hy : (6 * ((k + 1 : ℕ) : K) - 6 * (k : K)) = 6 := by push_cast; ring
  have h12 : |(12 : K)| > 10 := by rw [abs_of_pos (by norm_num)]; norm_num
  have h6 : |(6 : K)| > 5 := by rw [abs_of_pos (by norm_num)]; norm_num
  simp only [horizontalHits, verticalSignificant, trackedIndices, nodFace,
    faceOf_getD _ 10 (by decide), faceOf_getD _ 152 (by decide), faceOf_getD _ 226 (by decide),
    List.filter_cons, List.filter_nil, List.any_cons, List.any_nil, true_or, or_true, if_true,
    hx, hy, h12, h6, decide_True, List.length_cons, List.length_nil, Bool.true_or]

/-- Witness for C8: from `nodFace 0` to `nodFace 1` all three tracked landmarks
move by `(12, 6)`, and `analyzeMovement` reports three hits and a significant
vertical movement. -/
theorem analyzeMovement_spec_witness :
    227 ≤ (nodFace 1 : List (Point ℚ)).length ∧ 227 ≤ (nodFace 0 : List (Point ℚ)).length ∧
    analyzeMovement (nodFace 1 : List (Point ℚ)) (nodFace 0) = some (3, true) ∧
    horizontalHits (nodFace 1 : List (Point ℚ)) (nodFace 0) ≤ 3 :=
  have h1 : 227 ≤ (nodFace 1 : List (Point ℚ)).length := by rw [nodFace_length]; decide
  have h0 : 227 ≤ (nodFace 0 : List (Point ℚ)).length := by rw [nodFace_length]; decide
  ⟨h1, h0, nodFace_analyzeMovement 0, (analyzeMovement_spec (nodFace 1) (nodFace 0) h1 h0).2.2.1⟩

/-! ## Movement counting -/

section movement
variable (hypot : K → K → K)

theorem movementUpdate_of_analyze (x : Session K) (lm prev : List (Point K)) (h : Nat)
    (v : Bool) (hprev : x.previousLandmarks = some prev)
    (ham : analyzeMovement lm prev = some (h, v)) :
    movementUpdate x lm = .ok
      (if h ≥ 2 ∧ v = true then
        if x.movementCount + 1 ≥ 3 then
          { x with movementCount := x.movementCount + 1,
                   livenessHistory := addToHistory x.livenessHistory "confirmed" }
        else { x with movementCount := x.movementCount + 1 }
      else x) := by
  unfold movementUpdate
  simp only [hprev, ham]
  split_ifs <;> rfl

theorem movementUpdate_of_throw (x : Session K) (lm prev : List (Point K))
    (hprev : x.previousLandmarks = some prev) (ham : analyzeMovement lm prev = none) :
    movementUpdate x lm = .error x := by
  unfold movementUpdate
  simp only [hprev, ham]

/-- What lines 101-109 do to the session, in terms of the test of line 103. -/
theorem movementUpdate_effect (x : Session K) (lm : List (Point K)) :
    sessionAfter (movementUpdate x lm) =
      if pairQualifies x.previousLandmarks lm = true then
        if x.movementCount + 1 ≥ 3 then
          { x with movementCount := x.movementCount + 1,
                   livenessHistory := addToHistory x.livenessHistory "confirmed" }
        else { x with movementCount := x.movementCount + 1 }
      else x := by
  cases hprev : x.previousLandmarks with
  | none =>
    rw [movementUpdate_of_no_previous x lm hprev]
    simp [pairQualifies, sessionAfter]
  | some prev =>
    cases ham : analyzeMovement lm prev with
    | none =>
      rw [movementUpdate_of_throw x lm prev hprev ham]
      simp [pairQualifies, ham, sessionAfter]
    | some r =>
      obtain ⟨h, v⟩ := r
      rw [movementUpdate_of_analyze x lm prev h v hprev ham]
      have hq : (pairQualifies (some prev) lm = true) = (h ≥ 2 ∧ v = true) := by
        unfold pairQualifies
        simp only [ham, Bool.and_eq_true, decide_eq_true_eq]
      simp only [hq, sessionAfter, hprev]

theorem pairQualifies_of_analyzeMovement (prev lm : List (Point K)) (h : Nat) (v : Bool)
    (ham : analyzeMovement lm prev = some (h, v)) :
    pairQualifies (some prev) lm = true ↔ (h ≥ 2 ∧ v = true) := by
  unfold pairQualifies
  simp only [ham, Bool.and_eq_true, decide_eq_true_eq]

/-- On a frame with a face whose EAR is `e`, the movement count and the history
the frame leaves are those of the movement code run after the blink code. -/
theorem detect_movement_fields (s : Session K) (f : Frame K) (lm : List (Point K))
    (e : JsNumber K) (hf : f.face = some lm) (he : calculateEAR hypot lm = some e) :
    (sessionAfter (detect hypot s f)).movementCount =
      (sessionAfter (movementUpdate (blinkConfirm (blinkUpdate s e f.now)) lm)).movementCount ∧
    (sessionAfter (detect hypot s f)).livenessHistory =
      (sessionAfter (movementUpdate (blinkConfirm (blinkUpdate s e f.now)) lm)).livenessHistory := by
  rw [detect_movementCount, detect_livenessHistory, faceBlock_of_face hypot s f lm e hf he]
  cases movementUpdate (blinkConfirm (blinkUpdate s e f.now)) lm <;> exact ⟨rfl, rfl⟩

theorem movementQualifies_of_face (s : Session K) (f : Frame K) (lm : List (Point K))
    (e : JsNumber K) (hf : f.face = some lm) (he : calculateEAR hypot lm = some e) :
    movementQualifies hypot s f = pairQualifies s.previousLandmarks lm := by
  unfold movementQualifies; rw [hf]; simp only [he]

/-- A frame with a face adds one to `movementCount` when it qualifies and leaves
it alone otherwise. -/
theorem detect_movementCount_step (s : Session K) (f : Frame K) (hf : f.face ≠ none) :
    (sessionAfter (detect hypot s f)).movementCount =
      s.movementCount + (if movementQualifies hypot s f then 1 else 0) := by
  cases hface : f.face with
  | none => exact absurd hface hf
  | some lm =>
    cases he : calculateEAR hypot lm with
    | none =>
      have hq : movementQualifies hypot s f = false := by
        unfold movementQualifies; rw [hface]; simp only [he]
      rw [detect_movementCount, faceBlock_of_malformed hypot s f lm hface he, hq]
      rfl
    | some e =>
      rw [(detect_movement_fields hypot s f lm e hface he).1, movementUpdate_effect,
        movementQualifies_of_face hypot s f lm e hface he]
      simp only [blinkConfirm_previousLandmarks, blinkUpdate_previousLandmarks,
        blinkConfirm_movementCount, blinkUpdate_movementCount]
      split_ifs <;> simp

theorem runFrames_movementCount (fs : List (Frame K)) (s : Session K)
    (hfs : ∀ f ∈ fs, f.face ≠ none) :
    (runFrames hypot s fs).movementCount = s.movementCount + qualifyingPairs hypot s fs := by
  induction fs generalizing s with
  | nil => rfl
  | cons f fs ih =>
    rw [runFrames_cons, ih _ (fun g hg => hfs g (List.mem_cons_of_mem f hg)),
      detect_movementCount_step hypot s f (hfs f (List.mem_cons_self f fs))]
    show _ = s.movementCount + ((if movementQualifies hypot s f then 1 else 0) +
      qualifyingPairs hypot (sessionAfter (detect hypot s f)) fs)
    omega

/-- The history a face frame leaves: what the blink code left, plus the vote of
the movement code when the frame qualifies with a count reaching three. -/
theorem detect_history_of_face (s : Session K) (f : Frame K) (lm : List (Point K))
    (e : JsNumber K) (hf : f.face = some lm) (he : calculateEAR hypot lm = some e) :
    (sessionAfter (detect hypot s f)).livenessHistory =
      if movementQualifies hypot s f = true ∧ s.movementCount + 1 ≥ 3 then
        addToHistory (blinkConfirm (blinkUpdate s e f.now)).livenessHistory "confirmed"
      else (blinkConfirm (blinkUpdate s e f.now)).livenessHistory := by
  rw [(detect_movement_fields hypot s f lm e hf he).2, movementUpdate_effect,
    movementQualifies_of_face hypot s f lm e hf he]
  simp only [blinkConfirm_previousLandmarks, blinkUpdate_previousLandmarks,
    blinkConfirm_movementCount, blinkUpdate_movementCount]
  by_cases hq : pairQualifies s.previousLandmarks lm = true
  · by_cases h3 : s.movementCount + 1 ≥ 3
    · rw [if_pos hq, if_pos h3, if_pos ⟨hq, h3⟩]
    · rw [if_pos hq, if_neg h3, if_neg (fun h => h3 h.2)]
  · rw [if_neg hq, if_neg (fun h => hq h.1)]

end movement

/-! ## Blink confirmation over a session -/

/-- C6: in a session started with `blinkCount = 0`, after any frames the tally
is the number of counted blinks modulo 3, hence 0, 1 or 2.  A frame that counts
a blink when the number counted before it is 2 modulo 3 (the third blink, the
sixth, ...) has the blink code (lines 86-98) append one "confirmed" vote and
ends with `blinkCount = 0`; a frame that counts any other blink (the first, the
second, the fourth, ...) has the blink code append nothing and ends with the
tally one higher, so the fourth blink leaves `blinkCount = 1`; and on a frame
that counts no blink the blink code changes nothing.  The history at the end of
the frame is the one the blink code left, followed by the vote of the movement
code if that code votes on the same frame. -/
theorem blink_confirmation_consumes_tally (hypot : K → K → K) (s0 : Session K)
    (fs : List (Frame K)) (f : Frame K) (lm : List (Point K)) (e : JsNumber K)
    (hs0 : s0.blinkCount = 0) (hf : f.face = some lm) (he : calculateEAR hypot lm = some e) :
    (runFrames hypot s0 fs).blinkCount = blinksCounted hypot s0 fs % 3 ∧
    (runFrames hypot s0 fs).blinkCount ≤ 2 ∧
    (blinkCounted hypot (runFrames hypot s0 fs) f = true →
      blinksCounted hypot s0 fs % 3 = 2 →
      (blinkConfirm (blinkUpdate (runFrames hypot s0 fs) e f.now)).livenessHistory =
          addToHistory (runFrames hypot s0 fs).livenessHistory "confirmed" ∧
        (sessionAfter (detect hypot (runFrames hypot s0 fs) f)).blinkCount = 0) ∧
    (blinkCounted hypot (runFrames hypot s0 fs) f = true →
      blinksCounted hypot s0 fs % 3 ≠ 2 →
      (blinkConfirm (blinkUpdate (runFrames hypot s0 fs) e f.now)).livenessHistory =
          (runFrames hypot s0 fs).livenessHistory ∧
        (sessionAfter (detect hypot (runFrames hypot s0 fs) f)).blinkCount =
          blinksCounted hypot s0 fs % 3 + 1) ∧
    (blinkCounted hypot (runFrames hypot s0 fs) f = false →
      blinkConfirm (blinkUpdate (runFrames hypot s0 fs) e f.now) = runFrames hypot s0 fs) ∧
    (sessionAfter (detect hypot (runFrames hypot s0 fs) f)).livenessHistory =
      if movementQualifies hypot (runFrames hypot s0 fs) f = true ∧
          (runFrames hypot s0 fs).movementCount + 1 ≥ 3 then
        addToHistory
          (blinkConfirm (blinkUpdate (runFrames hypot s0 fs) e f.now)).livenessHistory
          "confirmed"
      else (blinkConfirm (blinkUpdate (runFrames hypot s0 fs) e f.now)).livenessHistory := by
  have hcount : (runFrames hypot s0 fs).blinkCount = blinksCounted hypot s0 fs % 3 := by
    rw [runFrames_blinkCount hypot fs s0 (by omega), hs0, Nat.zero_add]
  have hlt : (runFrames hypot s0 fs).blinkCount < 3 := by
    rw [hcount]; exact Nat.mod_lt _ (by decide)
  have hend := (detect_blink_fields hypot (runFrames hypot s0 fs) e f lm hf he).2
  refine ⟨hcount, by omega, ?_, ?_, ?_, detect_history_of_face hypot _ f lm e hf he⟩
  · intro hb h2
    have hc := (blinkCounted_of_face hypot _ f lm e hf he).1 hb
    have h := (blinkBlock_of_counted (runFrames hypot s0 fs) e f.now hc).1 (by omega)
    exact ⟨h.1, by rw [hend]; exact h.2⟩
  · intro hb h2
    have hc := (blinkCounted_of_face hypot _ f lm e hf he).1 hb
    have h := (blinkBlock_of_counted (runFrames hypot s0 fs) e f.now hc).2 (by omega)
    exact ⟨h.1, by rw [hend, h.2, hcount]⟩
  · intro hb
    apply blinkBlock_of_not_counted _ e f.now hlt
    rw [← blinkCounted_of_face hypot _ f lm e hf he, hb]
    simp

/-- A shut-eye frame more than 300 ms after the last counted blink counts a
blink and moves `lastBlinkTime` to its own time. -/
theorem shutEyes_counted (s : Session ℚ) (now : Int) (h : now - s.lastBlinkTime > 300) :
    blinkCounted hypotAxis s ⟨some shutEyes, none, now⟩ = true ∧
    (sessionAfter (detect hypotAxis s ⟨some shutEyes, none, now⟩)).lastBlinkTime = now := by
  have hb : blinkCounted hypotAxis s ⟨some shutEyes, none, now⟩ = true :=
    (blinkCounted_iff hypotAxis s ⟨some shutEyes, none, now⟩).2
      ⟨shutEyes, JsNumber.finite 0, rfl, calculateEAR_shutEyes, ltConst_zero, h⟩
  refine ⟨hb, ?_⟩
  rcases detect_lastBlinkTime_cases hypotAxis s ⟨some shutEyes, none, now⟩ with ⟨-, h1⟩ | ⟨h1, -⟩
  · exact h1
  · rw [hb] at h1; exact absurd h1 (by simp)

/-- Witness for C6: shut-eye frames at 301, 602 and 903 ms of a session started
at time 0; the third has the blink code append the vote and ends with the tally
back at 0. -/
theorem blink_confirmation_consumes_tally_witness :
    blinksCounted hypotAxis (runModels 0)
        [⟨some shutEyes, none, 301⟩, ⟨some shutEyes, none, 602⟩] % 3 = 2 ∧
    blinkCounted hypotAxis
        (runFrames hypotAxis (runModels 0)
          [⟨some shutEyes, none, 301⟩, ⟨some shutEyes, none, 602⟩])
        ⟨some shutEyes, none, 903⟩ = true ∧
    (blinkConfirm (blinkUpdate
        (runFrames hypotAxis (runModels 0)
          [⟨some shutEyes, none, 301⟩, ⟨some shutEyes, none, 602⟩])
        (JsNumber.finite 0) 903)).livenessHistory =
      addToHistory
        (runFrames hypotAxis (runModels 0)
          [⟨some shutEyes, none, 301⟩, ⟨some shutEyes, none, 602⟩]).livenessHistory
        "confirmed" ∧
    (sessionAfter (detect hypotAxis
        (runFrames hypotAxis (runModels 0)
          [⟨some shutEyes, none, 301⟩, ⟨some shutEyes, none, 602⟩])
        ⟨some shutEyes, none, 903⟩)).blinkCount = 0 := by
  have h1 := shutEyes_counted (runModels 0) 301 (by decide)
  have h2 := shutEyes_counted
    (sessionAfter (detect hypotAxis (runModels 0) ⟨some shutEyes, none, 301⟩)) 602
    (by rw [h1.2]; decide)
  have h3 := shutEyes_counted
    (runFrames hypotAxis (runModels 0)
      [⟨some shutEyes, none, 301⟩, ⟨some shutEyes, none, 602⟩]) 903
    (by
      rw [runFrames_cons, runFrames_cons, runFrames_nil, h2.2]
      decide)
  have hn : blinksCounted hypotAxis (runModels 0)
      [⟨some shutEyes, none, 301⟩, ⟨some shutEyes, none, 602⟩] % 3 = 2 := by
    simp only [blinksCounted, h1.1, h2.1, if_true]
  have h := (blink_confirmation_consumes_tally hypotAxis (runModels 0)
    [⟨some shutEyes, none, 301⟩, ⟨some shutEyes, none, 602⟩] ⟨some shutEyes, none, 903⟩
    shutEyes (JsNumber.finite 0) rfl rfl calculateEAR_shutEyes).2.2.1 h3.1 hn
  exact ⟨hn, h3.1, h.1, h.2⟩

/-! ## The nodding sample, frame by frame -/

section nodding
variable (hypot : K → K → K)

theorem blinkBlock_of_recent (s : Session K) (e : JsNumber K) (now : Int)
    (hb : s.blinkCount < 3) (hnow : now - s.lastBlinkTime ≤ 300) :
    blinkConfirm (blinkUpdate s e now) = s :=
  blinkBlock_of_not_counted s e now hb (fun h => by omega)

/-- The first nodding frame, seen with no previous landmarks and no blink due:
the frame only stores its landmarks. -/
theorem detect_nodFrame_first (s : Session K) (hprev : s.previousLandmarks = none)
    (hb : s.blinkCount < 3) (hnow : (nodFrame 0 : Frame K).now - s.lastBlinkTime ≤ 300) :
    detect hypot s (nodFrame 0) =
      .ok { s with previousLandmarks := some (nodFace 0), liveness := false } := by
  obtain ⟨e, he⟩ := calculateEAR_isSome hypot (nodFace 0 : List (Point K))
    (by rw [nodFace_length]; decide)
  have hface : (nodFrame 0 : Frame K).face = some (nodFace 0) := rfl
  have hfb := faceBlock_of_face hypot s (nodFrame 0) (nodFace 0) e hface he
  rw [blinkBlock_of_recent s e _ hb hnow, movementUpdate_of_no_previous s _ hprev] at hfb
  unfold detect
  rw [hfb]
  simp only [handBlock, nodFrame, verdictBlock, Bool.and_false, Bool.false_eq_true, if_false]

/-- A later nodding frame, seen after the previous one and with no blink due:
the pair qualifies, so `movementCount` goes up by one, with a vote from three on. -/
theorem detect_nodFrame_succ (s : Session K) (k : Nat)
    (hprev : s.previousLandmarks = some (nodFace k)) (hb : s.blinkCount < 3)
    (hnow : (nodFrame (k + 1) : Frame K).now - s.lastBlinkTime ≤ 300) :
    detect hypot s (nodFrame (k + 1)) =
      .ok { s with
        movementCount := s.movementCount + 1
        livenessHistory :=
          if s.movementCount + 1 ≥ 3 then addToHistory s.livenessHistory "confirmed"
          else s.livenessHistory
        previousLandmarks := some (nodFace (k + 1))
        liveness := false } := by
  obtain ⟨e, he⟩ := calculateEAR_isSome hypot (nodFace (k + 1) : List (Point K))
    (by rw [nodFace_length]; decide)
  have hface : (nodFrame (k + 1) : Frame K).face = some (nodFace (k + 1)) := rfl
  have hfb := faceBlock_of_face hypot s (nodFrame (k + 1)) (nodFace (k + 1)) e hface he
  rw [blinkBlock_of_recent s e _ hb hnow,
    movementUpdate_of_analyze s _ (nodFace k) 3 true hprev (nodFace_analyzeMovement k)] at hfb
  rw [if_pos (⟨by decide, rfl⟩ : (3 ≥ 2 ∧ true = true))] at hfb
  unfold detect
  rw [hfb]
  simp only [handBlock, nodFrame, verdictBlock, Bool.and_false, Bool.false_eq_true, if_false]
  split_ifs <;> rfl

theorem runFrames_nod_three :
    runFrames hypot (runModels 0) [nodFrame 0, nodFrame 1, nodFrame 2] =
      { (runModels 0 : Session K) with
        movementCount := 2, previousLandmarks := some (nodFace 2) } := by
  rw [runFrames_cons, detect_nodFrame_first hypot _ rfl
    (by show (0 : ℕ) < 3; decide) (by show 100 * ((0 : ℕ) : ℤ) - 0 ≤ 300; decide)]
  simp only [sessionAfter]
  rw [runFrames_cons, detect_nodFrame_succ hypot _ 0 rfl
    (by show (0 : ℕ) < 3; decide) (by show 100 * ((0 + 1 : ℕ) : ℤ) - 0 ≤ 300; decide)]
  simp only [sessionAfter]
  rw [runFrames_cons, detect_nodFrame_succ hypot _ 1 rfl
    (by show (0 : ℕ) < 3; decide) (by show 100 * ((1 + 1 : ℕ) : ℤ) - 0 ≤ 300; decide)]
  rfl

theorem runFrames_nod_four :
    runFrames hypot (runModels 0) [nodFrame 0, nodFrame 1, nodFrame 2, nodFrame 3] =
      { (runModels 0 : Session K) with
        movementCount := 3, previousLandmarks := some (nodFace 3),
        livenessHistory := ["confirmed"] } := by
  have h := runFrames_append hypot (runModels 0) [nodFrame 0, nodFrame 1, nodFrame 2]
    [nodFrame 3]
  rw [show ([nodFrame 0, nodFrame 1, nodFrame 2] ++ [nodFrame 3] : List (Frame K)) =
    [nodFrame 0, nodFrame 1, nodFrame 2, nodFrame 3] from rfl] at h
  rw [h, runFrames_nod_three, runFrames_cons,
    detect_nodFrame_succ hypot _ 2 rfl
      (by show (0 : ℕ) < 3; decide) (by show 100 * ((2 + 1 : ℕ) : ℤ) - 0 ≤ 300; decide)]
  rfl

end nodding

/-- C7: on a face frame with previous landmarks, for which `analyzeMovement`
reports `(h, v)`, the session's `movementCount` goes up by exactly one when
`h ≥ 2` and `v` holds (by one, whatever `h` is) and is unchanged otherwise.
Over frames that all show a face, `movementCount` is therefore the initial
count plus the number of qualifying pairs, and from a count of 0 the movement
code of a frame appends its "confirmed" vote exactly when the frame qualifies
and at least two pairs qualified before it: the first vote comes with the
third qualifying pair.  On the four sampled nodding frames, `movementCount` is
2 with an empty history after the third frame, and 3 with one vote after the
fourth. -/
theorem movement_count_rule (hypot : K → K → K) :
    (∀ (s : Session K) (f : Frame K) (lm prev : List (Point K)) (e : JsNumber K)
        (h : Nat) (v : Bool),
      f.face = some lm → calculateEAR hypot lm = some e →
      s.previousLandmarks = some prev → analyzeMovement lm prev = some (h, v) →
      (sessionAfter (detect hypot s f)).movementCount =
        s.movementCount + (if h ≥ 2 ∧ v = true then 1 else 0)) ∧
    (∀ (s0 : Session K) (fs : List (Frame K)), (∀ g ∈ fs, g.face ≠ none) →
      (runFrames hypot s0 fs).movementCount =
        s0.movementCount + qualifyingPairs hypot s0 fs) ∧
    (∀ (s0 : Session K) (fs : List (Frame K)) (f : Frame K) (lm : List (Point K))
        (e : JsNumber K),
      s0.movementCount = 0 → (∀ g ∈ fs, g.face ≠ none) →
      f.face = some lm → calculateEAR hypot lm = some e →
      (sessionAfter (movementUpdate
          (blinkConfirm (blinkUpdate (runFrames hypot s0 fs) e f.now)) lm)).livenessHistory =
        if movementQualifies hypot (runFrames hypot s0 fs) f = true ∧
            2 ≤ qualifyingPairs hypot s0 fs then
          addToHistory
            (blinkConfirm (blinkUpdate (runFrames hypot s0 fs) e f.now)).livenessHistory
            "confirmed"
        else (blinkConfirm (blinkUpdate (runFrames hypot s0 fs) e f.now)).livenessHistory) ∧
    ((runFrames hypot (runModels 0) [nodFrame 0, nodFrame 1, nodFrame 2]).movementCount = 2 ∧
      (runFrames hypot (runModels 0) [nodFrame 0, nodFrame 1, nodFrame 2]).livenessHistory
        = [] ∧
      (runFrames hypot (runModels 0)
        [nodFrame 0, nodFrame 1, nodFrame 2, nodFrame 3]).movementCount = 3 ∧
      (runFrames hypot (runModels 0)
        [nodFrame 0, nodFrame 1, nodFrame 2, nodFrame 3]).livenessHistory = ["confirmed"]) := by
  refine ⟨?_, ?_, ?_, ?_⟩
  · intro s f lm prev e h v hf he hprev ham
    rw [detect_movementCount_step hypot s f (by rw [hf]; simp),
      movementQualifies_of_face hypot s f lm e hf he, hprev]
    by_cases hq : h ≥ 2 ∧ v = true
    · rw [(pairQualifies_of_analyzeMovement prev lm h v ham).2 hq, if_pos hq]; rfl
    · have hq' : pairQualifies (some prev) lm = false := by
        rw [← Bool.not_eq_true, pairQualifies_of_analyzeMovement prev lm h v ham]; exact hq
      rw [hq', if_neg hq]; rfl
  · intro s0 fs hfs
    exact runFrames_movementCount hypot fs s0 hfs
  · intro s0 fs f lm e hs0 hfs hf he
    have hmc := runFrames_movementCount hypot fs s0 hfs
    rw [hs0, Nat.zero_add] at hmc
    rw [movementUpdate_effect, movementQualifies_of_face hypot _ f lm e hf he]
    simp only [blinkConfirm_previousLandmarks, blinkUpdate_previousLandmarks,
      blinkConfirm_movementCount, blinkUpdate_movementCount, hmc]
    by_cases hq : pairQualifies (runFrames hypot s0 fs).previousLandmarks lm = true
    · by_cases h2 : 2 ≤ qualifyingPairs hypot s0 fs
      · rw [if_pos hq, if_pos (by omega), if_pos ⟨hq, h2⟩]
      · rw [if_pos hq, if_neg (by omega), if_neg (fun h => h2 h.2)]
    · rw [if_neg hq, if_neg (fun h => hq h.1)]
  · rw [runFrames_nod_three, runFrames_nod_four]
    exact ⟨rfl, rfl, rfl, rfl⟩

theorem calculateEAR_nodFace (k : Nat) :
    calculateEAR hypotAxis (nodFace k : List (Point ℚ)) = some JsNumber.nan := by
  rw [nodFace, calculateEAR_faceOf]
  norm_num [eyeRatio, hypotAxis, JsNumber.div, JsNumber.add, JsNumber.half]

/-- Witness for C7: the second nodding frame seen after the first; the analyser
reports three horizontal hits, and `movementCount` goes from 0 to 1. -/
theorem movement_count_rule_witness :
    analyzeMovement (nodFace 1 : List (Point ℚ)) (nodFace 0) = some (3, true) ∧
    (sessionAfter (detect hypotAxis
        { (runModels 0 : Session ℚ) with previousLandmarks := some (nodFace 0) }
        (nodFrame 1))).movementCount = 0 + (if 3 ≥ 2 ∧ true = true then 1 else 0) :=
  ⟨nodFace_analyzeMovement 0,
    (movement_count_rule hypotAxis).1
      { (runModels 0 : Session ℚ) with previousLandmarks := some (nodFace 0) }
      (nodFrame 1) (nodFace 1) (nodFace 0) JsNumber.nan 3 true rfl (calculateEAR_nodFace 1) rfl
      (nodFace_analyzeMovement 0)⟩

/-! ## Face loss -/

/-- C9: a frame without a face leaves `previousLandmarks` absent and
`movementCount` at 0, and does not touch `blinkCount`, `lastBlinkTime` or the
history.  A frame with a well-formed face, seen while `previousLandmarks` is
absent, skips the movement code: `movementCount` is unchanged, the history is
the one the blink code left, the frame does not qualify, and
`previousLandmarks` becomes the landmarks of the frame. -/
theorem face_loss_reset (hypot : K → K → K) (s : Session K) (f : Frame K) :
    (f.face = none →
      (sessionAfter (detect hypot s f)).previousLandmarks = none ∧
      (sessionAfter (detect hypot s f)).movementCount = 0 ∧
      (sessionAfter (detect hypot s f)).blinkCount = s.blinkCount ∧
      (sessionAfter (detect hypot s f)).lastBlinkTime = s.lastBlinkTime ∧
      (sessionAfter (detect hypot s f)).livenessHistory = s.livenessHistory) ∧
    (∀ lm, s.previousLandmarks = none → f.face = some lm → 388 ≤ lm.length →
      ∃ e, calculateEAR hypot lm = some e ∧
        movementQualifies hypot s f = false ∧
        (sessionAfter (detect hypot s f)).movementCount = s.movementCount ∧
        (sessionAfter (detect hypot s f)).livenessHistory =
          (blinkConfirm (blinkUpdate s e f.now)).livenessHistory ∧
        (sessionAfter (detect hypot s f)).previousLandmarks = some lm) := by
  constructor
  · intro hf
    rw [detect_previousLandmarks, detect_movementCount, detect_blinkCount, detect_lastBlinkTime,
      detect_livenessHistory, faceBlock_of_no_face hypot s f hf]
    exact ⟨rfl, rfl, rfl, rfl, rfl⟩
  · intro lm hprev hf hl
    obtain ⟨e, he⟩ := calculateEAR_isSome hypot lm hl
    have hx : (blinkConfirm (blinkUpdate s e f.now)).previousLandmarks = none := by
      simpa using hprev
    have hq : movementQualifies hypot s f = false := by
      rw [movementQualifies_of_face hypot s f lm e hf he, hprev]; rfl
    refine ⟨e, he, hq, ?_, ?_, ?_⟩
    · rw [detect_movementCount_step hypot s f (by rw [hf]; simp), hq]; rfl
    · rw [(detect_movement_fields hypot s f lm e hf he).2,
        movementUpdate_of_no_previous _ lm hx]
      rfl
    · rw [detect_previousLandmarks, faceBlock_of_face hypot s f lm e hf he,
        movementUpdate_of_no_previous _ lm hx]
      rfl

/-- Witness for C9: the first nodding frame of a fresh session. -/
theorem face_loss_reset_witness :
    (runModels 0 : Session ℚ).previousLandmarks = none ∧
    388 ≤ (nodFace 0 : List (Point ℚ)).length ∧
    ∃ e, calculateEAR hypotAxis (nodFace 0 : List (Point ℚ)) = some e ∧
      movementQualifies hypotAxis (runModels 0) (nodFrame 0) = false ∧
      (sessionAfter (detect hypotAxis (runModels 0) (nodFrame 0))).movementCount = 0 ∧
      (sessionAfter (detect hypotAxis (runModels 0) (nodFrame 0))).livenessHistory =
        (blinkConfirm (blinkUpdate (runModels 0) e (nodFrame 0 : Frame ℚ).now)).livenessHistory ∧
      (sessionAfter (detect hypotAxis (runModels 0) (nodFrame 0))).previousLandmarks =
        some (nodFace 0) :=
  have hl : 388 ≤ (nodFace 0 : List (Point ℚ)).length := by rw [nodFace_length]; decide
  ⟨rfl, hl, (face_loss_reset hypotAxis (runModels 0) (nodFrame 0)).2 (nodFace 0) rfl rfl hl⟩

/-! ## The 15 s timer -/

section timer
variable (hypot : K → K → K)

theorem run_nil (s : Session K) : run hypot s [] = s := rfl

theorem run_cons (s : Session K) (e : Event K) (es : List (Event K)) :
    run hypot s (e :: es) = run hypot (step hypot s e) es := rfl

theorem run_append (s : Session K) (es fs : List (Event K)) :
    run hypot s (es ++ fs) = run hypot (run hypot s es) fs := by
  unfold run; rw [List.foldl_append]

theorem deadlineFires_timeoutPending (s : Session K) :
    (deadlineFires s).timeoutPending = false := by
  unfold deadlineFires capturedLiveness
  cases h : s.timeoutPending <;> simp [h]

theorem deadlineFires_of_not_pending (s : Session K) (h : s.timeoutPending = false) :
    deadlineFires s = s := by
  unfold deadlineFires; simp [h]

theorem deadlineFires_of_pending (s : Session K) (h : s.timeoutPending = true) :
    deadlineFires s = { s with fallback := true, timeoutPending := false } := by
  unfold deadlineFires capturedLiveness; simp [h]

/-- No event re-arms the timer. -/
theorem step_timeoutPending (s : Session K) (e : Event K)
    (h : s.timeoutPending = false) : (step hypot s e).timeoutPending = false := by
  cases e with
  | frame f =>
    by_contra hc
    have := detect_timeoutPending hypot s f (by simpa using hc)
    rw [h] at this
    exact absurd this (by simp)
  | deadline => exact deadlineFires_timeoutPending s

/-- Once the timer is cancelled or has fired, no event changes `fallback`. -/
theorem step_fallback_of_not_pending (s : Session K) (e : Event K)
    (h : s.timeoutPending = false) : (step hypot s e).fallback = s.fallback := by
  cases e with
  | frame f => exact detect_fallback hypot s f
  | deadline => show (deadlineFires s).fallback = _; rw [deadlineFires_of_not_pending s h]

theorem run_of_not_pending (es : List (Event K)) (s : Session K)
    (h : s.timeoutPending = false) :
    (run hypot s es).timeoutPending = false ∧ (run hypot s es).fallback = s.fallback := by
  induction es generalizing s with
  | nil => exact ⟨h, rfl⟩
  | cons e es ih =>
    rw [run_cons]
    have h1 := ih (step hypot s e) (step_timeoutPending hypot s e h)
    exact ⟨h1.1, by rw [h1.2, step_fallback_of_not_pending hypot s e h]⟩

/-- A frame that ends with a true verdict leaves the timer cancelled. -/
theorem detect_cancels_timer (s s1 : Session K) (f : Frame K)
    (hd : detect hypot s f = .ok s1) (hl : s1.liveness = true) :
    s1.timeoutPending = false := by
  obtain ⟨sa, sb, hand, -, -, rfl⟩ := (detect_ok_iff hypot s f s1).1 hd
  rw [verdictBlock_liveness] at hl
  rw [verdictBlock_timeoutPending, hl]
  simp

theorem run_fallback_of_no_deadline (es : List (Event K)) (s : Session K)
    (h : ∀ e ∈ es, e ≠ Event.deadline) : (run hypot s es).fallback = s.fallback := by
  induction es generalizing s with
  | nil => rfl
  | cons e es ih =>
    rw [run_cons, ih _ (fun x hx => h x (List.mem_cons_of_mem e hx))]
    cases e with
    | frame f => exact detect_fallback hypot s f
    | deadline => exact absurd rfl (h Event.deadline (List.mem_cons_self _ _))

end timer

/-- C10: a frame that ends with a true verdict cancels the timer, and if
`fallback` was still false at that frame it is false after every later event,
frames and a late deadline alike; in a session, `fallback` is false as long as
no deadline event has occurred.  Conversely, when `fallback` is true after a
trace of a session, the deadline fired at some point of the trace and no frame
before that point ended with a true verdict. -/
theorem fallback_only_without_confirmation (hypot : K → K → K) (startTime : Int) :
    (∀ (s s1 : Session K) (f : Frame K) (post : List (Event K)),
      s.fallback = false → detect hypot s f = .ok s1 → s1.liveness = true →
      s1.timeoutPending = false ∧ (run hypot s1 post).fallback = false) ∧
    (∀ pre : List (Event K), (∀ e ∈ pre, e ≠ Event.deadline) →
      (run hypot (runModels startTime) pre).fallback = false) ∧
    (∀ es : List (Event K), (run hypot (runModels startTime) es).fallback = true →
      ∃ pre post, es = pre ++ Event.deadline :: post ∧
        ∀ p f q s1, pre = p ++ Event.frame f :: q →
          detect hypot (run hypot (runModels startTime) p) f = .ok s1 →
          s1.liveness = false) := by
  refine ⟨?_, ?_, ?_⟩
  · intro s s1 f post hfb hd hl
    have htp := detect_cancels_timer hypot s s1 f hd hl
    have hfb1 : s1.fallback = false := by
      have := detect_fallback hypot s f
      rw [hd] at this
      exact this.trans hfb
    exact ⟨htp, by rw [(run_of_not_pending hypot post s1 htp).2, hfb1]⟩
  · intro pre hpre
    rw [run_fallback_of_no_deadline hypot pre _ hpre]
    rfl
  · intro es
    induction es using List.reverseRecOn with
    | nil => intro h; exact absurd h (by simp [run, runModels])
    | append_singleton es e ih =>
      intro h
      rw [run_append, run_cons, run_nil] at h
      by_cases hprev : (run hypot (runModels startTime) es).fallback = true
      · obtain ⟨pre, post, rfl, hpre⟩ := ih hprev
        exact ⟨pre, post ++ [e], by simp, hpre⟩
      · cases e with
        | frame f =>
          have : (step hypot (run hypot (runModels startTime) es) (Event.frame f)).fallback =
              (run hypot (runModels startTime) es).fallback := detect_fallback hypot _ f
          rw [this] at h
          exact absurd h hprev
        | deadline =>
          have hpend : (run hypot (runModels startTime) es).timeoutPending = true := by
            by_contra hc
            have hnp : (run hypot (runModels startTime) es).timeoutPending = false := by
              simpa using hc
            rw [step_fallback_of_not_pending hypot _ _ hnp] at h
            exact hprev h
          refine ⟨es, [], rfl, ?_⟩
          intro p f q s1 hes hd
          by_contra hl
          have hl1 : s1.liveness = true := by simpa using hl
          have htp := detect_cancels_timer hypot _ s1 f hd hl1
          have hrun : run hypot (runModels startTime) es = run hypot s1 q := by
            rw [hes, run_append, run_cons]
            show run hypot (sessionAfter (detect hypot _ f)) q = _
            rw [hd]
            rfl
          rw [hrun, (run_of_not_pending hypot q s1 htp).1] at hpend
          exact absurd hpend (by simp)

/-- Witness for C10: a session with three votes sees a hand; the verdict is
true, the timer is cancelled, and a later deadline event leaves `fallback`
false. -/
theorem fallback_only_without_confirmation_witness :
    ∃ s1, detect hypotAxis votedSession ⟨none, some openPalm, 0⟩ = .ok s1 ∧
      s1.liveness = true ∧ s1.timeoutPending = false ∧
      (run hypotAxis s1 [Event.deadline]).fallback = false := by
  obtain ⟨s1, h1⟩ := detect_isOk hypotAxis votedSession ⟨none, some openPalm, 0⟩ (by decide)
  have hh : s1.livenessHistory = ["confirmed", "confirmed", "confirmed"] := by
    have h2 := detect_livenessHistory hypotAxis votedSession ⟨none, some openPalm, 0⟩
    rw [h1, faceBlock_of_no_face hypotAxis votedSession _ rfl] at h2
    exact h2
  have hl : s1.liveness = true := by
    rw [detect_liveness_of_ok hypotAxis votedSession _ s1 h1, hh,
      (isLivenessConfirmed_iff _).2 (by decide)]
    rfl
  have h := (fallback_only_without_confirmation hypotAxis 0).1 votedSession s1
    ⟨none, some openPalm, 0⟩ [Event.deadline] rfl h1 hl
  exact ⟨s1, h1, hl, h.1, h.2⟩

/-! ## The deadline without a confirmation -/

section timerMore
variable (hypot : K → K → K)

/-- A call of `detect` that throws has not reached the verdict: the timer is as
it was. -/
theorem detect_error_timeoutPending (s s1 : Session K) (f : Frame K)
    (h : detect hypot s f = .error s1) : s1.timeoutPending = s.timeoutPending := by
  obtain ⟨n, b, t, p, hh, hfr⟩ := faceBlock_frame hypot s f
  unfold detect at h
  cases hfb : faceBlock hypot s f with
  | error sa =>
    simp only [hfb, Except.error.injEq] at h
    rw [hfb] at hfr
    simp only [sessionAfter] at hfr
    rw [← h, hfr]
  | ok sa =>
    rw [hfb] at hfr
    simp only [sessionAfter] at hfr
    simp only [hfb] at h
    cases hhb : handBlock sa f with
    | error sb =>
      simp only [hhb, Except.error.injEq] at h
      rw [← h, handBlock_error sa f sb hhb, hfr]
    | ok r =>
      obtain ⟨sb, hd⟩ := r
      simp [hhb] at h

/-- A call of `detect` that ends leaves the timer pending exactly when it was
pending and the verdict is false. -/
theorem detect_ok_timeoutPending (s s1 : Session K) (f : Frame K)
    (h : detect hypot s f = .ok s1) :
    s1.timeoutPending = (s.timeoutPending && !s1.liveness) := by
  obtain ⟨n, b, t, p, hh, hfr⟩ := faceBlock_frame hypot s f
  obtain ⟨sa, sb, hd, hfb, hhb, rfl⟩ := (detect_ok_iff hypot s f s1).1 h
  obtain ⟨-, g, rfl⟩ := handBlock_ok sa f sb hd hhb
  rw [hfb] at hfr
  simp only [sessionAfter] at hfr
  rw [verdictBlock_timeoutPending, verdictBlock_liveness, hfr]

theorem step_frame_timeoutPending_of_no_verdict (s : Session K) (f : Frame K)
    (hv : ∀ s1, detect hypot s f = .ok s1 → s1.liveness = false) :
    (step hypot s (Event.frame f)).timeoutPending = s.timeoutPending := by
  show (sessionAfter (detect hypot s f)).timeoutPending = _
  cases hd : detect hypot s f with
  | error s1 => exact detect_error_timeoutPending hypot s s1 f hd
  | ok s1 =>
    show s1.timeoutPending = _
    rw [detect_ok_timeoutPending hypot s s1 f hd, hv s1 hd]
    simp

/-- Frames without a true verdict, with no deadline among them, leave the timer
as it was. -/
theorem run_timeoutPending_of_no_verdict (pre : List (Event K)) (s : Session K)
    (hnd : ∀ e ∈ pre, e ≠ Event.deadline)
    (hnv : ∀ p f q s1, pre = p ++ Event.frame f :: q →
      detect hypot (run hypot s p) f = .ok s1 → s1.liveness = false) :
    (run hypot s pre).timeoutPending = s.timeoutPending := by
  induction pre generalizing s with
  | nil => rfl
  | cons e es ih =>
    rw [run_cons]
    cases e with
    | deadline => exact absurd rfl (hnd Event.deadline (List.mem_cons_self _ _))
    | frame f =>
      rw [ih (step hypot s (Event.frame f)) (fun x hx => hnd x (List.mem_cons_of_mem _ hx))
        (fun p g q s1 hes hd => hnv (Event.frame f :: p) g q s1 (by rw [hes]; rfl) hd)]
      exact step_frame_timeoutPending_of_no_verdict hypot s f
        (fun s1 hd => hnv [] f es s1 rfl hd)

end timerMore

/-- C11: when no frame before the deadline ends with a true verdict, the
deadline event sets `fallback`, and `fallback` is true after every later event
of the session; no call of `detect`, ended or aborted, changes `fallback`. -/
theorem fallback_set_at_deadline_and_kept (hypot : K → K → K) (startTime : Int)
    (pre post : List (Event K)) (hnd : ∀ e ∈ pre, e ≠ Event.deadline)
    (hnv : ∀ p f q s1, pre = p ++ Event.frame f :: q →
      detect hypot (run hypot (runModels startTime) p) f = .ok s1 → s1.liveness = false) :
    (run hypot (runModels startTime) pre).fallback = false ∧
    (run hypot (runModels startTime) (pre ++ [Event.deadline])).fallback = true ∧
    (run hypot (runModels startTime) (pre ++ Event.deadline :: post)).fallback = true ∧
    (∀ (s : Session K) (f : Frame K), (sessionAfter (detect hypot s f)).fallback = s.fallback) := by
  have hpend : (run hypot (runModels startTime) pre).timeoutPending = true := by
    rw [run_timeoutPending_of_no_verdict hypot pre _ hnd hnv]; rfl
  have hfire : (step hypot (run hypot (runModels startTime) pre) Event.deadline).fallback = true ∧
      (step hypot (run hypot (runModels startTime) pre) Event.deadline).timeoutPending = false := by
    show (deadlineFires _).fallback = true ∧ (deadlineFires _).timeoutPending = false
    rw [deadlineFires_of_pending _ hpend]
    exact ⟨rfl, rfl⟩
  refine ⟨?_, ?_, ?_, fun s f => detect_fallback hypot s f⟩
  · rw [run_fallback_of_no_deadline hypot pre _ hnd]; rfl
  · rw [run_append, run_cons, run_nil]; exact hfire.1
  · rw [run_append, run_cons, (run_of_not_pending hypot post _ hfire.2).2]; exact hfire.1

/-- Witness for C11: a frame with neither face nor hand, then the deadline, then
a nodding frame. -/
theorem fallback_set_at_deadline_and_kept_witness :
    (run hypotAxis (runModels 0)
      ([Event.frame ⟨none, none, 100⟩] ++ [Event.deadline])).fallback = true ∧
    (run hypotAxis (runModels 0)
      ([Event.frame ⟨none, none, 100⟩] ++ Event.deadline :: [Event.frame (nodFrame 0)])).fallback
        = true := by
  have h := fallback_set_at_deadline_and_kept hypotAxis 0 [Event.frame ⟨none, none, 100⟩]
    [Event.frame (nodFrame 0)]
    (by intro e he; simp at he; rw [he]; simp)
    (by
      intro p f q s1 hes hd
      rcases p with _ | ⟨x, p⟩
      · simp only [List.nil_append, List.cons.injEq, Event.frame.injEq] at hes
        obtain ⟨rfl, -⟩ := hes
        have hv := detect_liveness_of_ok hypotAxis _ _ s1 hd
        rw [hv]; simp
      · simp at hes)
  exact ⟨h.2.1, h.2.2.1⟩

/-! ## The nodding sample as a session -/

section nodRun
variable (hypot : K → K → K)

/-- The eyes of a nodding face are degenerate (all eye landmarks at the origin):
its EAR is `NaN` or 1, never below 0.25. -/
theorem nodFace_ear_not_low (k : Nat) :
    ∃ e, calculateEAR hypot (nodFace k : List (Point K)) = some e ∧
      e.ltConst (1 / 4) = false := by
  refine ⟨_, by rw [nodFace, calculateEAR_faceOf], ?_⟩
  simp only [eyeRatio, show ¬ (362 = 10 ∨ 362 = 152 ∨ 362 = 226) by decide,
    show ¬ (385 = 10 ∨ 385 = 152 ∨ 385 = 226) by decide,
    show ¬ (387 = 10 ∨ 387 = 152 ∨ 387 = 226) by decide,
    show ¬ (263 = 10 ∨ 263 = 152 ∨ 263 = 226) by decide,
    show ¬ (373 = 10 ∨ 373 = 152 ∨ 373 = 226) by decide,
    show ¬ (380 = 10 ∨ 380 = 152 ∨ 380 = 226) by decide,
    show ¬ (33 = 10 ∨ 33 = 152 ∨ 33 = 226) by decide,
    show ¬ (160 = 10 ∨ 160 = 152 ∨ 160 = 226) by decide,
    show ¬ (158 = 10 ∨ 158 = 152 ∨ 158 = 226) by decide,
    show ¬ (133 = 10 ∨ 133 = 152 ∨ 133 = 226) by decide,
    show ¬ (153 = 10 ∨ 153 = 152 ∨ 153 = 226) by decide,
    show ¬ (144 = 10 ∨ 144 = 152 ∨ 144 = 226) by decide, if_false, sub_self]
  by_cases h0 : hypot 0 0 = 0
  · simp [JsNumber.div, h0, JsNumber.add, JsNumber.half, JsNumber.ltConst]
  · have h2 : (2 : K) * hypot 0 0 ≠ 0 := mul_ne_zero two_ne_zero h0
    have h1 : (hypot 0 0 + hypot 0 0) / (2 * hypot 0 0) = 1 := by
      rw [← two_mul]; exact div_self h2
    simp only [JsNumber.div, h2, if_false, h1, JsNumber.add, JsNumber.half, JsNumber.ltConst,
      decide_eq_false_iff_not, not_lt]
    norm_num

theorem blinkBlock_of_not_low (s : Session K) (e : JsNumber K) (now : Int)
    (hb : s.blinkCount < 3) (he : e.ltConst (1 / 4) = false) :
    blinkConfirm (blinkUpdate s e now) = s :=
  blinkBlock_of_not_counted s e now hb (fun h => by rw [he] at h; exact absurd h.1 (by simp))

/-- The face block on a frame showing `nodFace (k + 1)` after `nodFace k`. -/
theorem faceBlock_nod_succ (s : Session K) (f : Frame K) (k : Nat)
    (hf : f.face = some (nodFace (k + 1))) (hprev : s.previousLandmarks = some (nodFace k))
    (hb : s.blinkCount < 3) :
    faceBlock hypot s f =
      .ok { s with
        movementCount := s.movementCount + 1
        livenessHistory :=
          if s.movementCount + 1 ≥ 3 then addToHistory s.livenessHistory "confirmed"
          else s.livenessHistory
        previousLandmarks := some (nodFace (k + 1)) } := by
  obtain ⟨e, he, hlow⟩ := nodFace_ear_not_low hypot (k + 1)
  rw [faceBlock_of_face hypot s f (nodFace (k + 1)) e hf he,
    blinkBlock_of_not_low s e _ hb hlow,
    movementUpdate_of_analyze s _ (nodFace k) 3 true hprev (nodFace_analyzeMovement k),
    if_pos (⟨by decide, rfl⟩ : (3 ≥ 2 ∧ true = true))]
  split_ifs <;> rfl

/-- The face block on a frame showing `nodFace k` with no previous landmarks. -/
theorem faceBlock_nod_first (s : Session K) (f : Frame K) (k : Nat)
    (hf : f.face = some (nodFace k)) (hprev : s.previousLandmarks = none)
    (hb : s.blinkCount < 3) :
    faceBlock hypot s f = .ok { s with previousLandmarks := some (nodFace k) } := by
  obtain ⟨e, he, hlow⟩ := nodFace_ear_not_low hypot k
  rw [faceBlock_of_face hypot s f (nodFace k) e hf he, blinkBlock_of_not_low s e _ hb hlow,
    movementUpdate_of_no_previous s _ hprev]

/-- A frame without a hand, after its face block: the verdict is false. -/
theorem detect_of_no_hand (s s1 : Session K) (f : Frame K)
    (hfb : faceBlock hypot s f = .ok s1) (hh : f.hand = none) :
    detect hypot s f = .ok { s1 with liveness := false } := by
  unfold detect
  rw [hfb]
  simp only [handBlock, hh, verdictBlock, Bool.and_false, Bool.false_eq_true, if_false]

/-- The five nodding frames from a session with no previous landmarks and
`movementCount = 0`: four qualifying pairs and two votes. -/
theorem runFrames_nodTrace (s : Session K) (hprev : s.previousLandmarks = none)
    (hb : s.blinkCount < 3) (hmc : s.movementCount = 0) :
    runFrames hypot s nodTrace =
      { s with
        movementCount := 4
        previousLandmarks := some (nodFace 4)
        livenessHistory := addToHistory (addToHistory s.livenessHistory "confirmed") "confirmed"
        liveness := false } := by
  unfold nodTrace
  rw [runFrames_cons, detect_of_no_hand hypot s _ (nodFrame 0)
    (faceBlock_nod_first hypot s (nodFrame 0) 0 rfl hprev hb) rfl]
  simp only [sessionAfter]
  rw [runFrames_cons, detect_of_no_hand hypot _ _ (nodFrame 1)
    (faceBlock_nod_succ hypot _ (nodFrame 1) 0 rfl rfl (by exact hb)) rfl]
  simp only [sessionAfter]
  rw [runFrames_cons, detect_of_no_hand hypot _ _ (nodFrame 2)
    (faceBlock_nod_succ hypot _ (nodFrame 2) 1 rfl rfl (by exact hb)) rfl]
  simp only [sessionAfter]
  rw [runFrames_cons, detect_of_no_hand hypot _ _ (nodFrame 3)
    (faceBlock_nod_succ hypot _ (nodFrame 3) 2 rfl rfl (by exact hb)) rfl]
  simp only [sessionAfter]
  rw [runFrames_cons, detect_of_no_hand hypot _ _ (nodFrame 4)
    (faceBlock_nod_succ hypot _ (nodFrame 4) 3 rfl rfl (by exact hb)) rfl]
  simp only [sessionAfter, runFrames_nil, hmc]
  rfl

theorem run_map_frame (s : Session K) (fs : List (Frame K)) :
    run hypot s (fs.map Event.frame) = runFrames hypot s fs := by
  induction fs generalizing s with
  | nil => rfl
  | cons f fs ih => exact ih _

end nodRun

theorem detectHandGesture_openPalm : detectHandGesture openPalm = some "Open Palm ✋" := by
  have h : ∀ i, i < 21 → openPalm[i]? = some ⟨0, 20 - (i : ℚ)⟩ := by
    intro i hi
    rw [openPalm, List.getElem?_map, List.getElem?_range hi]; rfl
  simp only [detectHandGesture, h 8 (by decide), h 6 (by decide), h 12 (by decide),
    h 10 (by decide), Option.bind_eq_bind, Option.some_bind, Option.pure_def]
  norm_num

/-- The open-hand frame seen after the five nodding frames of a fresh session:
the third vote is recorded, the hand is there, the verdict is true. -/
theorem detect_palmFrame (s : Session ℚ) (hprev : s.previousLandmarks = some (nodFace 4))
    (hb : s.blinkCount < 3) (hmc : s.movementCount = 4)
    (hh : s.livenessHistory = ["confirmed", "confirmed"]) :
    detect hypotAxis s palmFrame =
      .ok { s with
        movementCount := 5
        previousLandmarks := some (nodFace 5)
        livenessHistory := ["confirmed", "confirmed", "confirmed"]
        gesture := "Open Palm ✋"
        liveness := true
        timeoutPending := false } := by
  have hfb := faceBlock_nod_succ hypotAxis s palmFrame 4 rfl hprev hb
  have hlc : isLivenessConfirmed ["confirmed", "confirmed", "confirmed"] = true :=
    (isLivenessConfirmed_iff _).2 (by decide)
  unfold detect
  rw [hfb]
  simp only [handBlock, palmFrame, detectHandGesture_openPalm, verdictBlock, hmc, hh]
  rw [if_pos (by decide : 4 + 1 ≥ 3)]
  simp only [show addToHistory ["confirmed", "confirmed"] "confirmed" =
    ["confirmed", "confirmed", "confirmed"] from by decide, hlc, Bool.and_self, if_true]

/-! ## After a confirmation -/

section majority
variable (hypot : K → K → K)

/-- Recording a "confirmed" vote never lowers the number of "confirmed" entries:
the vote adds one and the eviction removes at most one. -/
theorem addToHistory_count_ge (h : List String) :
    h.count "confirmed" ≤ (addToHistory h "confirmed").count "confirmed" := by
  unfold addToHistory historySize
  dsimp only
  split_ifs with hc
  · cases h with
    | nil => simp at hc
    | cons x t =>
      rw [List.cons_append, List.tail_cons, List.count_append, List.count_singleton_self,
        List.count_cons]
      split_ifs <;> omega
  · simp [List.count_append]

theorem blinkConfirm_count_ge (s : Session K) :
    s.livenessHistory.count "confirmed" ≤ (blinkConfirm s).livenessHistory.count "confirmed" := by
  unfold blinkConfirm
  split_ifs
  · exact addToHistory_count_ge _
  · exact le_refl _

theorem movementUpdate_count_ge (s : Session K) (lm : List (Point K)) :
    s.livenessHistory.count "confirmed" ≤
      (sessionAfter (movementUpdate s lm)).livenessHistory.count "confirmed" := by
  rw [movementUpdate_effect]
  split_ifs
  · exact addToHistory_count_ge _
  · exact le_refl _
  · exact le_refl _

theorem detect_count_ge (s : Session K) (f : Frame K) :
    s.livenessHistory.count "confirmed" ≤
      (sessionAfter (detect hypot s f)).livenessHistory.count "confirmed" := by
  rw [detect_livenessHistory]
  cases hf : f.face with
  | none => rw [faceBlock_of_no_face hypot s f hf]; exact le_refl _
  | some lm =>
    cases he : calculateEAR hypot lm with
    | none => rw [faceBlock_of_malformed hypot s f lm hf he]; exact le_refl _
    | some e =>
      have h1 := blinkConfirm_count_ge (blinkUpdate s e f.now)
      rw [blinkUpdate_livenessHistory] at h1
      have h2 := movementUpdate_count_ge (blinkConfirm (blinkUpdate s e f.now)) lm
      rw [faceBlock_of_face hypot s f lm e hf he]
      cases hmu : movementUpdate (blinkConfirm (blinkUpdate s e f.now)) lm with
      | error s2 => rw [hmu] at h2; exact h1.trans h2
      | ok s2 => rw [hmu] at h2; exact h1.trans h2

theorem step_count_ge (s : Session K) (e : Event K) :
    s.livenessHistory.count "confirmed" ≤
      (step hypot s e).livenessHistory.count "confirmed" := by
  cases e with
  | frame f => exact detect_count_ge hypot s f
  | deadline =>
    show _ ≤ (deadlineFires s).livenessHistory.count "confirmed"
    unfold deadlineFires capturedLiveness
    split_ifs <;> exact le_refl _

theorem run_count_ge (es : List (Event K)) (s : Session K) :
    s.livenessHistory.count "confirmed" ≤
      (run hypot s es).livenessHistory.count "confirmed" := by
  induction es generalizing s with
  | nil => exact le_refl _
  | cons e es ih => exact (step_count_ge hypot s e).trans (ih _)

/-- The majority test, once passed, is passed after every later event. -/
theorem run_isLivenessConfirmed (es : List (Event K)) (s : Session K)
    (h : isLivenessConfirmed s.livenessHistory = true) :
    isLivenessConfirmed (run hypot s es).livenessHistory = true := by
  rw [isLivenessConfirmed_iff] at h ⊢
  exact h.trans (run_count_ge hypot es s)

/-- A call of `detect` that throws has not reached `setLiveness`. -/
theorem detect_error_liveness (s s1 : Session K) (f : Frame K)
    (h : detect hypot s f = .error s1) : s1.liveness = s.liveness := by
  obtain ⟨n, b, t, p, hh, hfr⟩ := faceBlock_frame hypot s f
  unfold detect at h
  cases hfb : faceBlock hypot s f with
  | error sa =>
    simp only [hfb, Except.error.injEq] at h
    rw [hfb] at hfr
    simp only [sessionAfter] at hfr
    rw [← h, hfr]
  | ok sa =>
    rw [hfb] at hfr
    simp only [sessionAfter] at hfr
    simp only [hfb] at h
    cases hhb : handBlock sa f with
    | error sb =>
      simp only [hhb, Except.error.injEq] at h
      rw [← h, handBlock_error sa f sb hhb, hfr]
    | ok r =>
      obtain ⟨sb, hd⟩ := r
      simp [hhb] at h

/-- From a session whose history passes the majority test, the verdict of a
frame that runs to its end is hand presence. -/
theorem detect_liveness_of_majority (s s1 : Session K) (f : Frame K)
    (hm : isLivenessConfirmed s.livenessHistory = true) (hd : detect hypot s f = .ok s1) :
    s1.liveness = f.hand.isSome := by
  have h1 : isLivenessConfirmed s1.livenessHistory = true := by
    have := run_isLivenessConfirmed hypot [Event.frame f] s hm
    rw [run_cons, run_nil] at this
    have hs : step hypot s (Event.frame f) = s1 := by
      show sessionAfter (detect hypot s f) = s1
      rw [hd]; rfl
    rw [hs] at this
    exact this
  rw [detect_liveness_of_ok hypot s f s1 hd, h1, Bool.true_and]

end majority

/-- Counterexample to C12: in a fresh session, five nodding frames and a sixth
with an open hand give a true verdict; the next frame shows neither face nor
hand, and `liveness` is false again. -/
theorem liveness_not_terminal_counterexample :
    (runFrames hypotAxis (runModels 0) (nodTrace ++ [palmFrame])).liveness = true ∧
    (runFrames hypotAxis (runModels 0)
      (nodTrace ++ [palmFrame, ⟨none, none, 600⟩])).liveness = false := by
  have h5 := runFrames_nodTrace hypotAxis (runModels 0 : Session ℚ) rfl (by decide) rfl
  have h6 : runFrames hypotAxis (runModels 0) (nodTrace ++ [palmFrame]) =
      sessionAfter (detect hypotAxis (runFrames hypotAxis (runModels 0) nodTrace) palmFrame) := by
    rw [runFrames_append, runFrames_cons, runFrames_nil]
  have hp5 : (runFrames hypotAxis (runModels 0) nodTrace).previousLandmarks =
      some (nodFace 4) := by rw [h5]
  have hb5 : (runFrames hypotAxis (runModels 0) nodTrace).blinkCount < 3 := by
    rw [h5]; exact (by decide : (0 : ℕ) < 3)
  have hm5 : (runFrames hypotAxis (runModels 0) nodTrace).movementCount = 4 := by rw [h5]
  have hh5 : (runFrames hypotAxis (runModels 0) nodTrace).livenessHistory =
      ["confirmed", "confirmed"] := by rw [h5]; rfl
  have hd := detect_palmFrame (runFrames hypotAxis (runModels 0) nodTrace) hp5 hb5 hm5 hh5
  rw [hd] at h6
  refine ⟨by rw [h6]; rfl, ?_⟩
  have h7 : runFrames hypotAxis (runModels 0) (nodTrace ++ [palmFrame, ⟨none, none, 600⟩]) =
      sessionAfter (detect hypotAxis
        (runFrames hypotAxis (runModels 0) (nodTrace ++ [palmFrame])) ⟨none, none, 600⟩) := by
    rw [show (nodTrace ++ [palmFrame, ⟨none, none, 600⟩] : List (Frame ℚ)) =
      (nodTrace ++ [palmFrame]) ++ [⟨none, none, 600⟩] from by simp, runFrames_append,
      runFrames_cons, runFrames_nil]
  rw [h7, detect_of_no_hand hypotAxis _ _ ⟨none, none, 600⟩
    (faceBlock_of_no_face hypotAxis _ ⟨none, none, 600⟩ rfl) rfl]
  rfl

/-- C12, amended: once a frame has ended with a true verdict, after every later
event the timer is still cancelled and the history still passes the majority
test; a later frame that runs to its end sets `liveness` to hand presence in
that frame (true with a hand, false without), and one that throws leaves
`liveness` as it was. -/
theorem liveness_follows_hand_after_confirmation (hypot : K → K → K) (s s1 : Session K)
    (f : Frame K) (es : List (Event K))
    (hd : detect hypot s f = .ok s1) (hl : s1.liveness = true) :
    (run hypot s1 es).timeoutPending = false ∧
    isLivenessConfirmed (run hypot s1 es).livenessHistory = true ∧
    (∀ g s2, detect hypot (run hypot s1 es) g = .ok s2 → s2.liveness = g.hand.isSome) ∧
    (∀ g s2, detect hypot (run hypot s1 es) g = .error s2 →
      s2.liveness = (run hypot s1 es).liveness) := by
  have hm : isLivenessConfirmed s1.livenessHistory = true := by
    have := detect_liveness_of_ok hypot s f s1 hd
    rw [hl] at this
    simp only [Bool.true_eq, Bool.and_eq_true] at this
    exact this.1
  have hrun := run_isLivenessConfirmed hypot es s1 hm
  exact ⟨(run_of_not_pending hypot es s1 (detect_cancels_timer hypot s s1 f hd hl)).1, hrun,
    fun g s2 h => detect_liveness_of_majority hypot _ s2 g hrun h,
    fun g s2 h => detect_error_liveness hypot _ s2 g h⟩

/-- Witness for C12 amended: the open-hand frame after the five nodding frames
confirms; one later frame without a hand ends with `liveness = false`. -/
theorem liveness_follows_hand_after_confirmation_witness :
    ∃ s1 s2, detect hypotAxis (runFrames hypotAxis (runModels 0) nodTrace) palmFrame = .ok s1 ∧
      s1.liveness = true ∧
      detect hypotAxis (run hypotAxis s1 []) ⟨none, none, 600⟩ = .ok s2 ∧
      s2.liveness = false := by
  have h5 := runFrames_nodTrace hypotAxis (runModels 0 : Session ℚ) rfl (by decide) rfl
  have hp5 : (runFrames hypotAxis (runModels 0) nodTrace).previousLandmarks =
      some (nodFace 4) := by rw [h5]
  have hb5 : (runFrames hypotAxis (runModels 0) nodTrace).blinkCount < 3 := by
    rw [h5]; exact (by decide : (0 : ℕ) < 3)
  have hm5 : (runFrames hypotAxis (runModels 0) nodTrace).movementCount = 4 := by rw [h5]
  have hh5 : (runFrames hypotAxis (runModels 0) nodTrace).livenessHistory =
      ["confirmed", "confirmed"] := by rw [h5]; rfl
  have hd := detect_palmFrame (runFrames hypotAxis (runModels 0) nodTrace) hp5 hb5 hm5 hh5
  have hd2 := detect_of_no_hand hypotAxis _ _ ⟨none, none, 600⟩
    (faceBlock_of_no_face hypotAxis
      (run hypotAxis
        { runFrames hypotAxis (runModels 0) nodTrace with
          movementCount := 5
          previousLandmarks := some (nodFace 5)
          livenessHistory := ["confirmed", "confirmed", "confirmed"]
          gesture := "Open Palm ✋"
          liveness := true
          timeoutPending := false } [])
      ⟨none, none, 600⟩ rfl) rfl
  exact ⟨_, _, hd, rfl, hd2,
    (liveness_follows_hand_after_confirmation hypotAxis _ _ palmFrame [] hd rfl).2.2.1
      ⟨none, none, 600⟩ _ hd2⟩

/-! ## After the timeout -/

section timedOut
variable (hypot : K → K → K)

/-- While the timer is pending no frame has ended with a true verdict and the
deadline has not fired: `liveness` and `fallback` are both false.  This is kept
by every event. -/
theorem step_pending_invariant (s : Session K) (e : Event K)
    (hs : s.timeoutPending = true → s.liveness = false ∧ s.fallback = false)
    (h : (step hypot s e).timeoutPending = true) :
    (step hypot s e).liveness = false ∧ (step hypot s e).fallback = false := by
  cases e with
  | deadline =>
    have := deadlineFires_timeoutPending s
    rw [show step hypot s Event.deadline = deadlineFires s from rfl] at h
    rw [this] at h
    exact absurd h (by simp)
  | frame f =>
    have hsp : s.timeoutPending = true := detect_timeoutPending hypot s f h
    obtain ⟨hl, hf⟩ := hs hsp
    have hfb : (step hypot s (Event.frame f)).fallback = false :=
      (detect_fallback hypot s f).trans hf
    refine ⟨?_, hfb⟩
    have hst : step hypot s (Event.frame f) = sessionAfter (detect hypot s f) := rfl
    rw [hst] at h ⊢
    cases hd : detect hypot s f with
    | error s1 =>
      show s1.liveness = false
      rw [detect_error_liveness hypot s s1 f hd]; exact hl
    | ok s1 =>
      rw [hd] at h
      have h1 : s1.timeoutPending = true := h
      rw [detect_ok_timeoutPending hypot s s1 f hd] at h1
      simp only [Bool.and_eq_true, Bool.not_eq_true'] at h1
      exact h1.2

theorem run_pending_invariant (es : List (Event K)) (s : Session K)
    (hs : s.timeoutPending = true → s.liveness = false ∧ s.fallback = false)
    (h : (run hypot s es).timeoutPending = true) :
    (run hypot s es).liveness = false ∧ (run hypot s es).fallback = false := by
  induction es generalizing s with
  | nil => exact hs h
  | cons e es ih => exact ih (step hypot s e) (step_pending_invariant hypot s e hs) h

end timedOut

/-- Counterexample to C13: the deadline fires on a fresh session (still armed),
then come the five nodding frames and the open-hand frame; the session ends with
`fallback` and `liveness` both true. -/
theorem timed_out_then_confirmed_counterexample :
    (run hypotAxis (runModels 0) [Event.deadline]).fallback = true ∧
    (run hypotAxis (runModels 0)
      (Event.deadline :: (nodTrace ++ [palmFrame]).map Event.frame)).fallback = true ∧
    (run hypotAxis (runModels 0)
      (Event.deadline :: (nodTrace ++ [palmFrame]).map Event.frame)).liveness = true := by
  have h0 : step hypotAxis (runModels 0 : Session ℚ) Event.deadline =
      { (runModels 0 : Session ℚ) with fallback := true, timeoutPending := false } := rfl
  have h5 := runFrames_nodTrace hypotAxis
    ({ (runModels 0 : Session ℚ) with fallback := true, timeoutPending := false })
    rfl (by decide) rfl
  have hp5 := congrArg Session.previousLandmarks h5
  have hb5 := congrArg Session.blinkCount h5
  have hm5 := congrArg Session.movementCount h5
  have hh5 := congrArg Session.livenessHistory h5
  have hd := detect_palmFrame _ hp5 (by rw [hb5]; exact (by decide : (0 : ℕ) < 3)) hm5
    (by rw [hh5]; rfl)
  refine ⟨rfl, ?_, ?_⟩
  · rw [run_cons, h0, run_map_frame, runFrames_append, runFrames_cons, runFrames_nil, hd, h5]
    rfl
  · rw [run_cons, h0, run_map_frame, runFrames_append, runFrames_cons, runFrames_nil, hd]
    rfl

/-- C13, amended: in a session, while the timer is pending `liveness` and
`fallback` are false, so `liveness` is false at the moment the deadline fires
on an armed session; the deadline then sets `fallback`, and after every later
event `fallback` is true and the timer is not pending.  Later frames are judged
as before: one that runs to its end sets `liveness` to the majority test AND
hand presence, so `liveness` can become true after the timeout. -/
theorem timed_out_keeps_fallback (hypot : K → K → K) (startTime : Int)
    (pre post : List (Event K))
    (harmed : (run hypot (runModels startTime) pre).timeoutPending = true) :
    (run hypot (runModels startTime) pre).liveness = false ∧
    (run hypot (runModels startTime) pre).fallback = false ∧
    (run hypot (runModels startTime) (pre ++ [Event.deadline])).fallback = true ∧
    (run hypot (runModels startTime) (pre ++ [Event.deadline])).liveness = false ∧
    (run hypot (runModels startTime) (pre ++ Event.deadline :: post)).fallback = true ∧
    (run hypot (runModels startTime) (pre ++ Event.deadline :: post)).timeoutPending = false ∧
    (∀ g s2, detect hypot (run hypot (runModels startTime) (pre ++ Event.deadline :: post)) g
        = .ok s2 →
      s2.liveness = (isLivenessConfirmed s2.livenessHistory && g.hand.isSome)) := by
  have hinv := run_pending_invariant hypot pre (runModels startTime)
    (fun _ => ⟨rfl, rfl⟩) harmed
  have hfire : step hypot (run hypot (runModels startTime) pre) Event.deadline =
      { run hypot (runModels startTime) pre with fallback := true, timeoutPending := false } :=
    deadlineFires_of_pending _ harmed
  have hpost := run_of_not_pending hypot post
    (step hypot (run hypot (runModels startTime) pre) Event.deadline)
    (by rw [hfire])
  refine ⟨hinv.1, hinv.2, ?_, ?_, ?_, ?_, ?_⟩
  · rw [run_append, run_cons, run_nil, hfire]
  · rw [run_append, run_cons, run_nil, hfire]; exact hinv.1
  · rw [run_append, run_cons, hpost.2, hfire]
  · rw [run_append, run_cons]; exact hpost.1
  · intro g s2 hd
    exact detect_liveness_of_ok hypot _ g s2 hd

/-- Witness for C13 amended: a fresh session on which the deadline fires at
once, followed by one nodding frame. -/
theorem timed_out_keeps_fallback_witness :
    (run hypotAxis (runModels 0) ([] ++ [Event.deadline])).fallback = true ∧
    (run hypotAxis (runModels 0) ([] ++ [Event.deadline])).liveness = false ∧
    (run hypotAxis (runModels 0)
      ([] ++ Event.deadline :: [Event.frame (nodFrame 0)])).fallback = true :=
  have h := timed_out_keeps_fallback hypotAxis 0 [] [Event.frame (nodFrame 0)] rfl
  ⟨h.2.2.1, h.2.2.2.1, h.2.2.2.2.1⟩

/-! ## The hand gesture classifier -/

/-- `detectHandGesture` on a hand with the four landmarks it reads. -/
theorem detectHandGesture_eq (lm : List (Point K)) (hl : 13 ≤ lm.length) :
    detectHandGesture lm = some
      (if (lm.getD 8 ⟨0, 0⟩).y < (lm.getD 6 ⟨0, 0⟩).y ∧
          (lm.getD 12 ⟨0, 0⟩).y < (lm.getD 10 ⟨0, 0⟩).y then "Open Palm ✋"
       else if (lm.getD 8 ⟨0, 0⟩).y > (lm.getD 6 ⟨0, 0⟩).y ∧
          (lm.getD 12 ⟨0, 0⟩).y > (lm.getD 10 ⟨0, 0⟩).y then "Closed Fist ✊"
       else "Unknown Gesture") := by
  have e : ∀ i, i < 13 → lm[i]? = some (lm.getD i ⟨0, 0⟩) := by
    intro i hi
    rw [List.getD_eq_getElem?_getD, List.getElem?_eq_getElem (by omega)]; rfl
  unfold detectHandGesture
  simp only [e 8 (by decide), e 6 (by decide), e 12 (by decide), e 10 (by decide),
    Option.bind_eq_bind, Option.some_bind, Option.pure_def]
  split_ifs <;> rfl

/-- C14: on a hand of at least 13 landmarks `detectHandGesture` returns, with
"Open Palm" exactly when `y[8] < y[6]` and `y[12] < y[10]`, "Closed Fist"
exactly when `y[8] > y[6]` and `y[12] > y[10]`, and "Unknown Gesture" exactly
when neither holds (mixed directions or a tie); the three labels are distinct,
so exactly one is produced. -/
theorem detectHandGesture_classifies (lm : List (Point K)) (hl : 13 ≤ lm.length) :
    (∃ g, detectHandGesture lm = some g ∧
      (g = "Open Palm ✋" ∨ g = "Closed Fist ✊" ∨ g = "Unknown Gesture")) ∧
    (detectHandGesture lm = some "Open Palm ✋" ↔
      (lm.getD 8 ⟨0, 0⟩).y < (lm.getD 6 ⟨0, 0⟩).y ∧
        (lm.getD 12 ⟨0, 0⟩).y < (lm.getD 10 ⟨0, 0⟩).y) ∧
    (detectHandGesture lm = some "Closed Fist ✊" ↔
      (lm.getD 8 ⟨0, 0⟩).y > (lm.getD 6 ⟨0, 0⟩).y ∧
        (lm.getD 12 ⟨0, 0⟩).y > (lm.getD 10 ⟨0, 0⟩).y) ∧
    (detectHandGesture lm = some "Unknown Gesture" ↔
      ¬ ((lm.getD 8 ⟨0, 0⟩).y < (lm.getD 6 ⟨0, 0⟩).y ∧
          (lm.getD 12 ⟨0, 0⟩).y < (lm.getD 10 ⟨0, 0⟩).y) ∧
      ¬ ((lm.getD 8 ⟨0, 0⟩).y > (lm.getD 6 ⟨0, 0⟩).y ∧
          (lm.getD 12 ⟨0, 0⟩).y > (lm.getD 10 ⟨0, 0⟩).y)) ∧
    ((lm.getD 8 ⟨0, 0⟩).y = (lm.getD 6 ⟨0, 0⟩).y ∨
        (lm.getD 12 ⟨0, 0⟩).y = (lm.getD 10 ⟨0, 0⟩).y →
      detectHandGesture lm = some "Unknown Gesture") ∧
    ("Open Palm ✋" ≠ "Closed Fist ✊" ∧ "Open Palm ✋" ≠ "Unknown Gesture" ∧
      "Closed Fist ✊" ≠ "Unknown Gesture") := by
  have hoc : "Open Palm ✋" ≠ "Closed Fist ✊" := by decide
  have hou : "Open Palm ✋" ≠ "Unknown Gesture" := by decide
  have hcu : "Closed Fist ✊" ≠ "Unknown Gesture" := by decide
  rw [detectHandGesture_eq lm hl]
  by_cases ho : (lm.getD 8 ⟨0, 0⟩).y < (lm.getD 6 ⟨0, 0⟩).y ∧
      (lm.getD 12 ⟨0, 0⟩).y < (lm.getD 10 ⟨0, 0⟩).y
  · have hnc : ¬ ((lm.getD 8 ⟨0, 0⟩).y > (lm.getD 6 ⟨0, 0⟩).y ∧
        (lm.getD 12 ⟨0, 0⟩).y > (lm.getD 10 ⟨0, 0⟩).y) := fun h => lt_asymm ho.1 h.1
    rw [if_pos ho]
    refine ⟨⟨_, rfl, Or.inl rfl⟩, ⟨fun _ => ho, fun _ => rfl⟩, ?_, ?_, ?_, hoc, hou, hcu⟩
    · exact ⟨fun h => absurd (Option.some.inj h) hoc, fun h => absurd h hnc⟩
    · exact ⟨fun h => absurd (Option.some.inj h) hou, fun h => absurd ho h.1⟩
    · rintro (h | h)
      · exact absurd ho.1 (by rw [h]; exact lt_irrefl _)
      · exact absurd ho.2 (by rw [h]; exact lt_irrefl _)
  · rw [if_neg ho]
    by_cases hc : (lm.getD 8 ⟨0, 0⟩).y > (lm.getD 6 ⟨0, 0⟩).y ∧
        (lm.getD 12 ⟨0, 0⟩).y > (lm.getD 10 ⟨0, 0⟩).y
    · rw [if_pos hc]
      refine ⟨⟨_, rfl, Or.inr (Or.inl rfl)⟩, ?_, ⟨fun _ => hc, fun _ => rfl⟩, ?_, ?_,
        hoc, hou, hcu⟩
      · exact ⟨fun h => absurd (Option.some.inj h).symm hoc, fun h => absurd h ho⟩
      · exact ⟨fun h => absurd (Option.some.inj h) hcu, fun h => absurd hc h.2⟩
      · rintro (h | h)
        · exact absurd hc.1 (by rw [h]; exact lt_irrefl _)
        · exact absurd hc.2 (by rw [h]; exact lt_irrefl _)
    · rw [if_neg hc]
      refine ⟨⟨_, rfl, Or.inr (Or.inr rfl)⟩, ?_, ?_, ⟨fun _ => ⟨ho, hc⟩, fun _ => rfl⟩,
        fun _ => rfl, hoc, hou, hcu⟩
      · exact ⟨fun h => absurd (Option.some.inj h).symm hou, fun h => absurd h ho⟩
      · exact ⟨fun h => absurd (Option.some.inj h).symm hcu, fun h => absurd h hc⟩

/-- Witness for C14: the sample open hand has 21 landmarks and is classified as
an open palm. -/
theorem detectHandGesture_classifies_witness :
    13 ≤ openPalm.length ∧ detectHandGesture openPalm = some "Open Palm ✋" ∧
    ((openPalm.getD 8 ⟨0, 0⟩).y < (openPalm.getD 6 ⟨0, 0⟩).y ∧
      (openPalm.getD 12 ⟨0, 0⟩).y < (openPalm.getD 10 ⟨0, 0⟩).y) :=
  have hl : 13 ≤ openPalm.length := by decide
  ⟨hl, detectHandGesture_openPalm,
    (detectHandGesture_classifies openPalm hl).2.1.1 detectHandGesture_openPalm⟩


/-! ## The EAR estimator -/

section ear
variable (hypot : K → K → K)

theorem getElem?_eq_some_getD (lm : List (Point K)) (i : Nat) (hi : i < lm.length) :
    lm[i]? = some (lm.getD i ⟨0, 0⟩) := by
  rw [List.getD_eq_getElem?_getD, List.getElem?_eq_getElem hi]; rfl

/-- `calculateEAR` on a mesh with the twelve landmarks it reads. -/
theorem calculateEAR_eq (lm : List (Point K)) (hl : 388 ≤ lm.length) :
    calculateEAR hypot lm = some (JsNumber.half (JsNumber.add
      (eyeRatio hypot (lm.getD 362 ⟨0, 0⟩) (lm.getD 385 ⟨0, 0⟩) (lm.getD 387 ⟨0, 0⟩)
        (lm.getD 263 ⟨0, 0⟩) (lm.getD 373 ⟨0, 0⟩) (lm.getD 380 ⟨0, 0⟩))
      (eyeRatio hypot (lm.getD 33 ⟨0, 0⟩) (lm.getD 160 ⟨0, 0⟩) (lm.getD 158 ⟨0, 0⟩)
        (lm.getD 133 ⟨0, 0⟩) (lm.getD 153 ⟨0, 0⟩) (lm.getD 144 ⟨0, 0⟩)))) := by
  unfold calculateEAR
  simp only [getElem?_eq_some_getD lm 362 (by omega), getElem?_eq_some_getD lm 385 (by omega),
    getElem?_eq_some_getD lm 387 (by omega), getElem?_eq_some_getD lm 263 (by omega),
    getElem?_eq_some_getD lm 373 (by omega), getElem?_eq_some_getD lm 380 (by omega),
    getElem?_eq_some_getD lm 33 (by omega), getElem?_eq_some_getD lm 160 (by omega),
    getElem?_eq_some_getD lm 158 (by omega), getElem?_eq_some_getD lm 133 (by omega),
    getElem?_eq_some_getD lm 153 (by omega), getElem?_eq_some_getD lm 144 (by omega)]

/-- A Euclidean `hypot` vanishes only at the origin. -/
theorem hypot_ne_zero (hE : ∀ a b, 0 ≤ hypot a b ∧ hypot a b ^ 2 = a ^ 2 + b ^ 2)
    (a b : K) (h : a ≠ 0 ∨ b ≠ 0) : hypot a b ≠ 0 := by
  intro h0
  have h2 := (hE a b).2
  rw [h0] at h2
  have ha : a ^ 2 + b ^ 2 = 0 := by rw [← h2]; ring
  have ha0 : a = 0 := by nlinarith [sq_nonneg a, sq_nonneg b]
  have hb0 : b = 0 := by nlinarith [sq_nonneg a, sq_nonneg b]
  rcases h with h | h
  · exact h ha0
  · exact h hb0

/-- With distinct eye corners the ratio of an eye is a finite number, the one the
specification writes, and it is not negative. -/
theorem eyeRatio_eq_spec (hE : ∀ a b, 0 ≤ hypot a b ∧ hypot a b ^ 2 = a ^ 2 + b ^ 2)
    (p1 p2 p3 p4 p5 p6 : Point K) (hc : p1.x ≠ p4.x ∨ p1.y ≠ p4.y) :
    eyeRatio hypot p1 p2 p3 p4 p5 p6 = JsNumber.finite (eyeRatioSpec hypot p1 p2 p3 p4 p5 p6) ∧
    0 ≤ eyeRatioSpec hypot p1 p2 p3 p4 p5 p6 := by
  have hne : hypot (p1.x - p4.x) (p1.y - p4.y) ≠ 0 :=
    hypot_ne_zero hypot hE _ _ (hc.imp sub_ne_zero.2 sub_ne_zero.2)
  have hpos : 0 < 2 * hypot (p1.x - p4.x) (p1.y - p4.y) :=
    mul_pos two_pos (lt_of_le_of_ne (hE _ _).1 (Ne.symm hne))
  constructor
  · unfold eyeRatio JsNumber.div eyeRatioSpec dist2D
    rw [if_neg (ne_of_gt hpos)]
  · unfold eyeRatioSpec dist2D
    exact div_nonneg (add_nonneg (hE _ _).1 (hE _ _).1) (le_of_lt hpos)

end ear

/-- C15: with `hypot` the Euclidean length (`hypot a b ≥ 0` and
`hypot a b ^ 2 = a ^ 2 + b ^ 2`), on a mesh of at least 388 landmarks whose eye
corners 362, 263 and 33, 133 are distinct in the `x`, `y` plane, `calculateEAR`
returns the finite number `earSpec`: the mean of the two ratios
`(dist(p2,p6) + dist(p3,p5)) / (2 * dist(p1,p4))`, the left eye read at 362,
385, 387, 263, 373, 380 and the right eye at 33, 160, 158, 133, 153, 144, with
`dist` taken on `x` and `y` only; and that number is not negative. -/
theorem calculateEAR_is_mean_of_eye_ratios (hypot : K → K → K)
    (hE : ∀ a b, 0 ≤ hypot a b ∧ hypot a b ^ 2 = a ^ 2 + b ^ 2)
    (lm : List (Point K)) (hl : 388 ≤ lm.length)
    (hleft : (lm.getD 362 ⟨0, 0⟩).x ≠ (lm.getD 263 ⟨0, 0⟩).x ∨
      (lm.getD 362 ⟨0, 0⟩).y ≠ (lm.getD 263 ⟨0, 0⟩).y)
    (hright : (lm.getD 33 ⟨0, 0⟩).x ≠ (lm.getD 133 ⟨0, 0⟩).x ∨
      (lm.getD 33 ⟨0, 0⟩).y ≠ (lm.getD 133 ⟨0, 0⟩).y) :
    calculateEAR hypot lm = some (JsNumber.finite (earSpec hypot lm)) ∧
    0 ≤ earSpec hypot lm ∧
    earSpec hypot lm =
      ((dist2D hypot (lm.getD 385 ⟨0, 0⟩) (lm.getD 380 ⟨0, 0⟩) +
          dist2D hypot (lm.getD 387 ⟨0, 0⟩) (lm.getD 373 ⟨0, 0⟩)) /
          (2 * dist2D hypot (lm.getD 362 ⟨0, 0⟩) (lm.getD 263 ⟨0, 0⟩)) +
        (dist2D hypot (lm.getD 160 ⟨0, 0⟩) (lm.getD 144 ⟨0, 0⟩) +
          dist2D hypot (lm.getD 158 ⟨0, 0⟩) (lm.getD 153 ⟨0, 0⟩)) /
          (2 * dist2D hypot (lm.getD 33 ⟨0, 0⟩) (lm.getD 133 ⟨0, 0⟩))) / 2 ∧
    (∀ p q : Point K, 0 ≤ dist2D hypot p q ∧
      dist2D hypot p q ^ 2 = (p.x - q.x) ^ 2 + (p.y - q.y) ^ 2) := by
  obtain ⟨hle, hlp⟩ := eyeRatio_eq_spec hypot hE (lm.getD 362 ⟨0, 0⟩) (lm.getD 385 ⟨0, 0⟩)
    (lm.getD 387 ⟨0, 0⟩) (lm.getD 263 ⟨0, 0⟩) (lm.getD 373 ⟨0, 0⟩) (lm.getD 380 ⟨0, 0⟩) hleft
  obtain ⟨hre, hrp⟩ := eyeRatio_eq_spec hypot hE (lm.getD 33 ⟨0, 0⟩) (lm.getD 160 ⟨0, 0⟩)
    (lm.getD 158 ⟨0, 0⟩) (lm.getD 133 ⟨0, 0⟩) (lm.getD 153 ⟨0, 0⟩) (lm.getD 144 ⟨0, 0⟩) hright
  refine ⟨?_, ?_, rfl, fun p q => hE _ _⟩
  · rw [calculateEAR_eq hypot lm hl, hle, hre]; rfl
  · unfold earSpec
    exact div_nonneg (add_nonneg hlp hrp) (by norm_num)

theorem openEyes_length : (openEyes : List (Point K)).length = 468 := faceOf_length _

/-- Witness for C15: the open-eyed sample over the reals with
`hypot a b = √(a² + b²)`. -/
theorem calculateEAR_is_mean_of_eye_ratios_witness :
    388 ≤ (openEyes : List (Point ℝ)).length ∧
    ∃ v : ℝ, calculateEAR (fun a b => Real.sqrt (a ^ 2 + b ^ 2)) openEyes
      = some (JsNumber.finite v) ∧ 0 ≤ v := by
  have hl : 388 ≤ (openEyes : List (Point ℝ)).length := by rw [openEyes_length]; norm_num
  have hE : ∀ a b : ℝ, 0 ≤ Real.sqrt (a ^ 2 + b ^ 2) ∧
      Real.sqrt (a ^ 2 + b ^ 2) ^ 2 = a ^ 2 + b ^ 2 :=
    fun a b => ⟨Real.sqrt_nonneg _, Real.sq_sqrt (by positivity)⟩
  have h := calculateEAR_is_mean_of_eye_ratios (fun a b : ℝ => Real.sqrt (a ^ 2 + b ^ 2)) hE
    openEyes hl
    (Or.inl (by
      rw [openEyes, faceOf_getD _ 362 (by decide), faceOf_getD _ 263 (by decide)]
      norm_num))
    (Or.inl (by
      rw [openEyes, faceOf_getD _ 33 (by decide), faceOf_getD _ 133 (by decide)]
      norm_num))
  exact ⟨hl, _, h.1, h.2.1⟩

/-- C16: on a face of fewer than 388 landmarks `calculateEAR` does not return a
value (it throws), `detect` stops there, and the session it leaves is the one
it got: `blinkCount`, `lastBlinkTime`, `movementCount`, `previousLandmarks` and
`livenessHistory` are as before the frame. -/
theorem malformed_face_leaves_session (hypot : K → K → K) (s : Session K) (f : Frame K)
    (lm : List (Point K)) (hf : f.face = some lm) (hl : lm.length < 388) :
    calculateEAR hypot lm = none ∧
    detect hypot s f = .error s ∧
    (sessionAfter (detect hypot s f)).blinkCount = s.blinkCount ∧
    (sessionAfter (detect hypot s f)).lastBlinkTime = s.lastBlinkTime ∧
    (sessionAfter (detect hypot s f)).movementCount = s.movementCount ∧
    (sessionAfter (detect hypot s f)).previousLandmarks = s.previousLandmarks ∧
    (sessionAfter (detect hypot s f)).livenessHistory = s.livenessHistory := by
  have he : calculateEAR hypot lm = none := by
    cases h : calculateEAR hypot lm with
    | none => rfl
    | some e => exact absurd (length_of_calculateEAR hypot lm e h) (by omega)
  have hd : detect hypot s f = .error s := by
    unfold detect
    rw [faceBlock_of_malformed hypot s f lm hf he]
  refine ⟨he, hd, ?_, ?_, ?_, ?_, ?_⟩ <;> rw [hd] <;> rfl

/-- Witness for C16: a mesh cut off after 387 landmarks, seen by a session that
holds three votes. -/
theorem malformed_face_leaves_session_witness :
    ((shutEyes.take 387).length < 388) ∧
    calculateEAR hypotAxis (shutEyes.take 387) = none ∧
    detect hypotAxis votedSession ⟨some (shutEyes.take 387), none, 1000⟩ = .error votedSession :=
  have hl : (shutEyes.take 387).length < 388 := by
    rw [List.length_take, shutEyes, faceOf_length]; decide
  have h := malformed_face_leaves_session hypotAxis votedSession
    ⟨some (shutEyes.take 387), none, 1000⟩ (shutEyes.take 387) rfl hl
  ⟨hl, h.1, h.2.1⟩

/-! ## The two EAR implementations -/

section twoEars
variable (hypot : K → K → K) (sqrt : K → K)

theorem blinkDetection_eyeRatio_eq (hS : ∀ a b, hypot a b = sqrt (a ^ 2 + b ^ 2))
    (p1 p2 p3 p4 p5 p6 : Point K) :
    BlinkDetection.eyeRatio sqrt p1 p2 p3 p4 p5 p6 = eyeRatio hypot p1 p2 p3 p4 p5 p6 := by
  unfold BlinkDetection.eyeRatio BlinkDetection.distance eyeRatio
  simp only [hS]

/-- `blinkDetection.calculateEAR` in terms of the twelve landmarks it reads. -/
theorem blinkDetection_calculateEAR_of_some (lm : List (Point K))
    (l0 l1 l2 l3 l4 l5 r0 r1 r2 r3 r4 r5 : Point K)
    (h36 : lm[36]? = some l0) (h37 : lm[37]? = some l1) (h38 : lm[38]? = some l2)
    (h39 : lm[39]? = some l3) (h40 : lm[40]? = some l4) (h41 : lm[41]? = some l5)
    (h42 : lm[42]? = some r0) (h43 : lm[43]? = some r1) (h44 : lm[44]? = some r2)
    (h45 : lm[45]? = some r3) (h46 : lm[46]? = some r4) (h47 : lm[47]? = some r5) :
    BlinkDetection.calculateEAR sqrt lm = some (JsNumber.half (JsNumber.add
      (BlinkDetection.eyeRatio sqrt l0 l1 l2 l3 l4 l5)
      (BlinkDetection.eyeRatio sqrt r0 r1 r2 r3 r4 r5))) := by
  unfold BlinkDetection.calculateEAR
  simp only [h36, h37, h38, h39, h40, h41, h42, h43, h44, h45, h46, h47]

end twoEars

/-- C17: with `Math.hypot(a, b) = Math.sqrt(a² + b²)`, if the 48-point list `L'`
carries at positions 36..41 the landmarks 362, 385, 387, 263, 373, 380 of the
mesh `L`, and at 42..47 the landmarks 33, 160, 158, 133, 153, 144, then
`calculateEAR` of `blinkDetection.js` on `L'` and `calculateEAR` of `App.jsx`
on `L` return the same value (division by zero included), and they do return. -/
theorem calculateEAR_implementations_agree (hypot : K → K → K) (sqrt : K → K)
    (hS : ∀ a b, hypot a b = sqrt (a ^ 2 + b ^ 2))
    (L L' : List (Point K)) (hL : 388 ≤ L.length) (_hL' : 48 ≤ L'.length)
    (hmap : ∀ p ∈ eyeIndexMap, L'[p.1]? = L[p.2]?) :
    BlinkDetection.calculateEAR sqrt L' = calculateEAR hypot L ∧
    (∃ e, calculateEAR hypot L = some e) ∧
    eyeIndexMap =
      [(36, 362), (37, 385), (38, 387), (39, 263), (40, 373), (41, 380),
       (42, 33), (43, 160), (44, 158), (45, 133), (46, 153), (47, 144)] := by
  have hm : ∀ i j, (i, j) ∈ eyeIndexMap → j < L.length → L'[i]? = some (L.getD j ⟨0, 0⟩) := by
    intro i j hij hj
    rw [hmap (i, j) hij]
    exact getElem?_eq_some_getD L j hj
  refine ⟨?_, ⟨_, calculateEAR_eq hypot L hL⟩, rfl⟩
  rw [calculateEAR_eq hypot L hL,
    blinkDetection_calculateEAR_of_some sqrt L' _ _ _ _ _ _ _ _ _ _ _ _
      (hm 36 362 (by simp [eyeIndexMap]) (by omega))
      (hm 37 385 (by simp [eyeIndexMap]) (by omega))
      (hm 38 387 (by simp [eyeIndexMap]) (by omega))
      (hm 39 263 (by simp [eyeIndexMap]) (by omega))
      (hm 40 373 (by simp [eyeIndexMap]) (by omega))
      (hm 41 380 (by simp [eyeIndexMap]) (by omega))
      (hm 42 33 (by simp [eyeIndexMap]) (by omega))
      (hm 43 160 (by simp [eyeIndexMap]) (by omega))
      (hm 44 158 (by simp [eyeIndexMap]) (by omega))
      (hm 45 133 (by simp [eyeIndexMap]) (by omega))
      (hm 46 153 (by simp [eyeIndexMap]) (by omega))
      (hm 47 144 (by simp [eyeIndexMap]) (by omega)),
    blinkDetection_eyeRatio_eq hypot sqrt hS, blinkDetection_eyeRatio_eq hypot sqrt hS]

theorem toEyeLayout_length (lm : List (Point K)) : (toEyeLayout lm).length = 48 := by
  simp [toEyeLayout]

theorem toEyeLayout_getElem? (lm : List (Point K)) (hl : 388 ≤ lm.length) :
    ∀ p ∈ eyeIndexMap, (toEyeLayout lm)[p.1]? = lm[p.2]? := by
  have key : ∀ i j, i < 48 → (eyeIndexMap.lookup i).getD 0 = j → j < lm.length →
      (toEyeLayout lm)[i]? = lm[j]? := by
    intro i j hi hij hj
    rw [toEyeLayout, List.getElem?_map, List.getElem?_range hi, Option.map_some', hij,
      getElem?_eq_some_getD lm j hj]
  intro p hp
  simp only [eyeIndexMap, List.mem_cons, List.mem_singleton, List.not_mem_nil, or_false] at hp
  rcases hp with rfl | rfl | rfl | rfl | rfl | rfl | rfl | rfl | rfl | rfl | rfl | rfl
  all_goals exact key _ _ (by decide) (by decide) (by omega)

/-- Witness for C17: the open-eyed sample over the reals and its 48-point
layout, with the real square root. -/
theorem calculateEAR_implementations_agree_witness :
    388 ≤ (openEyes : List (Point ℝ)).length ∧
    48 ≤ (toEyeLayout (openEyes : List (Point ℝ))).length ∧
    BlinkDetection.calculateEAR Real.sqrt (toEyeLayout (openEyes : List (Point ℝ))) =
      calculateEAR (fun a b => Real.sqrt (a ^ 2 + b ^ 2)) openEyes :=
  have hl : 388 ≤ (openEyes : List (Point ℝ)).length := by rw [openEyes_length]; norm_num
  have hl' : 48 ≤ (toEyeLayout (openEyes : List (Point ℝ))).length := by
    rw [toEyeLayout_length]
  ⟨hl, hl',
    (calculateEAR_implementations_agree (fun a b => Real.sqrt (a ^ 2 + b ^ 2)) Real.sqrt
      (fun _ _ => rfl) openEyes (toEyeLayout openEyes) hl hl'
      (toEyeLayout_getElem? openEyes hl)).1⟩

/-! ## What the history holds -/

section allConfirmed
variable (hypot : K → K → K)

theorem addToHistory_all_confirmed (h : List String) (hh : ∀ x ∈ h, x = "confirmed") :
    ∀ x ∈ addToHistory h "confirmed", x = "confirmed" := by
  have hp : ∀ x ∈ h ++ ["confirmed"], x = "confirmed" := by
    intro x hx
    rcases List.mem_append.1 hx with hx | hx
    · exact hh x hx
    · exact List.mem_singleton.1 hx
  unfold addToHistory
  dsimp only
  split_ifs
  · intro x hx; exact hp x (List.mem_of_mem_tail hx)
  · exact hp

theorem detect_all_confirmed (s : Session K) (f : Frame K)
    (hh : ∀ x ∈ s.livenessHistory, x = "confirmed") :
    ∀ x ∈ (sessionAfter (detect hypot s f)).livenessHistory, x = "confirmed" := by
  rw [detect_livenessHistory]
  cases hf : f.face with
  | none => rw [faceBlock_of_no_face hypot s f hf]; exact hh
  | some lm =>
    cases he : calculateEAR hypot lm with
    | none => rw [faceBlock_of_malformed hypot s f lm hf he]; exact hh
    | some e =>
      have h1 : ∀ x ∈ (blinkConfirm (blinkUpdate s e f.now)).livenessHistory,
          x = "confirmed" := by
        unfold blinkConfirm
        split_ifs
        · exact addToHistory_all_confirmed _ (by simpa using hh)
        · simpa using hh
      have h2 : ∀ x ∈ (sessionAfter (movementUpdate (blinkConfirm (blinkUpdate s e f.now))
          lm)).livenessHistory, x = "confirmed" := by
        rw [movementUpdate_effect]
        split_ifs
        · exact addToHistory_all_confirmed _ h1
        · exact h1
        · exact h1
      rw [faceBlock_of_face hypot s f lm e hf he]
      cases hmu : movementUpdate (blinkConfirm (blinkUpdate s e f.now)) lm with
      | error s2 => rw [hmu] at h2; exact h2
      | ok s2 => rw [hmu] at h2; exact h2

theorem run_all_confirmed (es : List (Event K)) (s : Session K)
    (hh : ∀ x ∈ s.livenessHistory, x = "confirmed") :
    ∀ x ∈ (run hypot s es).livenessHistory, x = "confirmed" := by
  induction es generalizing s with
  | nil => exact hh
  | cons e es ih =>
    apply ih
    cases e with
    | frame f => exact detect_all_confirmed hypot s f hh
    | deadline =>
      show ∀ x ∈ (deadlineFires s).livenessHistory, x = "confirmed"
      unfold deadlineFires capturedLiveness
      split_ifs <;> exact hh

theorem count_of_all_confirmed (h : List String) (hh : ∀ x ∈ h, x = "confirmed") :
    h.count "confirmed" = h.length :=
  List.count_eq_length.2 (fun x hx => (hh x hx).symm)

end allConfirmed

/-- C18: in a session, whatever the events, every entry of the history is
"confirmed"; so the majority test holds exactly when the history has at least
three entries; the history never gets shorter; and once the test holds it holds
after every later event, and every later frame that runs to its end sets
`liveness` to hand presence. -/
theorem history_holds_only_confirmed (hypot : K → K → K) (startTime : Int)
    (es later : List (Event K)) :
    (∀ x ∈ (run hypot (runModels startTime) es).livenessHistory, x = "confirmed") ∧
    (isLivenessConfirmed (run hypot (runModels startTime) es).livenessHistory = true ↔
      3 ≤ (run hypot (runModels startTime) es).livenessHistory.length) ∧
    (run hypot (runModels startTime) es).livenessHistory.length ≤
      (run hypot (runModels startTime) (es ++ later)).livenessHistory.length ∧
    (isLivenessConfirmed (run hypot (runModels startTime) es).livenessHistory = true →
      isLivenessConfirmed (run hypot (runModels startTime) (es ++ later)).livenessHistory
        = true ∧
      ∀ g s2, detect hypot (run hypot (runModels startTime) (es ++ later)) g = .ok s2 →
        s2.liveness = g.hand.isSome) := by
  have hall : ∀ l : List (Event K),
      ∀ x ∈ (run hypot (runModels startTime) l).livenessHistory, x = "confirmed" :=
    fun l => run_all_confirmed hypot l _ (fun x hx => by simp [runModels] at hx)
  refine ⟨hall es, ?_, ?_, ?_⟩
  · rw [isLivenessConfirmed_iff, count_of_all_confirmed _ (hall es)]
  · rw [← count_of_all_confirmed _ (hall es), ← count_of_all_confirmed _ (hall (es ++ later)),
      run_append]
    exact run_count_ge hypot later _
  · intro h
    have h2 : isLivenessConfirmed
        (run hypot (runModels startTime) (es ++ later)).livenessHistory = true := by
      rw [run_append]; exact run_isLivenessConfirmed hypot later _ h
    exact ⟨h2, fun g s2 hd => detect_liveness_of_majority hypot _ s2 g h2 hd⟩

/-- Witness for C18: after the five nodding frames and the open-hand frame the
history passes the majority test; it still does after a frame with neither face
nor hand. -/
theorem history_holds_only_confirmed_witness :
    isLivenessConfirmed
      (run hypotAxis (runModels 0)
        ((nodTrace ++ [palmFrame]).map Event.frame)).livenessHistory = true ∧
    isLivenessConfirmed
      (run hypotAxis (runModels 0)
        ((nodTrace ++ [palmFrame]).map Event.frame ++
          [Event.frame ⟨none, none, 600⟩])).livenessHistory = true := by
  have h5 := runFrames_nodTrace hypotAxis (runModels 0 : Session ℚ) rfl (by decide) rfl
  have hp5 := congrArg Session.previousLandmarks h5
  have hb5 := congrArg Session.blinkCount h5
  have hm5 := congrArg Session.movementCount h5
  have hh5 := congrArg Session.livenessHistory h5
  have hd := detect_palmFrame _ hp5 (by rw [hb5]; exact (by decide : (0 : ℕ) < 3)) hm5
    (by rw [hh5]; rfl)
  have h6 : (run hypotAxis (runModels 0)
      ((nodTrace ++ [palmFrame]).map Event.frame)).livenessHistory =
        ["confirmed", "confirmed", "confirmed"] := by
    rw [run_map_frame, runFrames_append, runFrames_cons, runFrames_nil, hd]
    rfl
  have hlc : isLivenessConfirmed (run hypotAxis (runModels 0)
      ((nodTrace ++ [palmFrame]).map Event.frame)).livenessHistory = true := by
    rw [h6]; exact (isLivenessConfirmed_iff _).2 (by decide)
  have h := history_holds_only_confirmed hypotAxis 0
    ((nodTrace ++ [palmFrame]).map Event.frame) [Event.frame (⟨none, none, 600⟩ : Frame ℚ)]
  exact ⟨hlc, (h.2.2.2 hlc).1⟩

/-! ## Movement votes over a session -/

section movementVotes
variable (hypot : K → K → K)

theorem addToHistory_length (h : List String) (v : String) (hl : h.length ≤ 5) :
    (addToHistory h v).length = min 5 (h.length + 1) := by
  by_cases h5 : h.length < 5
  · rw [addToHistory_of_length_lt h v h5, List.length_append, List.length_singleton]
    omega
  · rw [addToHistory_of_length_ge h v (by omega), List.length_append, List.length_singleton,
      List.length_tail]
    omega

theorem blinkConfirm_length_ge (s : Session K) (hl : s.livenessHistory.length ≤ 5) :
    s.livenessHistory.length ≤ (blinkConfirm s).livenessHistory.length := by
  unfold blinkConfirm
  split_ifs
  · show _ ≤ (addToHistory s.livenessHistory "confirmed").length
    rw [addToHistory_length _ _ hl]; omega
  · exact le_refl _

/-- A frame with a face never shortens a history of at most five entries, and
lengthens it (up to five) when the movement code votes. -/
theorem detect_length_of_face (s : Session K) (f : Frame K) (hf : f.face ≠ none)
    (hl : s.livenessHistory.length ≤ 5) :
    min 5 (s.livenessHistory.length +
        (if movementQualifies hypot s f = true ∧ s.movementCount + 1 ≥ 3 then 1 else 0)) ≤
      (sessionAfter (detect hypot s f)).livenessHistory.length := by
  cases hface : f.face with
  | none => exact absurd hface hf
  | some lm =>
    cases he : calculateEAR hypot lm with
    | none =>
      have hq : movementQualifies hypot s f = false := by
        unfold movementQualifies; rw [hface]; simp only [he]
      rw [detect_livenessHistory, faceBlock_of_malformed hypot s f lm hface he, hq]
      show _ ≤ s.livenessHistory.length
      simp
    | some e =>
      have h1 := blinkConfirm_length_ge (blinkUpdate s e f.now) (by simpa using hl)
      rw [blinkUpdate_livenessHistory] at h1
      have h2 := blinkConfirm_history_length (blinkUpdate s e f.now) (by simpa using hl)
      rw [detect_history_of_face hypot s f lm e hface he]
      split_ifs
      · rw [addToHistory_length _ _ h2]; omega
      · omega

/-- Over frames that all show a face, from a history of at most five entries:
the history gains (up to five) one entry for every qualifying pair that brings
`movementCount` to three or more. -/
theorem runFrames_length_of_faces (fs : List (Frame K)) (s : Session K)
    (hfs : ∀ f ∈ fs, f.face ≠ none) (hl : s.livenessHistory.length ≤ 5) :
    min 5 (s.livenessHistory.length +
        ((s.movementCount + qualifyingPairs hypot s fs - 2) - (s.movementCount - 2))) ≤
      (runFrames hypot s fs).livenessHistory.length := by
  induction fs generalizing s with
  | nil =>
    rw [runFrames_nil]
    show min 5 (_ + ((s.movementCount + 0 - 2) - (s.movementCount - 2))) ≤ _
    omega
  | cons f fs ih =>
    have hf := hfs f (List.mem_cons_self f fs)
    have hstep := detect_length_of_face hypot s f hf hl
    have hmc := detect_movementCount_step hypot s f hf
    have hl' : (sessionAfter (detect hypot s f)).livenessHistory.length ≤ 5 := by
      rw [detect_livenessHistory]; exact faceBlock_history_length hypot s f hl
    have hih := ih (sessionAfter (detect hypot s f))
      (fun g hg => hfs g (List.mem_cons_of_mem f hg)) hl'
    rw [runFrames_cons]
    show min 5 (_ + ((s.movementCount + ((if movementQualifies hypot s f then 1 else 0) +
      qualifyingPairs hypot (sessionAfter (detect hypot s f)) fs) - 2) -
        (s.movementCount - 2))) ≤ _
    rw [hmc] at hih
    cases hq : movementQualifies hypot s f with
    | true =>
      simp only [hq, if_true, true_and] at hstep hih ⊢
      split_ifs at hstep <;> omega
    | false =>
      simp only [hq, Bool.false_eq_true, if_false, false_and, Nat.add_zero,
        Nat.zero_add] at hstep hih ⊢
      omega

end movementVotes

/-- C19: a frame with a face never resets `movementCount`: it adds one when the
pair qualifies and nothing otherwise, vote or no vote, and the deadline leaves
it alone; only a frame without a face sets it to 0.  So over frames that all
show a face, from `movementCount = 0`, the movement code of a frame votes
exactly when the frame qualifies and at least two pairs qualified before it
(the third pair and every later one, consecutive or not); and in a fresh
session five qualifying pairs make the majority test true, blinks or no
blinks. -/
theorem movement_tally_not_consumed (hypot : K → K → K) :
    (∀ (s : Session K) (f : Frame K), f.face ≠ none →
      (sessionAfter (detect hypot s f)).movementCount =
        s.movementCount + (if movementQualifies hypot s f then 1 else 0)) ∧
    (∀ (s : Session K) (f : Frame K), f.face = none →
      (sessionAfter (detect hypot s f)).movementCount = 0) ∧
    (∀ s : Session K, (deadlineFires s).movementCount = s.movementCount) ∧
    (∀ (s0 : Session K) (fs : List (Frame K)) (f : Frame K) (lm : List (Point K))
        (e : JsNumber K),
      s0.movementCount = 0 → (∀ g ∈ fs, g.face ≠ none) →
      f.face = some lm → calculateEAR hypot lm = some e →
      (sessionAfter (detect hypot (runFrames hypot s0 fs) f)).livenessHistory =
        if movementQualifies hypot (runFrames hypot s0 fs) f = true ∧
            2 ≤ qualifyingPairs hypot s0 fs then
          addToHistory
            (blinkConfirm (blinkUpdate (runFrames hypot s0 fs) e f.now)).livenessHistory
            "confirmed"
        else (blinkConfirm (blinkUpdate (runFrames hypot s0 fs) e f.now)).livenessHistory) ∧
    (∀ (startTime : Int) (fs : List (Frame K)), (∀ g ∈ fs, g.face ≠ none) →
      5 ≤ qualifyingPairs hypot (runModels startTime) fs →
      isLivenessConfirmed (runFrames hypot (runModels startTime) fs).livenessHistory = true) := by
  refine ⟨fun s f hf => detect_movementCount_step hypot s f hf, ?_, ?_, ?_, ?_⟩
  · intro s f hf
    rw [detect_movementCount, faceBlock_of_no_face hypot s f hf]; rfl
  · intro s
    unfold deadlineFires capturedLiveness
    split_ifs <;> rfl
  · intro s0 fs f lm e hs0 hfs hf he
    have hmc := runFrames_movementCount hypot fs s0 hfs
    rw [hs0, Nat.zero_add] at hmc
    rw [detect_history_of_face hypot _ f lm e hf he, hmc]
    by_cases hq : movementQualifies hypot (runFrames hypot s0 fs) f = true
    · by_cases h2 : 2 ≤ qualifyingPairs hypot s0 fs
      · rw [if_pos ⟨hq, by omega⟩, if_pos ⟨hq, h2⟩]
      · rw [if_neg (fun h => h2 (by omega)), if_neg (fun h => h2 h.2)]
    · rw [if_neg (fun h => hq h.1), if_neg (fun h => hq h.1)]
  · intro startTime fs hfs h5
    have hlen := runFrames_length_of_faces hypot fs (runModels startTime) hfs
      (by simp [runModels])
    have h0 : (runModels startTime : Session K).movementCount = 0 := rfl
    have hL0 : (runModels startTime : Session K).livenessHistory.length = 0 := rfl
    rw [h0, hL0] at hlen
    have hall := run_all_confirmed hypot (fs.map Event.frame) (runModels startTime)
      (fun x hx => by simp [runModels] at hx)
    rw [run_map_frame] at hall
    rw [isLivenessConfirmed_iff, count_of_all_confirmed _ hall]
    omega

/-- Witness for C19: six nodding frames of a fresh session give five qualifying
pairs, and the majority test holds. -/
theorem movement_tally_not_consumed_witness :
    5 ≤ qualifyingPairs hypotAxis (runModels 0) (nodTrace ++ [nodFrame 5]) ∧
    isLivenessConfirmed
      (runFrames hypotAxis (runModels 0) (nodTrace ++ [nodFrame 5])).livenessHistory = true := by
  have hfaces : ∀ g ∈ (nodTrace ++ [nodFrame 5] : List (Frame ℚ)), g.face ≠ none := by
    intro g hg
    simp only [nodTrace, List.cons_append, List.nil_append, List.mem_cons, List.mem_singleton,
      List.not_mem_nil, or_false] at hg
    rcases hg with rfl | rfl | rfl | rfl | rfl | rfl <;> simp [nodFrame]
  have h5 := runFrames_nodTrace hypotAxis (runModels 0 : Session ℚ) rfl (by decide) rfl
  have hp5 := congrArg Session.previousLandmarks h5
  have hb5 := congrArg Session.blinkCount h5
  have hm5 := congrArg Session.movementCount h5
  have h6 := detect_of_no_hand hypotAxis _ _ (nodFrame 5)
    (faceBlock_nod_succ hypotAxis (runFrames hypotAxis (runModels 0) nodTrace) (nodFrame 5) 4
      rfl hp5 (by rw [hb5]; exact (by decide : (0 : ℕ) < 3))) rfl
  have hmc : (runFrames hypotAxis (runModels 0) (nodTrace ++ [nodFrame 5])).movementCount
      = 5 := by
    rw [runFrames_append, runFrames_cons, runFrames_nil, h6]
    show (runFrames hypotAxis (runModels 0) nodTrace).movementCount + 1 = 5
    rw [hm5]
  have hq : 5 ≤ qualifyingPairs hypotAxis (runModels 0) (nodTrace ++ [nodFrame 5]) := by
    have := runFrames_movementCount hypotAxis (nodTrace ++ [nodFrame 5]) (runModels 0) hfaces
    rw [hmc] at this
    have h0 : (runModels 0 : Session ℚ).movementCount = 0 := rfl
    omega
  exact ⟨hq, (movement_tally_not_consumed hypotAxis).2.2.2.2 0 _ hfaces hq⟩

/-! ## Minimum evidence -/

section evidence
variable (hypot : K → K → K)

theorem addToHistory_length_le_succ (h : List String) (v : String) :
    (addToHistory h v).length ≤ h.length + 1 := by
  unfold addToHistory
  dsimp only
  split_ifs
  · rw [List.length_tail, List.length_append, List.length_singleton]; omega
  · rw [List.length_append, List.length_singleton]

/-- The blink code of one frame: a vote costs three counted blinks, and the
frame counts at most one. -/
theorem blinkBlock_evidence (s : Session K) (e : JsNumber K) (now : Int) (n B : Nat)
    (L : Nat) (hL : s.livenessHistory.length ≤ L + B) (hB : 3 * B + s.blinkCount ≤ n) :
    ∃ B', (blinkConfirm (blinkUpdate s e now)).livenessHistory.length ≤ L + B' ∧
      3 * B' + (blinkConfirm (blinkUpdate s e now)).blinkCount ≤ n + 1 := by
  by_cases hc : e.ltConst (1 / 4) = true ∧ now - s.lastBlinkTime > 300
  · by_cases h3 : s.blinkCount + 1 ≥ 3
    · obtain ⟨hh, hb⟩ := (blinkBlock_of_counted s e now hc).1 h3
      refine ⟨B + 1, ?_, ?_⟩
      · rw [hh]; have := addToHistory_length_le_succ s.livenessHistory "confirmed"; omega
      · rw [hb]; omega
    · obtain ⟨hh, hb⟩ := (blinkBlock_of_counted s e now hc).2 (by omega)
      exact ⟨B, by rw [hh]; exact hL, by rw [hb]; omega⟩
  · rw [blinkUpdate_of_not_counted s e now hc]
    by_cases h3 : 3 ≤ s.blinkCount
    · rw [blinkConfirm_of_ge s h3]
      refine ⟨B + 1, ?_, ?_⟩
      · show (addToHistory s.livenessHistory "confirmed").length ≤ _
        have := addToHistory_length_le_succ s.livenessHistory "confirmed"; omega
      · show 3 * (B + 1) + 0 ≤ n + 1; omega
    · rw [blinkConfirm_of_lt s (by omega)]
      exact ⟨B, hL, by omega⟩

theorem movementQualifies_previous (s : Session K) (f : Frame K)
    (h : movementQualifies hypot s f = true) : s.previousLandmarks ≠ none := by
  intro hp
  unfold movementQualifies at h
  cases hf : f.face with
  | none => rw [hf] at h; exact absurd h (by simp)
  | some lm =>
    rw [hf] at h
    cases he : calculateEAR hypot lm with
    | none => simp [he] at h
    | some e => simp [he, hp, pairQualifies] at h

/-- One more frame, one more unit of evidence at most. -/
theorem detect_evidenceBound (s : Session K) (f : Frame K) (n : Nat)
    (h : EvidenceBound n s) : EvidenceBound (n + 1) (sessionAfter (detect hypot s f)) := by
  obtain ⟨B, M, hL, hB, hM, hmc, hprev⟩ := h
  cases hf : f.face with
  | none =>
    refine ⟨B, M, ?_, ?_, by omega, ?_, fun _ => by omega⟩
    · rw [detect_livenessHistory, faceBlock_of_no_face hypot s f hf]; exact hL
    · rw [detect_blinkCount, faceBlock_of_no_face hypot s f hf]
      show 3 * B + s.blinkCount ≤ n + 1; omega
    · rw [detect_movementCount, faceBlock_of_no_face hypot s f hf]
      show 0 ≤ n + 1 - 1; omega
  | some lm =>
    cases he : calculateEAR hypot lm with
    | none =>
      refine ⟨B, M, ?_, ?_, by omega, ?_, fun _ => by omega⟩
      · rw [detect_livenessHistory, faceBlock_of_malformed hypot s f lm hf he]; exact hL
      · rw [detect_blinkCount, faceBlock_of_malformed hypot s f lm hf he]
        show 3 * B + s.blinkCount ≤ n + 1; omega
      · rw [detect_movementCount, faceBlock_of_malformed hypot s f lm hf he]
        show s.movementCount ≤ n + 1 - 1; omega
    | some e =>
      obtain ⟨B', hL', hB'⟩ := blinkBlock_evidence s e f.now n B M
        (by omega) hB
      have hmcs := detect_movementCount_step hypot s f (by rw [hf]; simp)
      have hhist := detect_history_of_face hypot s f lm e hf he
      have hbc := (detect_blink_fields hypot s e f lm hf he).2
      cases hq : movementQualifies hypot s f with
      | false =>
        rw [hq] at hmcs hhist
        simp only [Bool.false_eq_true, false_and, if_false, Nat.add_zero] at hmcs hhist
        exact ⟨B', M, by rw [hhist]; omega, by rw [hbc]; exact hB', by omega,
          by rw [hmcs]; omega, fun _ => by omega⟩
      | true =>
        have hn : 1 ≤ n := hprev (movementQualifies_previous hypot s f hq)
        rw [hq] at hmcs hhist
        simp only [if_true, true_and] at hmcs hhist
        by_cases h3 : s.movementCount + 1 ≥ 3
        · rw [if_pos h3] at hhist
          have := addToHistory_length_le_succ
            (blinkConfirm (blinkUpdate s e f.now)).livenessHistory "confirmed"
          exact ⟨B', M + 1, by rw [hhist]; omega, by rw [hbc]; exact hB', by omega,
            by rw [hmcs]; omega, fun _ => by omega⟩
        · rw [if_neg h3] at hhist
          exact ⟨B', M, by rw [hhist]; omega, by rw [hbc]; exact hB', by omega,
            by rw [hmcs]; omega, fun _ => by omega⟩

theorem runFrames_evidenceBound (fs : List (Frame K)) (s : Session K) (n : Nat)
    (h : EvidenceBound n s) : EvidenceBound (n + fs.length) (runFrames hypot s fs) := by
  induction fs generalizing s n with
  | nil => exact h
  | cons f fs ih =>
    have := ih (sessionAfter (detect hypot s f)) (n + 1) (detect_evidenceBound hypot s f n h)
    rw [List.length_cons, show n + (fs.length + 1) = n + 1 + fs.length by omega]
    exact this

theorem runModels_evidenceBound (startTime : Int) :
    EvidenceBound 0 (runModels startTime : Session K) :=
  ⟨0, 0, by simp [runModels], by simp [runModels], by omega, by simp [runModels],
    fun h => absurd rfl h⟩

theorem evidenceBound_length (n : Nat) (s : Session K) (h : EvidenceBound n s) :
    s.livenessHistory.length ≤ n / 3 + (n - 3) := by
  obtain ⟨B, M, hL, hB, hM, -, -⟩ := h
  omega

end evidence

/-- C20: in a fresh session, whatever the faces, hands and timestamps, the
history is empty after two frames, holds at most one vote after three and at
most two after four (a blink vote needs three frames, a movement vote four);
so each of the first four frames, if it runs to its end, ends with a false
verdict, and `liveness` is false after each of them. -/
theorem first_four_frames_not_confirmed (hypot : K → K → K) (startTime : Int)
    (fs : List (Frame K)) :
    (fs.length ≤ 2 → (runFrames hypot (runModels startTime) fs).livenessHistory = []) ∧
    (fs.length ≤ 3 → (runFrames hypot (runModels startTime) fs).livenessHistory.length ≤ 1) ∧
    (fs.length ≤ 4 → (runFrames hypot (runModels startTime) fs).livenessHistory.length ≤ 2) ∧
    (fs.length ≤ 4 →
      isLivenessConfirmed (runFrames hypot (runModels startTime) fs).livenessHistory = false) ∧
    (∀ f s', fs.length ≤ 3 →
      detect hypot (runFrames hypot (runModels startTime) fs) f = .ok s' →
      s'.liveness = false) := by
  have hb := runFrames_evidenceBound hypot fs (runModels startTime) 0
    (runModels_evidenceBound startTime)
  rw [Nat.zero_add] at hb
  have hlen := evidenceBound_length _ _ hb
  have hlc : fs.length ≤ 4 →
      isLivenessConfirmed (runFrames hypot (runModels startTime) fs).livenessHistory = false := by
    intro h4
    rw [← Bool.not_eq_true, isLivenessConfirmed_iff]
    have := List.count_le_length "confirmed"
      (runFrames hypot (runModels startTime) fs).livenessHistory
    omega
  refine ⟨?_, ?_, ?_, hlc, ?_⟩
  · intro h2
    apply List.eq_nil_of_length_eq_zero
    omega
  · intro h3; omega
  · intro h4; omega
  · intro f s' h3 hd
    have hb' := detect_evidenceBound hypot _ f _ hb
    rw [hd] at hb'
    have hlen' := evidenceBound_length _ _ hb'
    have hcnt := List.count_le_length "confirmed" s'.livenessHistory
    have hs' : sessionAfter (Except.ok s' : Except (Session K) (Session K)) = s' := rfl
    rw [hs'] at hlen'
    have hno : isLivenessConfirmed s'.livenessHistory = false := by
      rw [← Bool.not_eq_true, isLivenessConfirmed_iff]; omega
    rw [detect_liveness_of_ok hypot _ f s' hd, hno, Bool.false_and]

/-- Witness for C20: the fourth frame of a fresh session shows the fourth
nodding face and an open hand; it records the first movement vote and runs to
its end with a false verdict. -/
theorem first_four_frames_not_confirmed_witness :
    ([nodFrame 0, nodFrame 1, nodFrame 2] : List (Frame ℚ)).length ≤ 3 ∧
    ∃ s', detect hypotAxis
        (runFrames hypotAxis (runModels 0) [nodFrame 0, nodFrame 1, nodFrame 2])
        ⟨some (nodFace 3), some openPalm, 300⟩ = .ok s' ∧ s'.liveness = false := by
  have h3 : ([nodFrame 0, nodFrame 1, nodFrame 2] : List (Frame ℚ)).length ≤ 3 := by decide
  have hrun := runFrames_nod_three hypotAxis
  have hwf : wellFormed
      (runFrames hypotAxis (runModels 0) [nodFrame 0, nodFrame 1, nodFrame 2])
      (⟨some (nodFace 3), some openPalm, 300⟩ : Frame ℚ) = true := by
    rw [wellFormed_iff]
    refine ⟨fun lm hlm => ⟨?_, fun prev hp => ?_⟩, fun lm hlm => ?_⟩
    · cases hlm; rw [nodFace_length]; decide
    · rw [hrun] at hp; cases hp; rw [nodFace_length]; decide
    · cases hlm; decide
  obtain ⟨s', hd⟩ := detect_isOk hypotAxis _ _ hwf
  exact ⟨h3, s', hd,
    (first_four_frames_not_confirmed hypotAxis 0 [nodFrame 0, nodFrame 1, nodFrame 2]).2.2.2.2
      ⟨some (nodFace 3), some openPalm, 300⟩ s' h3 hd⟩

end Liveness
